import Mathlib

/-!
Verification development for the ExifTool-RDF-to-UCO mapping tool
(`case_exiftool/__init__.py`).

The mapping engine (`ExifToolRDFMapper`) is shallowly embedded here:
* RDF nodes are `Node` (URI references and literals with an optional
  datatype IRI); the output graph is a list of triples kept duplicate-free
  by `graphAdd`, matching rdflib's set-of-triples semantics.
* The mapper's mutable object (its memoized lazy accessors, the two
  key/value dictionaries of the raw and print-converted dumps, the pending
  IRI set) becomes the explicit state record `MState`, threaded through
  every operation.  Python exceptions (`ValueError` from `int`,
  `AssertionError`) become `Except String`.
* `case_utils.local_uuid.local_uuid` (an external process-unique
  identifier source) is modelled by a counter in the state;
  `case_utils.inherent_uuid.get_facet_uriref` (external, deterministic in
  its inputs) is modelled by a deterministic string construction.
* Input property dumps are association lists from predicate IRI to value
  node; loading a dump applies the same last-write-wins fold the Python
  loader performs over the parsed triples.
* ExifTool XML dumps produce plain (string-lexical) literals, so
  `Literal.toPython()` is modelled as returning the literal's lexical
  form, and `str()` of a literal likewise.

String manipulation is implemented structurally over `List Char` because
the corresponding Python operations (`int(...)`, `str.replace`,
`str.isdigit`, lexicographic comparison used by `sorted`) must be
executable inside the kernel.
-/

namespace CaseExiftool

/-- Code-point lexicographic comparison of character lists, the order
Python's `sorted` uses on strings. -/
def charListLe : List Char → List Char → Bool
  | [], _ => true
  | _ :: _, [] => false
  | a :: as, b :: bs =>
    if a.toNat < b.toNat then true
    else if b.toNat < a.toNat then false
    else charListLe as bs

/-- String comparison by code points (Python `<=` on `str`). -/
def strLe (a b : String) : Bool := charListLe a.data b.data

/-- Insert a string into a sorted list, keeping it sorted. -/
def insortStr (x : String) : List String → List String
  | [] => [x]
  | y :: ys => if strLe x y then x :: y :: ys else y :: insortStr x ys

/-- Python's `sorted` on a collection of strings: ascending code-point
lexicographic order. -/
def sortStrs (xs : List String) : List String := xs.foldr insortStr []

/-- Value of a nonempty all-digit character list, used for Python's
`int()` on a digit string. -/
def digitsToNat : List Char → Nat → Nat
  | [], acc => acc
  | c :: cs, acc => digitsToNat cs (acc * 10 + (c.toNat - 48))

/-- Python `str.isdigit` (ASCII digits; ExifTool values are ASCII). -/
def pyIsDigit (s : String) : Bool :=
  !s.data.isEmpty && s.data.all Char.isDigit

/-- Drop leading Python-whitespace characters. -/
def dropLeadingWs : List Char → List Char
  | [] => []
  | c :: cs => if c = ' ' || c = '\t' || c = '\n' || c = '\r' then dropLeadingWs cs else c :: cs

/-- Python `int(str)`: strip surrounding whitespace, optional sign, then a
nonempty digit string; anything else raises `ValueError` (here `none`). -/
def pyIntOfString (s : String) : Option Int :=
  let t := (dropLeadingWs (dropLeadingWs s.data.reverse).reverse)
  match t with
  | [] => none
  | c :: cs =>
    if c = '-' then
      if !cs.isEmpty && cs.all Char.isDigit then some (-(digitsToNat cs 0 : Int)) else none
    else if c = '+' then
      if !cs.isEmpty && cs.all Char.isDigit then some (digitsToNat cs 0 : Int) else none
    else
      if (c :: cs).all Char.isDigit then some (digitsToNat (c :: cs) 0 : Int) else none

/-- One pass of Python `str.replace` over a character list, with fuel for
structural termination (fuel is the list length, enough for every
occurrence). -/
def replaceGo (pat rep : List Char) : Nat → List Char → List Char
  | _, [] => []
  | 0, s => s
  | Nat.succ n, c :: cs =>
    if pat.isPrefixOf (c :: cs) && !pat.isEmpty then
      rep ++ replaceGo pat rep n (cs.drop (pat.length - 1))
    else
      c :: replaceGo pat rep n cs

/-- Python `str.replace(pat, rep)` for a nonempty pattern: replace each
non-overlapping occurrence, scanning left to right. -/
def pyReplace (s pat rep : String) : String :=
  ⟨replaceGo pat.data rep.data s.data.length s.data⟩

/-- RDF node: a URI reference or a literal (lexical form plus optional
datatype IRI).  ExifTool dumps are parsed by rdflib into exactly these two
shapes of object. -/
inductive Node where
  | uri (iri : String)
  | lit (lexical : String) (datatype : Option String)
deriving DecidableEq, Repr

/-- RDF triple. -/
structure Triple where
  s : Node
  p : Node
  o : Node
deriving DecidableEq, Repr

/-- The `rdf:` namespace (bound by `case_utils.namespace.NS_RDF`). -/
def NS_RDF (term : String) : Node :=
  .uri ("http://www.w3.org/1999/02/22-rdf-syntax-ns#" ++ term)

/-- The `rdfs:` namespace (bound by `case_utils.namespace.NS_RDFS`). -/
def NS_RDFS (term : String) : Node :=
  .uri ("http://www.w3.org/2000/01/rdf-schema#" ++ term)

/-- The `uco-core:` namespace. -/
def NS_UCO_CORE (term : String) : Node :=
  .uri ("https://ontology.unifiedcyberontology.org/uco/core/" ++ term)

/-- The `uco-identity:` namespace. -/
def NS_UCO_IDENTITY (term : String) : Node :=
  .uri ("https://ontology.unifiedcyberontology.org/uco/identity/" ++ term)

/-- The `uco-location:` namespace. -/
def NS_UCO_LOCATION (term : String) : Node :=
  .uri ("https://ontology.unifiedcyberontology.org/uco/location/" ++ term)

/-- The `uco-observable:` namespace. -/
def NS_UCO_OBSERVABLE (term : String) : Node :=
  .uri ("https://ontology.unifiedcyberontology.org/uco/observable/" ++ term)

/-- The `uco-types:` namespace. -/
def NS_UCO_TYPES (term : String) : Node :=
  .uri ("https://ontology.unifiedcyberontology.org/uco/types/" ++ term)

/-- The `xsd:` namespace, as datatype IRI strings for literals. -/
def NS_XSD (term : String) : String :=
  "http://www.w3.org/2001/XMLSchema#" ++ term

/-- Literal constructed by Python `rdflib.Literal(int_value)`: decimal
rendering with `xsd:integer` datatype. -/
def intLiteral (i : Int) : Node := .lit (toString i) (some (NS_XSD "integer"))

/-- Association-list lookup, the read of a Python `dict` keyed by IRI. -/
def dictLookup (d : List (String × Node)) (k : String) : Option Node :=
  match d with
  | [] => none
  | (k', v) :: rest => if k' = k then some v else dictLookup rest k

/-- Python `dict` write: overwrite in place if the key exists (keeping its
position), else append, preserving insertion order. -/
def dictInsert (d : List (String × Node)) (k : String) (v : Node) : List (String × Node) :=
  match d with
  | [] => [(k, v)]
  | (k', v') :: rest => if k' = k then (k, v) :: rest else (k', v') :: dictInsert rest k v

/-- Python `dict.pop(k)`: the dictionary without key `k`. -/
def dictRemove (d : List (String × Node)) (k : String) : List (String × Node) :=
  d.filter (fun kv => kv.1 ≠ k)

/-- Keys of a dictionary in insertion order. -/
def dictKeys (d : List (String × Node)) : List String := d.map Prod.fst

/-- Union of an identifier set (as a duplicate-free list) with a list of
keys, mirroring Python's `set |= set(keys)`. -/
def setUnion (a b : List String) : List String :=
  a ++ b.filter (fun x => ¬ x ∈ a)

/-- Set-of-triples `Graph.add` of rdflib: adding an already-present triple
is a no-op, otherwise the triple is appended. -/
def graphAdd (g : List Triple) (t : Triple) : List Triple :=
  if t ∈ g then g else g ++ [t]

/-- Mapper state: the fields of `ExifToolRDFMapper.__init__` plus the
output graph it mutates and the counter behind the external
`local_uuid` identifier source. -/
structure MState where
  graph : List Triple
  uuidCounter : Nat
  _exif_dictionary_dict : Option (List (String × Node))
  _kv_dict_raw : List (String × Node)
  _kv_dict_printconv : List (String × Node)
  _exiftool_predicate_iris : List String
  _mime_type : Option String
  _n_camera_object : Option String
  _n_camera_object_device_facet : Option String
  _n_content_data_facet : Option String
  _n_exif_dictionary_object : Option String
  _n_exif_facet : Option String
  _n_file_facet : Option String
  _n_location_object : Option String
  _n_location_object_latlong_facet : Option String
  _n_observable_object : Option String
  _n_raster_picture_facet : Option String
  _n_relationship_object_location : Option String
  _n_unix_file_permissions_facet : Option String
  _oo_slug : Option String
  _ns_base : String
  _use_deterministic_uuids : Bool
deriving DecidableEq, Repr

/-- Modelled from the spec: `case_utils.local_uuid.local_uuid` (not under
`src/`), a process-unique identifier generator, modelled as a counter
carried in the mapper state. -/
def local_uuid (s : MState) : String × MState :=
  (toString s.uuidCounter, { s with uuidCounter := s.uuidCounter + 1 })

/-- Modelled from the spec: `case_utils.inherent_uuid.get_facet_uriref`
(not under `src/`), an identifier deterministically derived from the
owning object's identifier plus the facet's type. -/
def get_facet_uriref (ns_base : String) (n_object : String) (facet_class_name : String) :
    String :=
  ns_base ++ facet_class_name ++ "-inherent-" ++ n_object

/-- Add one triple to the state's graph. -/
def stAdd (s : MState) (t : Triple) : MState :=
  { s with graph := graphAdd s.graph t }

/-- Accessor property `exif_dictionary_dict`: initialized to an empty
dictionary on first access. -/
def exif_dictionary_dict (s : MState) : List (String × Node) × MState :=
  match s._exif_dictionary_dict with
  | some d => (d, s)
  | none => ([], { s with _exif_dictionary_dict := some [] })

/-- Python `self.exif_dictionary_dict[key] = value`: access the lazy
dictionary and write the key in place. -/
def exif_dict_set (s : MState) (k : String) (v : Node) : MState :=
  let (d, s) := exif_dictionary_dict s
  { s with _exif_dictionary_dict := some (dictInsert d k v) }

/-- Accessor property `n_camera_object`: initialized on first access. -/
def n_camera_object (s : MState) : String × MState :=
  match s._n_camera_object with
  | some n => (n, s)
  | none =>
    let (u, s) := local_uuid s
    let n := s._ns_base ++ "Device-" ++ u
    let s := { s with _n_camera_object := some n }
    let s := stAdd s ⟨.uri n, NS_RDF "type", NS_UCO_OBSERVABLE "ObservableObject"⟩
    (n, s)

/-- Accessor property `n_camera_object_device_facet`: initialized on first
access. -/
def n_camera_object_device_facet (s : MState) : String × MState :=
  match s._n_camera_object_device_facet with
  | some n => (n, s)
  | none =>
    let (n, s) :=
      if s._use_deterministic_uuids then
        let (cam, s) := n_camera_object s
        (get_facet_uriref s._ns_base cam "DeviceFacet", s)
      else
        let (u, s) := local_uuid s
        (s._ns_base ++ "DeviceFacet-" ++ u, s)
    let s := { s with _n_camera_object_device_facet := some n }
    let s := stAdd s ⟨.uri n, NS_RDF "type", NS_UCO_OBSERVABLE "DeviceFacet"⟩
    let (cam, s) := n_camera_object s
    let s := stAdd s ⟨.uri cam, NS_UCO_CORE "hasFacet", .uri n⟩
    (n, s)

/-- Accessor property `n_location_object`: initialized on first access. -/
def n_location_object (s : MState) : String × MState :=
  match s._n_location_object with
  | some n => (n, s)
  | none =>
    let (u, s) := local_uuid s
    let n := s._ns_base ++ "Location-" ++ u
    let s := { s with _n_location_object := some n }
    let s := stAdd s ⟨.uri n, NS_RDF "type", NS_UCO_LOCATION "Location"⟩
    (n, s)

/-- Accessor property `n_location_object_latlong_facet`: initialized on
first access. -/
def n_location_object_latlong_facet (s : MState) : String × MState :=
  match s._n_location_object_latlong_facet with
  | some n => (n, s)
  | none =>
    let (n, s) :=
      if s._use_deterministic_uuids then
        let (loc, s) := n_location_object s
        (get_facet_uriref s._ns_base loc "LatLongCoordinatesFacet", s)
      else
        let (u, s) := local_uuid s
        (s._ns_base ++ "LatLongCoordinatesFacet-" ++ u, s)
    let s := { s with _n_location_object_latlong_facet := some n }
    let s := stAdd s ⟨.uri n, NS_RDF "type", NS_UCO_LOCATION "LatLongCoordinatesFacet"⟩
    let (loc, s) := n_location_object s
    let s := stAdd s ⟨.uri loc, NS_UCO_CORE "hasFacet", .uri n⟩
    (n, s)

/-- Accessor property `n_observable_object`: initialized on first access;
asserts that `oo_slug` has been decided (a `str`) before the base object
is created. -/
def n_observable_object (s : MState) : Except String (String × MState) :=
  match s._n_observable_object with
  | some n => .ok (n, s)
  | none =>
    match s._oo_slug with
    | none => .error "AssertionError: isinstance(self.oo_slug, str)"
    | some slug =>
      let (u, s) := local_uuid s
      let n := s._ns_base ++ slug ++ u
      let s := { s with _n_observable_object := some n }
      let s := stAdd s ⟨.uri n, NS_RDF "type", NS_UCO_OBSERVABLE "ObservableObject"⟩
      .ok (n, s)

/-- Accessor property `n_content_data_facet`: initialized on first
access. -/
def n_content_data_facet (s : MState) : Except String (String × MState) :=
  match s._n_content_data_facet with
  | some n => .ok (n, s)
  | none => do
    let (n, s) ←
      if s._use_deterministic_uuids then do
        let (oo, s) ← n_observable_object s
        Except.ok (get_facet_uriref s._ns_base oo "ContentDataFacet", s)
      else
        let (u, s) := local_uuid s
        Except.ok (s._ns_base ++ "ContentDataFacet-" ++ u, s)
    let s := { s with _n_content_data_facet := some n }
    let s := stAdd s ⟨.uri n, NS_RDF "type", NS_UCO_OBSERVABLE "ContentDataFacet"⟩
    let (oo, s) ← n_observable_object s
    let s := stAdd s ⟨.uri oo, NS_UCO_CORE "hasFacet", .uri n⟩
    .ok (n, s)

/-- Accessor property `n_exif_facet`: initialized on first access. -/
def n_exif_facet (s : MState) : Except String (String × MState) :=
  match s._n_exif_facet with
  | some n => .ok (n, s)
  | none => do
    let (n, s) ←
      if s._use_deterministic_uuids then do
        let (oo, s) ← n_observable_object s
        Except.ok (get_facet_uriref s._ns_base oo "EXIFFacet", s)
      else
        let (u, s) := local_uuid s
        Except.ok (s._ns_base ++ "EXIFFacet-" ++ u, s)
    let s := { s with _n_exif_facet := some n }
    let s := stAdd s ⟨.uri n, NS_RDF "type", NS_UCO_OBSERVABLE "EXIFFacet"⟩
    let (oo, s) ← n_observable_object s
    let s := stAdd s ⟨.uri oo, NS_UCO_CORE "hasFacet", .uri n⟩
    .ok (n, s)

/-- Accessor property `n_file_facet`: initialized on first access. -/
def n_file_facet (s : MState) : Except String (String × MState) :=
  match s._n_file_facet with
  | some n => .ok (n, s)
  | none => do
    let (n, s) ←
      if s._use_deterministic_uuids then do
        let (oo, s) ← n_observable_object s
        Except.ok (get_facet_uriref s._ns_base oo "FileFacet", s)
      else
        let (u, s) := local_uuid s
        Except.ok (s._ns_base ++ "FileFacet-" ++ u, s)
    let s := { s with _n_file_facet := some n }
    let s := stAdd s ⟨.uri n, NS_RDF "type", NS_UCO_OBSERVABLE "FileFacet"⟩
    let (oo, s) ← n_observable_object s
    let s := stAdd s ⟨.uri oo, NS_UCO_CORE "hasFacet", .uri n⟩
    .ok (n, s)

/-- Accessor property `n_raster_picture_facet`: initialized on first
access. -/
def n_raster_picture_facet (s : MState) : Except String (String × MState) :=
  match s._n_raster_picture_facet with
  | some n => .ok (n, s)
  | none => do
    let (n, s) ←
      if s._use_deterministic_uuids then do
        let (oo, s) ← n_observable_object s
        Except.ok (get_facet_uriref s._ns_base oo "RasterPictureFacet", s)
      else
        let (u, s) := local_uuid s
        Except.ok (s._ns_base ++ "RasterPictureFacet-" ++ u, s)
    let s := { s with _n_raster_picture_facet := some n }
    let s := stAdd s ⟨.uri n, NS_RDF "type", NS_UCO_OBSERVABLE "RasterPictureFacet"⟩
    let (oo, s) ← n_observable_object s
    let s := stAdd s ⟨.uri oo, NS_UCO_CORE "hasFacet", .uri n⟩
    .ok (n, s)

/-- Accessor property `n_unix_file_permissions_facet`: initialized on
first access. -/
def n_unix_file_permissions_facet (s : MState) : Except String (String × MState) :=
  match s._n_unix_file_permissions_facet with
  | some n => .ok (n, s)
  | none => do
    let (n, s) ←
      if s._use_deterministic_uuids then do
        let (oo, s) ← n_observable_object s
        Except.ok (get_facet_uriref s._ns_base oo "UNIXFilePermissionsFacet", s)
      else
        let (u, s) := local_uuid s
        Except.ok (s._ns_base ++ "UNIXFilePermissionsFacet-" ++ u, s)
    let s := { s with _n_unix_file_permissions_facet := some n }
    let s := stAdd s ⟨.uri n, NS_RDF "type", NS_UCO_OBSERVABLE "UNIXFilePermissionsFacet"⟩
    let (oo, s) ← n_observable_object s
    let s := stAdd s ⟨.uri oo, NS_UCO_CORE "hasFacet", .uri n⟩
    .ok (n, s)

/-- Accessor property `n_relationship_object_location`: initialized on
first access, asserting the derivation relationship between the Location
object and the base observable object. -/
def n_relationship_object_location (s : MState) : Except String (String × MState) :=
  match s._n_relationship_object_location with
  | some n => .ok (n, s)
  | none => do
    let (u, s) := local_uuid s
    let n := s._ns_base ++ "Relationship-" ++ u
    let s := { s with _n_relationship_object_location := some n }
    let s := stAdd s ⟨.uri n, NS_RDF "type", NS_UCO_CORE "Relationship"⟩
    let (loc, s) := n_location_object s
    let s := stAdd s ⟨.uri n, NS_UCO_CORE "source", .uri loc⟩
    let (oo, s) ← n_observable_object s
    let s := stAdd s ⟨.uri n, NS_UCO_CORE "target", .uri oo⟩
    let s := stAdd s ⟨.uri n, NS_UCO_CORE "isDirectional", .lit "true" (some (NS_XSD "boolean"))⟩
    let s := stAdd s ⟨.uri n, NS_UCO_CORE "kindOfRelationship", .lit "Extracted_From" none⟩
    .ok (n, s)

/-- One entry of `controlled_dictionary_object_to_node`'s loop body: check
the value is a literal (the guarded `assert`, re-raised on failure), then
emit the entry node with its key and value. -/
def controlled_dictionary_entry (n_controlled_dictionary : String)
    (controlled_dict : List (String × Node)) (s : MState) (key : String) :
    Except String MState :=
  match dictLookup controlled_dict key with
  | none => .error "KeyError"
  | some v_value =>
    match v_value with
    | .uri _ => .error "AssertionError: isinstance(v_value, rdflib.Literal)"
    | .lit lex dt =>
      let (u, s) := local_uuid s
      let n_entry := s._ns_base ++ "ControlledDictionaryEntry-" ++ u
      let s := stAdd s ⟨.uri n_controlled_dictionary, NS_UCO_TYPES "entry", .uri n_entry⟩
      let s := stAdd s ⟨.uri n_entry, NS_RDF "type", NS_UCO_TYPES "ControlledDictionaryEntry"⟩
      let s := stAdd s ⟨.uri n_entry, NS_UCO_TYPES "key", .lit key none⟩
      let s := stAdd s ⟨.uri n_entry, NS_UCO_TYPES "value", .lit lex dt⟩
      .ok s

/-- Module-level function `controlled_dictionary_object_to_node`:
materialize a controlled dictionary as a sub-graph, iterating keys in
sorted order. -/
def controlled_dictionary_object_to_node (s : MState)
    (controlled_dict : List (String × Node)) : Except String (String × MState) := do
  let (u, s) := local_uuid s
  let n_controlled_dictionary := s._ns_base ++ "ControlledDictionary-" ++ u
  let s := stAdd s ⟨.uri n_controlled_dictionary, NS_RDF "type", NS_UCO_TYPES "ControlledDictionary"⟩
  let s ← (sortStrs (dictKeys controlled_dict)).foldlM
    (controlled_dictionary_entry n_controlled_dictionary controlled_dict) s
  .ok (n_controlled_dictionary, s)

/-- Accessor property `n_exif_dictionary_object`: initialized on first
access, materializing the EXIF controlled dictionary and linking it from
the EXIF facet. -/
def n_exif_dictionary_object (s : MState) : Except String (String × MState) :=
  match s._n_exif_dictionary_object with
  | some n => .ok (n, s)
  | none => do
    let (d, s) := exif_dictionary_dict s
    let (n, s) ← controlled_dictionary_object_to_node s d
    let s := { s with _n_exif_dictionary_object := some n }
    let (ef, s) ← n_exif_facet s
    let s := stAdd s ⟨.uri ef, NS_UCO_OBSERVABLE "exifData", .uri n⟩
    .ok (n, s)

/-- Module-level function `manufacturer_name_to_node`: produce (or not) an
Identity node for a manufacturer from the print-converted and/or raw
names, preferring the print-converted name and keeping a differing raw
name as a comment. -/
def manufacturer_name_to_node (s : MState) (printconv_name raw_name : Option String) :
    Option String × MState :=
  if printconv_name.isSome || raw_name.isSome then
    let (u, s) := local_uuid s
    let n_manufacturer := s._ns_base ++ "Identity-" ++ u
    let s := stAdd s ⟨.uri n_manufacturer, NS_RDF "type", NS_UCO_IDENTITY "Identity"⟩
    match printconv_name with
    | some pc =>
      let s := stAdd s ⟨.uri n_manufacturer, NS_UCO_CORE "name", .lit pc none⟩
      match raw_name with
      | some rw =>
        if pc ≠ rw then
          (some n_manufacturer, stAdd s ⟨.uri n_manufacturer, NS_RDFS "comment", .lit rw none⟩)
        else (some n_manufacturer, s)
      | none => (some n_manufacturer, s)
    | none =>
      match raw_name with
      | some rw =>
        (some n_manufacturer, stAdd s ⟨.uri n_manufacturer, NS_UCO_CORE "name", .lit rw none⟩)
      | none => (some n_manufacturer, s)
  else (none, s)

/-- Method `pop_n_exiftool_predicate`: read the raw and print-converted
values for an IRI and consume the IRI from the pending set and both
dictionaries. -/
def pop_n_exiftool_predicate (s : MState) (iri : String) :
    (Option Node × Option Node) × MState :=
  let v_raw := dictLookup s._kv_dict_raw iri
  let v_printconv := dictLookup s._kv_dict_printconv iri
  ((v_raw, v_printconv),
   { s with
     _exiftool_predicate_iris := s._exiftool_predicate_iris.filter (fun x => x ≠ iri),
     _kv_dict_raw := dictRemove s._kv_dict_raw iri,
     _kv_dict_printconv := dictRemove s._kv_dict_printconv iri })

/-- IRI handled by the Composite GPSAltitude branch. -/
def iriCompositeGPSAltitude : String := "http://ns.exiftool.org/Composite/1.0/GPSAltitude"

/-- IRI handled by the Composite GPSLatitude branch. -/
def iriCompositeGPSLatitude : String := "http://ns.exiftool.org/Composite/1.0/GPSLatitude"

/-- IRI handled by the Composite GPSLongitude branch. -/
def iriCompositeGPSLongitude : String := "http://ns.exiftool.org/Composite/1.0/GPSLongitude"

/-- IRI handled by the Composite GPSPosition branch. -/
def iriCompositeGPSPosition : String := "http://ns.exiftool.org/Composite/1.0/GPSPosition"

/-- IRI handled by the ExifImageHeight branch. -/
def iriExifImageHeight : String := "http://ns.exiftool.org/EXIF/ExifIFD/1.0/ExifImageHeight"

/-- IRI handled by the ExifImageWidth branch. -/
def iriExifImageWidth : String := "http://ns.exiftool.org/EXIF/ExifIFD/1.0/ExifImageWidth"

/-- Common prefix of the EXIF GPS IFD identifiers, stripped to form the
EXIF dictionary key. -/
def iriExifGPSStem : String := "http://ns.exiftool.org/EXIF/GPS/1.0/GPS"

/-- The six EXIF GPS IFD identifiers handled by the set-membership
branch. -/
def exifGpsIris : List String :=
  [ "http://ns.exiftool.org/EXIF/GPS/1.0/GPSAltitudeRef",
    "http://ns.exiftool.org/EXIF/GPS/1.0/GPSAltitude",
    "http://ns.exiftool.org/EXIF/GPS/1.0/GPSLatitudeRef",
    "http://ns.exiftool.org/EXIF/GPS/1.0/GPSLatitude",
    "http://ns.exiftool.org/EXIF/GPS/1.0/GPSLongitudeRef",
    "http://ns.exiftool.org/EXIF/GPS/1.0/GPSLongitude" ]

/-- IRI handled by the Make branch. -/
def iriMake : String := "http://ns.exiftool.org/EXIF/IFD0/1.0/Make"

/-- IRI handled by the Model branch. -/
def iriModel : String := "http://ns.exiftool.org/EXIF/IFD0/1.0/Model"

/-- IRI handled by the MIMEType branch. -/
def iriMIMEType : String := "http://ns.exiftool.org/File/1.0/MIMEType"

/-- IRI handled by the FileAccessDate branch. -/
def iriFileAccessDate : String := "http://ns.exiftool.org/File/System/1.0/FileAccessDate"

/-- IRI handled by the FileInodeChangeDate branch. -/
def iriFileInodeChangeDate : String :=
  "http://ns.exiftool.org/File/System/1.0/FileInodeChangeDate"

/-- IRI handled by the FileModifyDate branch. -/
def iriFileModifyDate : String := "http://ns.exiftool.org/File/System/1.0/FileModifyDate"

/-- IRI handled by the FileName branch. -/
def iriFileName : String := "http://ns.exiftool.org/File/System/1.0/FileName"

/-- IRI handled by the FilePermissions branch. -/
def iriFilePermissions : String := "http://ns.exiftool.org/File/System/1.0/FilePermissions"

/-- IRI handled by the FileSize branch. -/
def iriFileSize : String := "http://ns.exiftool.org/File/System/1.0/FileSize"

/-- Branch body shared by the three Composite GPS coordinate IRIs: a raw
literal is re-typed `xsd:decimal` and asserted on the Location object's
LatLongCoordinates facet under the given coordinate property. -/
def compositeCoordBranch (coord_property : String) (s : MState) (exiftool_iri : String) :
    Except String MState :=
  let ((v_raw, _v_printconv), s) := pop_n_exiftool_predicate s exiftool_iri
  match v_raw with
  | some (.lit lex _dt) =>
    let (facet, s) := n_location_object_latlong_facet s
    .ok (stAdd s ⟨.uri facet, NS_UCO_LOCATION coord_property,
      .lit lex (some (NS_XSD "decimal"))⟩)
  | _ => .ok s

/-- Branch for Composite GPSPosition: a print-converted literal becomes
the human-readable `rdfs:label` of the Location object. -/
def gpsPositionBranch (s : MState) (exiftool_iri : String) : Except String MState :=
  let ((_v_raw, v_printconv), s) := pop_n_exiftool_predicate s exiftool_iri
  match v_printconv with
  | some (.lit lex dt) =>
    let (loc, s) := n_location_object s
    .ok (stAdd s ⟨.uri loc, NS_RDFS "label", .lit lex dt⟩)
  | _ => .ok s

/-- Branch for ExifImageHeight: record the raw literal in the EXIF
dictionary and assert the integer-coerced value as `pictureHeight` on the
Raster-Picture facet (instantiating it if needed). -/
def exifImageHeightBranch (s : MState) (exiftool_iri : String) : Except String MState :=
  let ((v_raw, _v_printconv), s) := pop_n_exiftool_predicate s exiftool_iri
  match v_raw with
  | some (.lit lex dt) =>
    let s := exif_dict_set s "Image Height" (.lit lex dt)
    match n_raster_picture_facet s with
    | .error e => .error e
    | .ok (facet, s) =>
      match pyIntOfString lex with
      | none => .error "ValueError: invalid literal for int"
      | some i =>
        .ok (stAdd s ⟨.uri facet, NS_UCO_OBSERVABLE "pictureHeight", intLiteral i⟩)
  | _ => .ok s

/-- Branch for ExifImageWidth: record the raw literal in the EXIF
dictionary; assert `pictureWidth` on the Raster-Picture facet only if
that facet has already been instantiated (the source checks the private
field, not the lazy accessor). -/
def exifImageWidthBranch (s : MState) (exiftool_iri : String) : Except String MState :=
  let ((v_raw, _v_printconv), s) := pop_n_exiftool_predicate s exiftool_iri
  match v_raw with
  | some (.lit lex dt) =>
    let s := exif_dict_set s "Image Width" (.lit lex dt)
    match s._n_raster_picture_facet with
    | none => .ok s
    | some _ =>
      match n_raster_picture_facet s with
      | .error e => .error e
      | .ok (facet, s) =>
        match pyIntOfString lex with
        | none => .error "ValueError: invalid literal for int"
        | some i =>
          .ok (stAdd s ⟨.uri facet, NS_UCO_OBSERVABLE "pictureWidth", intLiteral i⟩)
  | _ => .ok s

/-- Branch shared by the six EXIF GPS IFD IRIs: a raw literal becomes an
EXIF dictionary entry keyed by the IRI with its GPS stem stripped. -/
def exifGpsBranch (s : MState) (exiftool_iri : String) : Except String MState :=
  let ((v_raw, _v_printconv), s) := pop_n_exiftool_predicate s exiftool_iri
  match v_raw with
  | some (.lit lex dt) =>
    let dict_key := pyReplace exiftool_iri iriExifGPSStem ""
    .ok (exif_dict_set s dict_key (.lit lex dt))
  | _ => .ok s

/-- Branch for Make: both value variants become strings, the pluggable
`manufacturer_name_to_node` seam may produce an Identity node, and that
node is asserted as the Device facet's manufacturer. -/
def makeBranch (s : MState) (exiftool_iri : String) : Except String MState :=
  let ((v_raw, v_printconv), s) := pop_n_exiftool_predicate s exiftool_iri
  let printconv_str : Option String :=
    match v_printconv with
    | some (.lit lex _dt) => some lex
    | _ => none
  let raw_str : Option String :=
    match v_raw with
    | some (.lit lex _dt) => some lex
    | _ => none
  let (n_manufacturer, s) := manufacturer_name_to_node s printconv_str raw_str
  match n_manufacturer with
  | some mn =>
    let (facet, s) := n_camera_object_device_facet s
    .ok (stAdd s ⟨.uri facet, NS_UCO_OBSERVABLE "manufacturer", .uri mn⟩)
  | none => .ok s

/-- Branch for Model: a raw literal becomes the Device facet's model. -/
def modelBranch (s : MState) (exiftool_iri : String) : Except String MState :=
  let ((v_raw, _v_printconv), s) := pop_n_exiftool_predicate s exiftool_iri
  match v_raw with
  | some (.lit lex dt) =>
    let (facet, s) := n_camera_object_device_facet s
    .ok (stAdd s ⟨.uri facet, NS_UCO_OBSERVABLE "model", .lit lex dt⟩)
  | _ => .ok s

/-- Branch for MIMEType: a raw literal only records the MIME type in the
mapper state; the graph assertions are deferred to
`map_raw_and_printconv_rdf`. -/
def mimeTypeBranch (s : MState) (exiftool_iri : String) : Except String MState :=
  let ((v_raw, _v_printconv), s) := pop_n_exiftool_predicate s exiftool_iri
  match v_raw with
  | some (.lit lex _dt) => .ok { s with _mime_type := some lex }
  | _ => .ok s

/-- Branch body shared by the three file timestamp IRIs: a raw literal,
with its embedded space separator replaced by "T", becomes an
`xsd:dateTime` literal under the given File facet property. -/
def fileDateBranch (time_property : String) (s : MState) (exiftool_iri : String) :
    Except String MState :=
  let ((v_raw, _v_printconv), s) := pop_n_exiftool_predicate s exiftool_iri
  match v_raw with
  | some (.lit lex _dt) =>
    match n_file_facet s with
    | .error e => .error e
    | .ok (facet, s) =>
      .ok (stAdd s ⟨.uri facet, NS_UCO_OBSERVABLE time_property,
        .lit (pyReplace lex " " "T") (some (NS_XSD "dateTime"))⟩)
  | _ => .ok s

/-- Branch for FileName: a raw literal becomes the File facet's
`fileName`. -/
def fileNameBranch (s : MState) (exiftool_iri : String) : Except String MState :=
  let ((v_raw, _v_printconv), s) := pop_n_exiftool_predicate s exiftool_iri
  match v_raw with
  | some (.lit lex dt) =>
    match n_file_facet s with
    | .error e => .error e
    | .ok (facet, s) =>
      .ok (stAdd s ⟨.uri facet, NS_UCO_OBSERVABLE "fileName", .lit lex dt⟩)
  | _ => .ok s

/-- Branch for FilePermissions: the raw value (when an all-digit numeral
under 1000) and the print-converted value each become comments on the
UNIX file permissions facet. -/
def filePermissionsBranch (s : MState) (exiftool_iri : String) : Except String MState :=
  let ((v_raw, v_printconv), s) := pop_n_exiftool_predicate s exiftool_iri
  let step1 : Except String MState :=
    match v_raw with
    | some (.lit lex dt) =>
      if pyIsDigit lex ∧ digitsToNat lex.data 0 < 1000 then
        match n_unix_file_permissions_facet s with
        | .error e => .error e
        | .ok (facet, s) =>
          .ok (stAdd s ⟨.uri facet, NS_RDFS "comment", .lit lex dt⟩)
      else .ok s
    | _ => .ok s
  match step1 with
  | .error e => .error e
  | .ok s =>
    match v_printconv with
    | some (.lit lex dt) =>
      match n_unix_file_permissions_facet s with
      | .error e => .error e
      | .ok (facet, s) =>
        .ok (stAdd s ⟨.uri facet, NS_RDFS "comment", .lit lex dt⟩)
    | _ => .ok s

/-- Branch for FileSize: a raw literal is coerced to an integer and
asserted as the Content-Data facet's `sizeInBytes`. -/
def fileSizeBranch (s : MState) (exiftool_iri : String) : Except String MState :=
  let ((v_raw, _v_printconv), s) := pop_n_exiftool_predicate s exiftool_iri
  match v_raw with
  | some (.lit lex _dt) =>
    match n_content_data_facet s with
    | .error e => .error e
    | .ok (facet, s) =>
      match pyIntOfString lex with
      | none => .error "ValueError: invalid literal for int"
      | some i =>
        .ok (stAdd s ⟨.uri facet, NS_UCO_OBSERVABLE "sizeInBytes", intLiteral i⟩)
  | _ => .ok s

/-- Fallback branch: attach each present value variant as its own triple
on the base observable object, with the original ExifTool IRI as the
predicate. -/
def defaultBranch (s : MState) (exiftool_iri : String) : Except String MState :=
  let ((v_raw, v_printconv), s) := pop_n_exiftool_predicate s exiftool_iri
  let step1 : Except String MState :=
    match v_raw with
    | some v =>
      match n_observable_object s with
      | .error e => .error e
      | .ok (oo, s) => .ok (stAdd s ⟨.uri oo, .uri exiftool_iri, v⟩)
    | none => .ok s
  match step1 with
  | .error e => .error e
  | .ok s =>
    match v_printconv with
    | some v =>
      match n_observable_object s with
      | .error e => .error e
      | .ok (oo, s) => .ok (stAdd s ⟨.uri oo, .uri exiftool_iri, v⟩)
    | none => .ok s

/-- Method `map_raw_and_printconv_iri`: the if-elif dispatch ladder over
known ExifTool IRIs, defaulting to the information-preserving fallback. -/
def map_raw_and_printconv_iri (s : MState) (exiftool_iri : String) :
    Except String MState :=
  if exiftool_iri = iriCompositeGPSAltitude then
    compositeCoordBranch "altitude" s exiftool_iri
  else if exiftool_iri = iriCompositeGPSLatitude then
    compositeCoordBranch "latitude" s exiftool_iri
  else if exiftool_iri = iriCompositeGPSLongitude then
    compositeCoordBranch "longitude" s exiftool_iri
  else if exiftool_iri = iriCompositeGPSPosition then
    gpsPositionBranch s exiftool_iri
  else if exiftool_iri = iriExifImageHeight then
    exifImageHeightBranch s exiftool_iri
  else if exiftool_iri = iriExifImageWidth then
    exifImageWidthBranch s exiftool_iri
  else if exiftool_iri ∈ exifGpsIris then
    exifGpsBranch s exiftool_iri
  else if exiftool_iri = iriMake then
    makeBranch s exiftool_iri
  else if exiftool_iri = iriModel then
    modelBranch s exiftool_iri
  else if exiftool_iri = iriMIMEType then
    mimeTypeBranch s exiftool_iri
  else if exiftool_iri = iriFileAccessDate then
    fileDateBranch "accessedTime" s exiftool_iri
  else if exiftool_iri = iriFileInodeChangeDate then
    fileDateBranch "metadataChangeTime" s exiftool_iri
  else if exiftool_iri = iriFileModifyDate then
    fileDateBranch "modifiedTime" s exiftool_iri
  else if exiftool_iri = iriFileName then
    fileNameBranch s exiftool_iri
  else if exiftool_iri = iriFilePermissions then
    filePermissionsBranch s exiftool_iri
  else if exiftool_iri = iriFileSize then
    fileSizeBranch s exiftool_iri
  else
    defaultBranch s exiftool_iri

/-- Helper `_load_xml_file_into_dict` of `map_raw_and_printconv_rdf`: fold
a dump's (predicate, object) pairs into a key/value dictionary with
last-write-wins on duplicate predicates. -/
def _load_xml_file_into_dict (triples : List (String × Node))
    (kv_dict : List (String × Node)) : List (String × Node) :=
  triples.foldl (fun d pv => dictInsert d pv.1 pv.2) kv_dict

/-- Load section of `map_raw_and_printconv_rdf`: initialize the pending
IRI set and fold each provided dump into its dictionary, unioning the
keys. -/
def loadPhase (s : MState) (triples_raw : Option (List (String × Node)))
    (triples_printconv : Option (List (String × Node))) : MState :=
  let s := { s with _exiftool_predicate_iris := [] }
  let s :=
    match triples_raw with
    | none => s
    | some ts =>
      let s := { s with _kv_dict_raw := _load_xml_file_into_dict ts s._kv_dict_raw }
      { s with _exiftool_predicate_iris :=
          setUnion s._exiftool_predicate_iris (dictKeys s._kv_dict_raw) }
  match triples_printconv with
  | none => s
  | some ts =>
    let s := { s with _kv_dict_printconv := _load_xml_file_into_dict ts s._kv_dict_printconv }
    { s with _exiftool_predicate_iris :=
        setUnion s._exiftool_predicate_iris (dictKeys s._kv_dict_printconv) }

/-- MIME section of `map_raw_and_printconv_rdf`: the special-cased
MIME-type pass, the slug decision, the instantiation of the base
observable object, and the MIME-derived facet assertions. -/
def prePhase (s : MState) : Except String MState := do
  let s ← map_raw_and_printconv_iri s iriMIMEType
  let s := { s with _oo_slug := some "File-" }
  let s :=
    if s._mime_type = some "image/jpeg" then { s with _oo_slug := some "Picture-" } else s
  let (_, s) ← n_observable_object s
  let s ←
    match s._mime_type with
    | none => Except.ok s
    | some mt => do
      let (facet, s) ← n_content_data_facet s
      Except.ok (stAdd s ⟨.uri facet, NS_UCO_OBSERVABLE "mimeType", .lit mt none⟩)
  if s._mime_type = some "image/jpeg" then do
    let (facet, s) ← n_raster_picture_facet s
    Except.ok (stAdd s ⟨.uri facet, NS_UCO_OBSERVABLE "pictureType", .lit "jpg" none⟩)
  else Except.ok s

/-- Deferred-derivation section of `map_raw_and_printconv_rdf`:
materialize the EXIF controlled dictionary if any EXIF-relevant handler
fired, and the Location relationship if any GPS handler created the
Location object. -/
def endPhase (s : MState) : Except String MState := do
  let s ←
    if s._exif_dictionary_dict.isSome then do
      let (_, s) ← n_exif_dictionary_object s
      Except.ok s
    else Except.ok s
  if s._n_location_object.isSome then do
    let (_, s) ← n_relationship_object_location s
    Except.ok s
  else Except.ok s

/-- Method `map_raw_and_printconv_rdf`: load the raw and print-converted
dumps (either may be absent), run the special-cased MIME-type pass,
decide the base object's slug, emit the MIME-derived facet values, then
dispatch every pending IRI in sorted order and finish the deferred
derivations (EXIF dictionary, Location relationship). -/
def map_raw_and_printconv_rdf (s : MState)
    (triples_raw : Option (List (String × Node)))
    (triples_printconv : Option (List (String × Node))) :
    Except String MState := do
  let s := loadPhase s triples_raw triples_printconv
  let s ← prePhase s
  let s ← (sortStrs s._exiftool_predicate_iris).foldlM map_raw_and_printconv_iri s
  endPhase s

/-- Fresh mapper state for one conversion run, as built by `__init__` on
an empty output graph. -/
def initState (ns_base : String) (use_deterministic_uuids : Bool) : MState :=
  { graph := []
    uuidCounter := 0
    _exif_dictionary_dict := none
    _kv_dict_raw := []
    _kv_dict_printconv := []
    _exiftool_predicate_iris := []
    _mime_type := none
    _n_camera_object := none
    _n_camera_object_device_facet := none
    _n_content_data_facet := none
    _n_exif_dictionary_object := none
    _n_exif_facet := none
    _n_file_facet := none
    _n_location_object := none
    _n_location_object_latlong_facet := none
    _n_observable_object := none
    _n_raster_picture_facet := none
    _n_relationship_object_location := none
    _n_unix_file_permissions_facet := none
    _oo_slug := none
    _ns_base := ns_base
    _use_deterministic_uuids := use_deterministic_uuids }

/-- One conversion run of `main`'s mapping phase: a fresh mapper over an
empty graph, fed the raw and print-converted dumps. -/
def runMapper (triples_raw triples_printconv : Option (List (String × Node)))
    (use_deterministic_uuids : Bool) (ns_base : String) : Except String MState :=
  map_raw_and_printconv_rdf (initState ns_base use_deterministic_uuids)
    triples_raw triples_printconv

/-- Graph of a completed run, or the empty list when the run raised. -/
def graphOf (r : Except String MState) : List Triple :=
  match r with
  | .ok s => s.graph
  | .error _ => []

/-- Final state of a completed run (a fresh initial state when the run
raised), used to name the concrete end states of example runs. -/
def okStateOf (r : Except String MState) : MState :=
  match r with
  | .ok s => s
  | .error _ => initState "" false

/-- Whether a run completed without a raised error. -/
def runOk (r : Except String MState) : Bool :=
  match r with
  | .ok _ => true
  | .error _ => false

/-- All IRIs matched by a dedicated branch of the dispatch ladder. -/
def handledIris : List String :=
  [iriCompositeGPSAltitude, iriCompositeGPSLatitude, iriCompositeGPSLongitude,
   iriCompositeGPSPosition, iriExifImageHeight, iriExifImageWidth] ++ exifGpsIris ++
  [iriMake, iriModel, iriMIMEType, iriFileAccessDate, iriFileInodeChangeDate,
   iriFileModifyDate, iriFileName, iriFilePermissions, iriFileSize]

/-- The IRIs whose dedicated branches consume only the raw value: file
size, file name, the three file timestamps, device model, the GPS
coordinate axes (composite and per-axis), and the image dimensions. -/
def rawOnlyHandlerIris : List String :=
  [iriCompositeGPSAltitude, iriCompositeGPSLatitude, iriCompositeGPSLongitude,
   iriExifImageHeight, iriExifImageWidth] ++ exifGpsIris ++
  [iriModel, iriFileAccessDate, iriFileInodeChangeDate, iriFileModifyDate,
   iriFileName, iriFileSize]

/-- Whether a triple asserts `rdf:type` of class `c`. -/
def isTypeTriple (c : Node) (t : Triple) : Bool :=
  t.p == NS_RDF "type" && t.o == c

/-- Whether some node in the graph is typed as class `c`. -/
def hasTypeTriple (g : List Triple) (c : Node) : Bool :=
  g.any (isTypeTriple c)

/-- Number of `rdf:type` triples for class `c` in the graph. -/
def countTypeTriples (g : List Triple) (c : Node) : Nat :=
  (g.filter (isTypeTriple c)).length

/-- Whether a triple is a controlled-dictionary entry-key assertion for
key `k`. -/
def isKeyTriple (k : String) (t : Triple) : Bool :=
  t.p == NS_UCO_TYPES "key" && t.o == .lit k none

/-- Whether the graph holds a controlled-dictionary entry node whose key
is `k`. -/
def hasEntryKey (g : List Triple) (k : String) : Bool :=
  g.any (isKeyTriple k)

/-- Whether the graph holds any triple with predicate `p`. -/
def hasPredicate (g : List Triple) (p : Node) : Bool :=
  g.any (fun t => t.p == p)

/-- Whether an identifier is GPS-prefixed in the sense of the spec:
`Composite/1.0/GPS*` or `EXIF/GPS/1.0/GPS*`. -/
def gpsPrefixed (iri : String) : Bool :=
  "http://ns.exiftool.org/Composite/1.0/GPS".data.isPrefixOf iri.data ||
  "http://ns.exiftool.org/EXIF/GPS/1.0/GPS".data.isPrefixOf iri.data

/-- The union of property identifiers over the two loaded dumps, as the
run computes it. -/
def inputUnion (triples_raw triples_printconv : Option (List (String × Node))) :
    List String :=
  let a :=
    match triples_raw with
    | none => ([] : List String)
    | some ts => dictKeys (_load_xml_file_into_dict ts [])
  let b :=
    match triples_printconv with
    | none => ([] : List String)
    | some ts => dictKeys (_load_xml_file_into_dict ts [])
  setUnion (setUnion [] a) b

/-- Dictionary loaded from a dump into an initially empty mapping. -/
def loadDict (ts : List (String × Node)) : List (String × Node) :=
  _load_xml_file_into_dict ts []

/-- Whether the dictionary holds a literal value at key `k`. -/
def hasLitAt (d : List (String × Node)) (k : String) : Bool :=
  match dictLookup d k with
  | some (.lit _ _) => true
  | _ => false

/-- The three composite GPS coordinate IRIs. -/
def compCoordIris : List String :=
  [iriCompositeGPSAltitude, iriCompositeGPSLatitude, iriCompositeGPSLongitude]

/-- Lookup in the lazily-initialized EXIF dictionary (absent dictionary
reads as empty). -/
def edLookup (s : MState) (k : String) : Option Node :=
  match s._exif_dictionary_dict with
  | none => none
  | some d => dictLookup d k

/-- The EXIF dictionary key written by a dispatch branch, when any. -/
def keyWriter (iri : String) : Option String :=
  if iri = iriExifImageHeight then some "Image Height"
  else if iri = iriExifImageWidth then some "Image Width"
  else if iri ∈ exifGpsIris then some (pyReplace iri iriExifGPSStem "")
  else none

/-- Whether the lazily-initialized EXIF dictionary has key `k` (absent
dictionary reads as empty). -/
def edHasKey (s : MState) (k : String) : Bool :=
  match s._exif_dictionary_dict with
  | none => false
  | some d => decide (k ∈ dictKeys d)

/-- The Location facet property asserted by a composite coordinate
IRI. -/
def coordProp (iri : String) : String :=
  if iri = iriCompositeGPSAltitude then "altitude"
  else if iri = iriCompositeGPSLatitude then "latitude"
  else "longitude"

/-- Trigger of the LatLongCoordinates facet: a composite coordinate IRI
whose raw value is a pending literal in the reference state. -/
def coordLit (sp : MState) (i : String) : Bool :=
  decide (i ∈ compCoordIris) && hasLitAt sp._kv_dict_raw i

/-- Trigger of the Location object via GPSPosition: a print-converted
literal pending in the reference state. -/
def posLit (sp : MState) (i : String) : Bool :=
  (i == iriCompositeGPSPosition) && hasLitAt sp._kv_dict_printconv i

/-- Trigger of the raster picture facet during dispatch: an image height
with a pending raw literal. -/
def heightLit (sp : MState) (i : String) : Bool :=
  (i == iriExifImageHeight) && hasLitAt sp._kv_dict_raw i

/-- The lexical form of an optional node when it is a literal, as the
MIME-type branch extracts it. -/
def litValue (v : Option Node) : Option String :=
  match v with
  | some (.lit lex _dt) => some lex
  | _ => none

/-- Invariant linking the memoized object references to the graph: the
Location object, its LatLongCoordinates facet, and the Location
relationship each have exactly as many type triples as the accessor has
been materialized, and ObservableObject type triples are bounded by the
base object plus the camera object (and from below by the base
object). -/
def TypeCountsInv (s : MState) : Prop :=
  countTypeTriples s.graph (NS_UCO_LOCATION "Location")
      = s._n_location_object.isSome.toNat ∧
  countTypeTriples s.graph (NS_UCO_LOCATION "LatLongCoordinatesFacet")
      = s._n_location_object_latlong_facet.isSome.toNat ∧
  countTypeTriples s.graph (NS_UCO_CORE "Relationship")
      = s._n_relationship_object_location.isSome.toNat ∧
  s._n_observable_object.isSome.toNat
      ≤ countTypeTriples s.graph (NS_UCO_OBSERVABLE "ObservableObject") ∧
  countTypeTriples s.graph (NS_UCO_OBSERVABLE "ObservableObject")
      ≤ s._n_observable_object.isSome.toNat + s._n_camera_object.isSome.toNat

/-- Whether an identifier lives in the ExifTool namespace family, as
every property identifier of an ExifTool RDF dump does. -/
def isExiftoolIri (iri : String) : Bool :=
  "http://ns.exiftool.org/".data.isPrefixOf iri.data

/-- Facts about a state transformation that leaves the pending value
dictionaries, the GPS and raster bookkeeping and the EXIF dictionary
untouched, asserts no controlled-dictionary entry key, only grows the
graph and preserves the type-count invariant — the common shape of the
lazy accessors and property assertions inside a dispatch branch. -/
structure CalmFacts (s s' : MState) : Prop where
  c_raw : s'._kv_dict_raw = s._kv_dict_raw
  c_pc : s'._kv_dict_printconv = s._kv_dict_printconv
  c_ll : s'._n_location_object_latlong_facet = s._n_location_object_latlong_facet
  c_loc : s'._n_location_object = s._n_location_object
  c_rel : s'._n_relationship_object_location = s._n_relationship_object_location
  c_rpf : s'._n_raster_picture_facet.isSome = s._n_raster_picture_facet.isSome
  c_ed : s'._exif_dictionary_dict = s._exif_dictionary_dict
  c_edobj : s'._n_exif_dictionary_object = s._n_exif_dictionary_object
  c_entry : ∀ k, hasEntryKey s'.graph k = hasEntryKey s.graph k
  c_mono : ∀ t, t ∈ s.graph → t ∈ s'.graph
  c_tinv : TypeCountsInv s → TypeCountsInv s'

/-- Facts shared by the dispatch branches that leave the GPS, raster and
relationship bookkeeping untouched: both pending values are consumed, the
tracked option fields and the EXIF dictionary keys are unchanged, no
controlled-dictionary entry key is asserted, the graph only grows, and
the type-count invariant is preserved. -/
structure QuietFacts (s s' : MState) (iri : String) : Prop where
  q_raw : s'._kv_dict_raw = dictRemove s._kv_dict_raw iri
  q_pc : s'._kv_dict_printconv = dictRemove s._kv_dict_printconv iri
  q_ll : s'._n_location_object_latlong_facet = s._n_location_object_latlong_facet
  q_loc : s'._n_location_object = s._n_location_object
  q_rel : s'._n_relationship_object_location = s._n_relationship_object_location
  q_rpf : s'._n_raster_picture_facet.isSome = s._n_raster_picture_facet.isSome
  q_ed : s'._exif_dictionary_dict = s._exif_dictionary_dict
  q_edobj : s'._n_exif_dictionary_object = s._n_exif_dictionary_object
  q_entry : ∀ k, hasEntryKey s'.graph k = hasEntryKey s.graph k
  q_mono : ∀ t, t ∈ s.graph → t ∈ s'.graph
  q_tinv : TypeCountsInv s → TypeCountsInv s'

/-- Invariant carried along the dispatch fold: `sp` is the state entering
the fold, `P` the identifiers already dispatched, `s` the current
state. -/
structure FoldInv (sp : MState) (P : List String) (s : MState) : Prop where
  raw_frozen : ∀ i, i ∉ P → dictLookup s._kv_dict_raw i = dictLookup sp._kv_dict_raw i
  pc_frozen : ∀ i, i ∉ P →
      dictLookup s._kv_dict_printconv i = dictLookup sp._kv_dict_printconv i
  ll_eq : s._n_location_object_latlong_facet.isSome = P.any (coordLit sp)
  loc_eq : s._n_location_object.isSome = (P.any (coordLit sp) || P.any (posLit sp))
  rel_eq : s._n_relationship_object_location = none
  rpf_eq : s._n_raster_picture_facet.isSome
      = (sp._n_raster_picture_facet.isSome || P.any (heightLit sp))
  ed_gps : ∀ i ∈ exifGpsIris,
      edHasKey s (pyReplace i iriExifGPSStem "")
        = (decide (i ∈ P) && hasLitAt sp._kv_dict_raw i)
  ed_h : edHasKey s "Image Height"
      = (decide (iriExifImageHeight ∈ P)
          && hasLitAt sp._kv_dict_raw iriExifImageHeight)
  ed_w : edHasKey s "Image Width"
      = (decide (iriExifImageWidth ∈ P)
          && hasLitAt sp._kv_dict_raw iriExifImageWidth)
  edobj_eq : s._n_exif_dictionary_object = sp._n_exif_dictionary_object
  tinv : TypeCountsInv s
  entry_eq : ∀ k, hasEntryKey s.graph k = hasEntryKey sp.graph k
  mono : ∀ t, t ∈ sp.graph → t ∈ s.graph
  coord_tri : ∀ i ∈ P, i ∈ compCoordIris → ∀ lex dt,
      dictLookup sp._kv_dict_raw i = some (.lit lex dt) →
      ∃ f, Triple.mk (.uri f) (NS_UCO_LOCATION (coordProp i))
        (.lit lex (some (NS_XSD "decimal"))) ∈ s.graph
  height_tri : iriExifImageHeight ∈ P → ∀ lex dt,
      dictLookup sp._kv_dict_raw iriExifImageHeight = some (.lit lex dt) →
      ∃ n, pyIntOfString lex = some n ∧
        ∃ f, Triple.mk (.uri f) (NS_UCO_OBSERVABLE "pictureHeight") (intLiteral n)
          ∈ s.graph
  size_tri : iriFileSize ∈ P → ∀ lex dt,
      dictLookup sp._kv_dict_raw iriFileSize = some (.lit lex dt) →
      ∃ n, pyIntOfString lex = some n ∧
        ∃ f, Triple.mk (.uri f) (NS_UCO_OBSERVABLE "sizeInBytes") (intLiteral n)
          ∈ s.graph
  width_tri : ∀ Q R, P = Q ++ iriExifImageWidth :: R →
      (sp._n_raster_picture_facet.isSome || Q.any (heightLit sp)) = true →
      ∀ lex dt, dictLookup sp._kv_dict_raw iriExifImageWidth = some (.lit lex dt) →
      ∃ n, pyIntOfString lex = some n ∧
        ∃ f, Triple.mk (.uri f) (NS_UCO_OBSERVABLE "pictureWidth") (intLiteral n)
          ∈ s.graph
  ed_gps_val : ∀ i ∈ exifGpsIris, i ∈ P → ∀ lex dt,
      dictLookup sp._kv_dict_raw i = some (.lit lex dt) →
      edLookup s (pyReplace i iriExifGPSStem "") = some (.lit lex dt)
  ed_dom : ∀ k, edHasKey s k = true →
      (∃ i ∈ exifGpsIris, k = pyReplace i iriExifGPSStem "") ∨
      k = "Image Height" ∨ k = "Image Width"

/-- Example base namespace used by the concrete runs. -/
def kbNS : String := "http://example.org/kb/"

/-- Mapper state holding a pending print-converted value for FileSize and
no raw value, used to witness the print-converted-discard behavior. -/
def c10_state : MState :=
  { initState kbNS false with
      _kv_dict_printconv := [(iriFileSize, .lit "12 kB" none)] }

/-- Input of the C4 example: only MIMEType and FileSize, raw values
only. -/
def c4_raw : List (String × Node) :=
  [(iriMIMEType, .lit "image/jpeg" none), (iriFileSize, .lit "12345" none)]

/-- The C4 example run. -/
def c4_run : Except String MState := runMapper (some c4_raw) none false kbNS

/-- Input of the C5 example, raw dump: Make with the raw manufacturer
name. -/
def c5_raw : List (String × Node) := [(iriMake, .lit "Nikon Corporation" none)]

/-- Input of the C5 example, print-converted dump: Make with the
display manufacturer name. -/
def c5_printconv : List (String × Node) := [(iriMake, .lit "NIKON" none)]

/-- The C5 example run. -/
def c5_run : Except String MState := runMapper (some c5_raw) (some c5_printconv) false kbNS

/-- Input with a single EXIF GPS IFD latitude, raw literal. -/
def exifGpsLatOnly_raw : List (String × Node) :=
  [("http://ns.exiftool.org/EXIF/GPS/1.0/GPSLatitude", .lit "31.1" none)]

/-- Run over the single EXIF GPS IFD latitude input. -/
def exifGpsLatOnly_run : Except String MState :=
  runMapper (some exifGpsLatOnly_raw) none false kbNS

/-- Input with a single composite GPS altitude, raw literal. -/
def compAltOnly_raw : List (String × Node) :=
  [(iriCompositeGPSAltitude, .lit "123.4" none)]

/-- Run over the single composite GPS altitude input. -/
def compAltOnly_run : Except String MState :=
  runMapper (some compAltOnly_raw) none false kbNS

/-- Input with a single ExifImageWidth with an integer raw literal. -/
def widthOnly_raw : List (String × Node) := [(iriExifImageWidth, .lit "640" none)]

/-- Run over the single integer-valued ExifImageWidth input. -/
def widthOnly_run : Except String MState := runMapper (some widthOnly_raw) none false kbNS

/-- Input with a single ExifImageWidth whose raw literal is not an
integer. -/
def widthBad_raw : List (String × Node) := [(iriExifImageWidth, .lit "abc" none)]

/-- Run over the non-integer ExifImageWidth input. -/
def widthBad_run : Except String MState := runMapper (some widthBad_raw) none false kbNS

/-- End state of the composite-GPS-altitude-only run. -/
def compAltOnly_sf : MState := okStateOf compAltOnly_run

/-- End state of the EXIF-GPS-latitude-only run. -/
def exifGpsLatOnly_sf : MState := okStateOf exifGpsLatOnly_run

/-- Input with a single ExifImageHeight with an integer raw literal. -/
def heightOnly_raw : List (String × Node) := [(iriExifImageHeight, .lit "480" none)]

/-- Run over the single integer-valued ExifImageHeight input. -/
def heightOnly_run : Except String MState := runMapper (some heightOnly_raw) none false kbNS

/-- End state of the ExifImageHeight-only run. -/
def heightOnly_sf : MState := okStateOf heightOnly_run

/-- End state of the C4 example run. -/
def c4_sf : MState := okStateOf c4_run

/-- End state of the C5 example run. -/
def c5_sf : MState := okStateOf c5_run

/-- C1 counterexample: the input union contains a GPS-prefixed property
identifier (EXIF/GPS/1.0/GPSLatitude with a raw literal), yet the
completed run's output graph has neither a LatLongCoordinatesFacet nor a
Location→Object Relationship — refuting the claimed "if" direction of the
equivalence.  (The GPS value only becomes an EXIF dictionary entry.) -/
theorem C1_counterexample :
    (inputUnion (some exifGpsLatOnly_raw) none).any gpsPrefixed = true ∧
    runOk exifGpsLatOnly_run = true ∧
    hasTypeTriple (graphOf exifGpsLatOnly_run) (NS_UCO_LOCATION "LatLongCoordinatesFacet") = false ∧
    hasTypeTriple (graphOf exifGpsLatOnly_run) (NS_UCO_CORE "Relationship") = false ∧
    hasEntryKey (graphOf exifGpsLatOnly_run) "Latitude" = true := by
  refine ⟨by decide, by decide, by decide, by decide, by decide⟩

/-- C2 counterexample: a Composite/1.0 GPS altitude identifier with a raw
literal gets its value typed `xsd:decimal` on the LatLongCoordinates
facet, but no parallel copy is recorded in the EXIF controlled
dictionary — no controlled dictionary (nor any entry) exists in the
output at all. -/
theorem C2_counterexample :
    runOk compAltOnly_run = true ∧
    (graphOf compAltOnly_run).any
      (fun t => t.p == NS_UCO_LOCATION "altitude" &&
        t.o == .lit "123.4" (some (NS_XSD "decimal"))) = true ∧
    hasTypeTriple (graphOf compAltOnly_run) (NS_UCO_TYPES "ControlledDictionary") = false ∧
    hasEntryKey (graphOf compAltOnly_run) "Altitude" = false := by
  refine ⟨by decide, by decide, by decide, by decide⟩

/-- C3 counterexample: an input containing only ExifImageWidth with raw
literal "640" records the EXIF dictionary entry, but no `pictureWidth`
property and no Raster-Picture facet appear — the facet assertion of the
width is not unconditional. -/
theorem C3_counterexample :
    runOk widthOnly_run = true ∧
    hasEntryKey (graphOf widthOnly_run) "Image Width" = true ∧
    hasPredicate (graphOf widthOnly_run) (NS_UCO_OBSERVABLE "pictureWidth") = false ∧
    hasTypeTriple (graphOf widthOnly_run) (NS_UCO_OBSERVABLE "RasterPictureFacet") = false := by
  refine ⟨by decide, by decide, by decide, by decide⟩

/-- C9 counterexample: an image dimension (ExifImageWidth) whose raw
literal "abc" does not parse as an integer does not make the run fail:
with no Raster-Picture facet instantiated, the coercion is never
attempted, the run completes, and the unparsed value is even emitted as
an EXIF dictionary entry. -/
theorem C9_counterexample :
    pyIntOfString "abc" = none ∧
    runOk widthBad_run = true ∧
    (graphOf widthBad_run).any
      (fun t => t.p == NS_UCO_TYPES "value" && t.o == .lit "abc" none) = true := by
  refine ⟨by decide, by decide, by decide⟩

/-- C4: an input whose union holds exactly MIMEType = "image/jpeg" and
FileSize = 12345 (raw values) yields a completed run whose graph has
exactly one base object — typed ObservableObject and carrying the
"Picture-" identifier slug — exactly one Content-Data facet asserting
`sizeInBytes` 12345 (as an `xsd:integer` literal) and
`mimeType` "image/jpeg", and exactly one Raster-Picture facet asserting
`pictureType` "jpg". -/
theorem C4_mime_and_filesize_example :
    runOk c4_run = true ∧
    (graphOf c4_run).filter (isTypeTriple (NS_UCO_OBSERVABLE "ObservableObject"))
      = [⟨.uri "http://example.org/kb/Picture-0", NS_RDF "type",
          NS_UCO_OBSERVABLE "ObservableObject"⟩] ∧
    countTypeTriples (graphOf c4_run) (NS_UCO_OBSERVABLE "ContentDataFacet") = 1 ∧
    (⟨.uri "http://example.org/kb/ContentDataFacet-1", NS_UCO_OBSERVABLE "sizeInBytes",
      intLiteral 12345⟩ : Triple) ∈ graphOf c4_run ∧
    (⟨.uri "http://example.org/kb/ContentDataFacet-1", NS_UCO_OBSERVABLE "mimeType",
      .lit "image/jpeg" none⟩ : Triple) ∈ graphOf c4_run ∧
    countTypeTriples (graphOf c4_run) (NS_UCO_OBSERVABLE "RasterPictureFacet") = 1 ∧
    (⟨.uri "http://example.org/kb/RasterPictureFacet-2", NS_UCO_OBSERVABLE "pictureType",
      .lit "jpg" none⟩ : Triple) ∈ graphOf c4_run ∧
    (⟨.uri "http://example.org/kb/Picture-0", NS_UCO_CORE "hasFacet",
      .uri "http://example.org/kb/ContentDataFacet-1"⟩ : Triple) ∈ graphOf c4_run ∧
    (⟨.uri "http://example.org/kb/Picture-0", NS_UCO_CORE "hasFacet",
      .uri "http://example.org/kb/RasterPictureFacet-2"⟩ : Triple) ∈ graphOf c4_run := by
  refine ⟨by decide, by decide, by decide, by decide, by decide, by decide, by decide,
    by decide, by decide⟩

lemma dictLookup_dictRemove_self (d : List (String × Node)) (k : String) :
    dictLookup (dictRemove d k) k = none := by
  induction d with
  | nil => rfl
  | cons kv rest ih =>
    by_cases h : kv.1 = k
    · simpa [dictRemove, List.filter_cons, h] using ih
    · simpa [dictRemove, List.filter_cons, h, dictLookup] using ih

lemma dictLookup_dictRemove_ne (d : List (String × Node)) (k k' : String)
    (h : k' ≠ k) : dictLookup (dictRemove d k) k' = dictLookup d k' := by
  induction d with
  | nil => rfl
  | cons kv rest ih =>
    have hkk : ¬ k = k' := fun he => h he.symm
    by_cases hk : kv.1 = k
    · simpa [dictRemove, List.filter_cons, hk, dictLookup, hkk] using ih
    · by_cases hk' : kv.1 = k'
      · simp [dictRemove, List.filter_cons, hk, dictLookup, hk', h]
      · simpa [dictRemove, List.filter_cons, hk, dictLookup, hk'] using ih

lemma isTypeTriple_mk_false_o (c a p o : Node) (h : o ≠ c) :
    isTypeTriple c ⟨a, p, o⟩ = false := by
  unfold isTypeTriple
  simp only [Bool.and_eq_false_iff]
  exact Or.inr (beq_eq_false_iff_ne.2 h)

lemma isTypeTriple_mk_false_p (c a p o : Node) (h : p ≠ NS_RDF "type") :
    isTypeTriple c ⟨a, p, o⟩ = false := by
  unfold isTypeTriple
  simp only [Bool.and_eq_false_iff]
  exact Or.inl (beq_eq_false_iff_ne.2 h)

lemma isTypeTriple_mk_true (c a : Node) : isTypeTriple c ⟨a, NS_RDF "type", c⟩ = true := by
  unfold isTypeTriple
  simp

lemma isKeyTriple_mk_false_p (k : String) (a p o : Node) (h : p ≠ NS_UCO_TYPES "key") :
    isKeyTriple k ⟨a, p, o⟩ = false := by
  unfold isKeyTriple
  simp only [Bool.and_eq_false_iff]
  exact Or.inl (beq_eq_false_iff_ne.2 h)

lemma isKeyTriple_mk_true (k : String) (a : Node) :
    isKeyTriple k ⟨a, NS_UCO_TYPES "key", .lit k none⟩ = true := by
  unfold isKeyTriple
  simp

lemma exiftoolIri_ne_rdf_type (iri : String) (h : isExiftoolIri iri = true) :
    Node.uri iri ≠ NS_RDF "type" := by
  intro he
  rw [show NS_RDF "type" = Node.uri "http://www.w3.org/1999/02/22-rdf-syntax-ns#type" from rfl]
    at he
  rw [Node.uri.inj he] at h
  exact absurd h (by decide)

lemma exiftoolIri_ne_key (iri : String) (h : isExiftoolIri iri = true) :
    Node.uri iri ≠ NS_UCO_TYPES "key" := by
  intro he
  rw [show NS_UCO_TYPES "key"
      = Node.uri "https://ontology.unifiedcyberontology.org/uco/types/key" from rfl] at he
  rw [Node.uri.inj he] at h
  exact absurd h (by decide)

lemma mem_graphAdd_iff (g : List Triple) (t t' : Triple) :
    t' ∈ graphAdd g t ↔ t' ∈ g ∨ t' = t := by
  unfold graphAdd
  by_cases h : t ∈ g
  · simp only [h, if_true, iff_self_or]
    intro he; exact he ▸ h
  · simp [h, List.mem_append]

lemma mem_graphAdd_self (g : List Triple) (t : Triple) : t ∈ graphAdd g t :=
  (mem_graphAdd_iff g t t).2 (Or.inr rfl)

lemma mem_graphAdd_of_mem (g : List Triple) (t t' : Triple) (h : t' ∈ g) :
    t' ∈ graphAdd g t :=
  (mem_graphAdd_iff g t t').2 (Or.inl h)

lemma hasTypeTriple_graphAdd (g : List Triple) (t : Triple) (c : Node) :
    hasTypeTriple (graphAdd g t) c = (hasTypeTriple g c || isTypeTriple c t) := by
  unfold hasTypeTriple graphAdd
  by_cases h : t ∈ g
  · simp only [h, if_true]
    by_cases hc : isTypeTriple c t = true
    · simp only [hc, Bool.or_true]
      exact (List.any_eq_true).2 ⟨t, h, hc⟩
    · simp [Bool.eq_false_iff.2 hc]
  · simp [h, List.any_append]

lemma hasTypeTriple_pos (g : List Triple) (c : Node) :
    hasTypeTriple g c = true ↔ 0 < countTypeTriples g c := by
  unfold hasTypeTriple countTypeTriples
  rw [List.length_pos, List.any_eq_true]
  constructor
  · rintro ⟨t, ht, hc⟩
    intro hnil
    have : t ∈ g.filter (isTypeTriple c) := List.mem_filter.2 ⟨ht, hc⟩
    rw [hnil] at this
    exact List.not_mem_nil t this
  · intro hne
    obtain ⟨t, ht⟩ := List.exists_mem_of_ne_nil _ hne
    exact ⟨t, (List.mem_filter.1 ht).1, (List.mem_filter.1 ht).2⟩

lemma countTypeTriples_graphAdd_of_not (g : List Triple) (t : Triple) (c : Node)
    (h : isTypeTriple c t = false) :
    countTypeTriples (graphAdd g t) c = countTypeTriples g c := by
  unfold countTypeTriples graphAdd
  by_cases hm : t ∈ g
  · simp [hm]
  · simp [hm, List.filter_append, List.filter_cons, h]

lemma countTypeTriples_graphAdd_le (g : List Triple) (t : Triple) (c : Node) :
    countTypeTriples (graphAdd g t) c ≤ countTypeTriples g c + 1 := by
  unfold countTypeTriples graphAdd
  by_cases hm : t ∈ g
  · simp [hm]
  · by_cases hc : isTypeTriple c t = true
    · simp [hm, List.filter_append, List.filter_cons, hc]
    · simp [hm, List.filter_append, List.filter_cons, Bool.eq_false_iff.2 hc]

lemma countTypeTriples_graphAdd_ge (g : List Triple) (t : Triple) (c : Node) :
    countTypeTriples g c ≤ countTypeTriples (graphAdd g t) c := by
  unfold countTypeTriples graphAdd
  by_cases hm : t ∈ g
  · simp [hm]
  · simp [hm, List.filter_append]

lemma countTypeTriples_graphAdd_of_zero (g : List Triple) (t : Triple) (c : Node)
    (h : isTypeTriple c t = true) (h0 : countTypeTriples g c = 0) :
    countTypeTriples (graphAdd g t) c = 1 := by
  have hm : t ∉ g := by
    intro hmem
    have : t ∈ g.filter (isTypeTriple c) := List.mem_filter.2 ⟨hmem, h⟩
    unfold countTypeTriples at h0
    rw [List.length_eq_zero] at h0
    rw [h0] at this
    exact List.not_mem_nil t this
  unfold countTypeTriples graphAdd at *
  simp [hm, List.filter_append, List.filter_cons, h, h0]

lemma countTypeTriples_graphAdd_pos (g : List Triple) (t : Triple) (c : Node)
    (h : isTypeTriple c t = true) :
    0 < countTypeTriples (graphAdd g t) c := by
  rw [← hasTypeTriple_pos, hasTypeTriple_graphAdd, h]
  simp

lemma hasEntryKey_graphAdd (g : List Triple) (t : Triple) (k : String) :
    hasEntryKey (graphAdd g t) k = (hasEntryKey g k || isKeyTriple k t) := by
  unfold hasEntryKey graphAdd
  by_cases h : t ∈ g
  · simp only [h, if_true]
    by_cases hc : isKeyTriple k t = true
    · simp only [hc, Bool.or_true]
      exact (List.any_eq_true).2 ⟨t, h, hc⟩
    · simp [Bool.eq_false_iff.2 hc]
  · simp [h, List.any_append]

lemma ok_bind {α β : Type} (a : α) (f : α → Except String β) :
    (Except.ok a : Except String α) >>= f = f a := rfl

lemma error_bind {α β : Type} (e : String) (f : α → Except String β) :
    (Except.error e : Except String α) >>= f = .error e := rfl

lemma none_eq_some_eq_false {α : Type} (a : α) : ((none : Option α) = some a) = False :=
  eq_false (fun he => Option.noConfusion he)

lemma false_eq_true_eq_false : (false = true) = False :=
  eq_false (fun he => Bool.noConfusion he)

lemma toString_zero : toString (0 : Nat) = "0" := rfl

lemma n_location_object_facts (s : MState) (n : String) (s' : MState)
    (h : n_location_object s = (n, s')) :
    s'._kv_dict_raw = s._kv_dict_raw ∧
    s'._kv_dict_printconv = s._kv_dict_printconv ∧
    s'._exif_dictionary_dict = s._exif_dictionary_dict ∧
    s'._n_relationship_object_location = s._n_relationship_object_location ∧
    s'._n_location_object_latlong_facet = s._n_location_object_latlong_facet ∧
    s'._n_raster_picture_facet = s._n_raster_picture_facet ∧
    s'._n_observable_object = s._n_observable_object ∧
    s'._n_camera_object = s._n_camera_object ∧
    s'._n_location_object = some n ∧
    (∀ t, t ∈ s.graph → t ∈ s'.graph) ∧
    (∀ k, hasEntryKey s'.graph k = hasEntryKey s.graph k) ∧
    (TypeCountsInv s → TypeCountsInv s') := by
  cases hf : s._n_location_object with
  | some m =>
    unfold n_location_object at h
    rw [hf] at h
    obtain ⟨hm, hs⟩ : m = n ∧ s = s' := by simpa using h
    subst hs
    subst hm
    exact ⟨rfl, rfl, rfl, rfl, rfl, rfl, rfl, rfl, hf, fun t ht => ht, fun k => rfl, id⟩
  | none =>
    unfold n_location_object at h
    rw [hf] at h
    simp only [local_uuid, stAdd, Prod.mk.injEq] at h
    obtain ⟨hn, hs⟩ := h
    subst hs
    refine ⟨rfl, rfl, rfl, rfl, rfl, rfl, rfl, rfl, by rw [hn], ?_, ?_, ?_⟩ <;> dsimp only
    · exact fun t ht => mem_graphAdd_of_mem _ _ _ ht
    · intro k
      rw [hasEntryKey_graphAdd, isKeyTriple_mk_false_p _ _ _ _ (by decide)]
      simp
    · intro hInv
      obtain ⟨h1, h2, h3, h4, h5⟩ := hInv
      rw [hf] at h1
      refine ⟨?_, ?_, ?_, ?_, ?_⟩ <;> dsimp only
      · exact countTypeTriples_graphAdd_of_zero _ _ _ (isTypeTriple_mk_true _ _)
          (by simpa using h1)
      · rw [countTypeTriples_graphAdd_of_not _ _ _ (isTypeTriple_mk_false_o _ _ _ _ (by decide))]
        exact h2
      · rw [countTypeTriples_graphAdd_of_not _ _ _ (isTypeTriple_mk_false_o _ _ _ _ (by decide))]
        exact h3
      · exact le_trans h4 (countTypeTriples_graphAdd_ge _ _ _)
      · rw [countTypeTriples_graphAdd_of_not _ _ _ (isTypeTriple_mk_false_o _ _ _ _ (by decide))]
        exact h5

lemma n_camera_object_facts (s : MState) (n : String) (s' : MState)
    (h : n_camera_object s = (n, s')) :
    s'._kv_dict_raw = s._kv_dict_raw ∧
    s'._kv_dict_printconv = s._kv_dict_printconv ∧
    s'._exif_dictionary_dict = s._exif_dictionary_dict ∧
    s'._n_relationship_object_location = s._n_relationship_object_location ∧
    s'._n_location_object_latlong_facet = s._n_location_object_latlong_facet ∧
    s'._n_location_object = s._n_location_object ∧
    s'._n_raster_picture_facet = s._n_raster_picture_facet ∧
    s'._n_observable_object = s._n_observable_object ∧
    s'._n_camera_object = some n ∧
    (∀ t, t ∈ s.graph → t ∈ s'.graph) ∧
    (∀ k, hasEntryKey s'.graph k = hasEntryKey s.graph k) ∧
    (TypeCountsInv s → TypeCountsInv s') := by
  cases hf : s._n_camera_object with
  | some m =>
    unfold n_camera_object at h
    rw [hf] at h
    obtain ⟨hm, hs⟩ : m = n ∧ s = s' := by simpa using h
    subst hs
    subst hm
    exact ⟨rfl, rfl, rfl, rfl, rfl, rfl, rfl, rfl, hf, fun t ht => ht, fun k => rfl, id⟩
  | none =>
    unfold n_camera_object at h
    rw [hf] at h
    simp only [local_uuid, stAdd, Prod.mk.injEq] at h
    obtain ⟨hn, hs⟩ := h
    subst hs
    refine ⟨rfl, rfl, rfl, rfl, rfl, rfl, rfl, rfl, by rw [hn], ?_, ?_, ?_⟩ <;> dsimp only
    · exact fun t ht => mem_graphAdd_of_mem _ _ _ ht
    · intro k
      rw [hasEntryKey_graphAdd, isKeyTriple_mk_false_p _ _ _ _ (by decide)]
      simp
    · intro hInv
      obtain ⟨h1, h2, h3, h4, h5⟩ := hInv
      rw [hf] at h5
      refine ⟨?_, ?_, ?_, ?_, ?_⟩ <;> dsimp only
      · rw [countTypeTriples_graphAdd_of_not _ _ _ (isTypeTriple_mk_false_o _ _ _ _ (by decide))]
        exact h1
      · rw [countTypeTriples_graphAdd_of_not _ _ _ (isTypeTriple_mk_false_o _ _ _ _ (by decide))]
        exact h2
      · rw [countTypeTriples_graphAdd_of_not _ _ _ (isTypeTriple_mk_false_o _ _ _ _ (by decide))]
        exact h3
      · exact le_trans h4 (countTypeTriples_graphAdd_ge _ _ _)
      · have h5x : countTypeTriples s.graph (NS_UCO_OBSERVABLE "ObservableObject")
            ≤ s._n_observable_object.isSome.toNat := by simpa using h5
        refine le_trans (countTypeTriples_graphAdd_le _ _ _) ?_
        simpa using Nat.add_le_add_right h5x 1

lemma n_observable_object_facts (s : MState) (n : String) (s' : MState)
    (h : n_observable_object s = .ok (n, s')) :
    s'._kv_dict_raw = s._kv_dict_raw ∧
    s'._kv_dict_printconv = s._kv_dict_printconv ∧
    s'._exif_dictionary_dict = s._exif_dictionary_dict ∧
    s'._n_relationship_object_location = s._n_relationship_object_location ∧
    s'._n_location_object_latlong_facet = s._n_location_object_latlong_facet ∧
    s'._n_location_object = s._n_location_object ∧
    s'._n_raster_picture_facet = s._n_raster_picture_facet ∧
    s'._n_camera_object = s._n_camera_object ∧
    s'._n_observable_object = some n ∧
    (∀ t, t ∈ s.graph → t ∈ s'.graph) ∧
    (∀ k, hasEntryKey s'.graph k = hasEntryKey s.graph k) ∧
    (TypeCountsInv s → TypeCountsInv s') := by
  cases hf : s._n_observable_object with
  | some m =>
    have he : n_observable_object s = .ok (m, s) := by
      unfold n_observable_object; rw [hf]
    rw [he] at h
    obtain ⟨hm, hs⟩ : m = n ∧ s = s' := by simpa using h
    subst hs
    subst hm
    simp_all
  | none =>
    cases hslug : s._oo_slug with
    | none =>
      unfold n_observable_object at h
      rw [hf, hslug] at h
      exact absurd h (by simp)
    | some slug =>
      unfold n_observable_object at h
      rw [hf, hslug] at h
      simp only [local_uuid, stAdd, Except.ok.injEq, Prod.mk.injEq] at h
      obtain ⟨hm, hs⟩ := h
      subst hs
      refine ⟨?_, ?_, ?_, ?_, ?_, ?_, ?_, ?_, ?_, ?_, ?_, ?_⟩ <;> dsimp only <;> try rfl
      · rw [hm]
      · exact fun t ht => mem_graphAdd_of_mem _ _ _ ht
      · intro k
        rw [hasEntryKey_graphAdd, isKeyTriple_mk_false_p _ _ _ _ (by decide)]
        simp
      · intro hInv
        obtain ⟨h1, h2, h3, h4, h5⟩ := hInv
        refine ⟨?_, ?_, ?_, ?_, ?_⟩ <;> dsimp only
        · rw [countTypeTriples_graphAdd_of_not _ _ _ (isTypeTriple_mk_false_o _ _ _ _ (by decide))]
          exact h1
        · rw [countTypeTriples_graphAdd_of_not _ _ _ (isTypeTriple_mk_false_o _ _ _ _ (by decide))]
          exact h2
        · rw [countTypeTriples_graphAdd_of_not _ _ _ (isTypeTriple_mk_false_o _ _ _ _ (by decide))]
          exact h3
        · simpa using countTypeTriples_graphAdd_pos _ _ _ (isTypeTriple_mk_true _ _)
        · have h5' : countTypeTriples s.graph (NS_UCO_OBSERVABLE "ObservableObject")
              ≤ s._n_camera_object.isSome.toNat := by
            rw [hf] at h5; simpa using h5
          refine le_trans (countTypeTriples_graphAdd_le _ _ _) ?_
          have hr := Nat.add_le_add_right h5' 1
          simpa [Nat.add_comm] using hr

lemma bind_ok_inv {α β : Type} {m : Except String α} {k : α → Except String β} {b : β}
    (h : m >>= k = .ok b) : ∃ a, m = .ok a ∧ k a = .ok b := by
  cases m with
  | error e => exact absurd h (by simp [error_bind])
  | ok a => exact ⟨a, rfl, by simpa [ok_bind] using h⟩

lemma n_observable_object_memo (s : MState) (n : String)
    (h : s._n_observable_object = some n) : n_observable_object s = .ok (n, s) := by
  unfold n_observable_object
  rw [h]

lemma n_content_data_facet_facts (s : MState) (n : String) (s' : MState)
    (h : n_content_data_facet s = .ok (n, s')) :
    s'._kv_dict_raw = s._kv_dict_raw ∧
    s'._kv_dict_printconv = s._kv_dict_printconv ∧
    s'._exif_dictionary_dict = s._exif_dictionary_dict ∧
    s'._n_relationship_object_location = s._n_relationship_object_location ∧
    s'._n_location_object_latlong_facet = s._n_location_object_latlong_facet ∧
    s'._n_location_object = s._n_location_object ∧
    s'._n_raster_picture_facet = s._n_raster_picture_facet ∧
    s'._n_camera_object = s._n_camera_object ∧
    (∀ t, t ∈ s.graph → t ∈ s'.graph) ∧
    (∀ k, hasEntryKey s'.graph k = hasEntryKey s.graph k) ∧
    (TypeCountsInv s → TypeCountsInv s') := by
  cases hf : s._n_content_data_facet with
  | some m =>
    unfold n_content_data_facet at h
    rw [hf] at h
    obtain ⟨hm, hs⟩ : m = n ∧ s = s' := by simpa using h
    subst hs
    exact ⟨rfl, rfl, rfl, rfl, rfl, rfl, rfl, rfl, fun t ht => ht, fun k => rfl, id⟩
  | none =>
    unfold n_content_data_facet at h
    rw [hf] at h
    cases hdet : s._use_deterministic_uuids with
    | false =>
      rw [hdet] at h
      simp only [Bool.false_eq_true, if_false, ite_false, local_uuid, ok_bind] at h
      obtain ⟨⟨oo, s2⟩, hoo, hk⟩ := bind_ok_inv h
      simp only [Except.ok.injEq, Prod.mk.injEq] at hk
      obtain ⟨hn, hs⟩ := hk
      subst hs
      obtain ⟨f1, f2, f3, f4, f5, f6, f7, f8, f9, f10, f11, f12⟩ :=
        n_observable_object_facts _ _ _ hoo
      refine ⟨?_, ?_, ?_, ?_, ?_, ?_, ?_, ?_, ?_, ?_, ?_⟩ <;> dsimp only [stAdd]
      · exact f1
      · exact f2
      · exact f3
      · exact f4
      · exact f5
      · exact f6
      · exact f7
      · exact f8
      · intro t ht
        exact mem_graphAdd_of_mem _ _ _ (f10 t (mem_graphAdd_of_mem _ _ _ ht))
      · intro k
        rw [hasEntryKey_graphAdd, isKeyTriple_mk_false_p _ _ _ _ (by decide), Bool.or_false,
          f11]
        dsimp only [stAdd]
        rw [hasEntryKey_graphAdd, isKeyTriple_mk_false_p _ _ _ _ (by decide), Bool.or_false]
      · intro hInv
        have hmid : TypeCountsInv (stAdd { s with uuidCounter := s.uuidCounter + 1, _n_content_data_facet := some (s._ns_base ++ "ContentDataFacet-" ++ toString s.uuidCounter) } ⟨.uri (s._ns_base ++ "ContentDataFacet-" ++ toString s.uuidCounter), NS_RDF "type", NS_UCO_OBSERVABLE "ContentDataFacet"⟩) := by
          obtain ⟨h1, h2, h3, h4, h5⟩ := hInv
          refine ⟨?_, ?_, ?_, ?_, ?_⟩ <;> dsimp only [stAdd]
          · rw [countTypeTriples_graphAdd_of_not _ _ _ (isTypeTriple_mk_false_o _ _ _ _ (by decide))]
            exact h1
          · rw [countTypeTriples_graphAdd_of_not _ _ _ (isTypeTriple_mk_false_o _ _ _ _ (by decide))]
            exact h2
          · rw [countTypeTriples_graphAdd_of_not _ _ _ (isTypeTriple_mk_false_o _ _ _ _ (by decide))]
            exact h3
          · exact le_trans h4 (countTypeTriples_graphAdd_ge _ _ _)
          · rw [countTypeTriples_graphAdd_of_not _ _ _ (isTypeTriple_mk_false_o _ _ _ _ (by decide))]
            exact h5
        obtain ⟨h1, h2, h3, h4, h5⟩ := f12 hmid
        refine ⟨?_, ?_, ?_, ?_, ?_⟩ <;> dsimp only [stAdd]
        · rw [countTypeTriples_graphAdd_of_not _ _ _ (isTypeTriple_mk_false_p _ _ _ _ (by decide))]
          exact h1
        · rw [countTypeTriples_graphAdd_of_not _ _ _ (isTypeTriple_mk_false_p _ _ _ _ (by decide))]
          exact h2
        · rw [countTypeTriples_graphAdd_of_not _ _ _ (isTypeTriple_mk_false_p _ _ _ _ (by decide))]
          exact h3
        · exact le_trans h4 (countTypeTriples_graphAdd_ge _ _ _)
        · rw [countTypeTriples_graphAdd_of_not _ _ _ (isTypeTriple_mk_false_p _ _ _ _ (by decide))]
          exact h5
    | true =>
      rw [hdet] at h
      simp only [if_true, ite_true] at h
      obtain ⟨⟨oo1, s1⟩, hoo1, hk⟩ := bind_ok_inv h
      simp only [ok_bind] at hk
      obtain ⟨⟨oo2, s2⟩, hoo2, hk2⟩ := bind_ok_inv hk
      simp only [Except.ok.injEq, Prod.mk.injEq] at hk2
      obtain ⟨hn, hs⟩ := hk2
      subst hs
      obtain ⟨g1, g2, g3, g4, g5, g6, g7, g8, g9, g10, g11, g12⟩ :=
        n_observable_object_facts _ _ _ hoo1
      obtain ⟨f1, f2, f3, f4, f5, f6, f7, f8, f9, f10, f11, f12⟩ :=
        n_observable_object_facts _ _ _ hoo2
      refine ⟨?_, ?_, ?_, ?_, ?_, ?_, ?_, ?_, ?_, ?_, ?_⟩ <;> dsimp only [stAdd]
      · exact f1.trans g1
      · exact f2.trans g2
      · exact f3.trans g3
      · exact f4.trans g4
      · exact f5.trans g5
      · exact f6.trans g6
      · exact f7.trans g7
      · exact f8.trans g8
      · intro t ht
        exact mem_graphAdd_of_mem _ _ _ (f10 t (mem_graphAdd_of_mem _ _ _ (g10 t ht)))
      · intro k
        rw [hasEntryKey_graphAdd, isKeyTriple_mk_false_p _ _ _ _ (by decide), Bool.or_false,
          f11]
        dsimp only [stAdd]
        rw [hasEntryKey_graphAdd, isKeyTriple_mk_false_p _ _ _ _ (by decide), Bool.or_false]
        exact g11 k
      · intro hInv
        have hs1 := g12 hInv
        have hmid : TypeCountsInv (stAdd { s1 with _n_content_data_facet := some (get_facet_uriref s1._ns_base oo1 "ContentDataFacet") } ⟨.uri (get_facet_uriref s1._ns_base oo1 "ContentDataFacet"), NS_RDF "type", NS_UCO_OBSERVABLE "ContentDataFacet"⟩) := by
          obtain ⟨h1, h2, h3, h4, h5⟩ := hs1
          refine ⟨?_, ?_, ?_, ?_, ?_⟩ <;> dsimp only [stAdd]
          · rw [countTypeTriples_graphAdd_of_not _ _ _ (isTypeTriple_mk_false_o _ _ _ _ (by decide))]
            exact h1
          · rw [countTypeTriples_graphAdd_of_not _ _ _ (isTypeTriple_mk_false_o _ _ _ _ (by decide))]
            exact h2
          · rw [countTypeTriples_graphAdd_of_not _ _ _ (isTypeTriple_mk_false_o _ _ _ _ (by decide))]
            exact h3
          · exact le_trans h4 (countTypeTriples_graphAdd_ge _ _ _)
          · rw [countTypeTriples_graphAdd_of_not _ _ _ (isTypeTriple_mk_false_o _ _ _ _ (by decide))]
            exact h5
        obtain ⟨h1, h2, h3, h4, h5⟩ := f12 hmid
        refine ⟨?_, ?_, ?_, ?_, ?_⟩ <;> dsimp only [stAdd]
        · rw [countTypeTriples_graphAdd_of_not _ _ _ (isTypeTriple_mk_false_p _ _ _ _ (by decide))]
          exact h1
        · rw [countTypeTriples_graphAdd_of_not _ _ _ (isTypeTriple_mk_false_p _ _ _ _ (by decide))]
          exact h2
        · rw [countTypeTriples_graphAdd_of_not _ _ _ (isTypeTriple_mk_false_p _ _ _ _ (by decide))]
          exact h3
        · exact le_trans h4 (countTypeTriples_graphAdd_ge _ _ _)
        · rw [countTypeTriples_graphAdd_of_not _ _ _ (isTypeTriple_mk_false_p _ _ _ _ (by decide))]
          exact h5

lemma n_exif_facet_facts (s : MState) (n : String) (s' : MState)
    (h : n_exif_facet s = .ok (n, s')) :
    s'._kv_dict_raw = s._kv_dict_raw ∧
    s'._kv_dict_printconv = s._kv_dict_printconv ∧
    s'._exif_dictionary_dict = s._exif_dictionary_dict ∧
    s'._n_relationship_object_location = s._n_relationship_object_location ∧
    s'._n_location_object_latlong_facet = s._n_location_object_latlong_facet ∧
    s'._n_location_object = s._n_location_object ∧
    s'._n_raster_picture_facet = s._n_raster_picture_facet ∧
    s'._n_camera_object = s._n_camera_object ∧
    (∀ t, t ∈ s.graph → t ∈ s'.graph) ∧
    (∀ k, hasEntryKey s'.graph k = hasEntryKey s.graph k) ∧
    (TypeCountsInv s → TypeCountsInv s') := by
  cases hf : s._n_exif_facet with
  | some m =>
    unfold n_exif_facet at h
    rw [hf] at h
    obtain ⟨hm, hs⟩ : m = n ∧ s = s' := by simpa using h
    subst hs
    exact ⟨rfl, rfl, rfl, rfl, rfl, rfl, rfl, rfl, fun t ht => ht, fun k => rfl, id⟩
  | none =>
    unfold n_exif_facet at h
    rw [hf] at h
    cases hdet : s._use_deterministic_uuids with
    | false =>
      rw [hdet] at h
      simp only [Bool.false_eq_true, if_false, ite_false, local_uuid, ok_bind] at h
      obtain ⟨⟨oo, s2⟩, hoo, hk⟩ := bind_ok_inv h
      simp only [Except.ok.injEq, Prod.mk.injEq] at hk
      obtain ⟨hn, hs⟩ := hk
      subst hs
      obtain ⟨f1, f2, f3, f4, f5, f6, f7, f8, f9, f10, f11, f12⟩ :=
        n_observable_object_facts _ _ _ hoo
      refine ⟨?_, ?_, ?_, ?_, ?_, ?_, ?_, ?_, ?_, ?_, ?_⟩ <;> dsimp only [stAdd]
      · exact f1
      · exact f2
      · exact f3
      · exact f4
      · exact f5
      · exact f6
      · exact f7
      · exact f8
      · intro t ht
        exact mem_graphAdd_of_mem _ _ _ (f10 t (mem_graphAdd_of_mem _ _ _ ht))
      · intro k
        rw [hasEntryKey_graphAdd, isKeyTriple_mk_false_p _ _ _ _ (by decide), Bool.or_false,
          f11]
        dsimp only [stAdd]
        rw [hasEntryKey_graphAdd, isKeyTriple_mk_false_p _ _ _ _ (by decide), Bool.or_false]
      · intro hInv
        have hmid : TypeCountsInv (stAdd { s with uuidCounter := s.uuidCounter + 1, _n_exif_facet := some (s._ns_base ++ "EXIFFacet-" ++ toString s.uuidCounter) } ⟨.uri (s._ns_base ++ "EXIFFacet-" ++ toString s.uuidCounter), NS_RDF "type", NS_UCO_OBSERVABLE "EXIFFacet"⟩) := by
          obtain ⟨h1, h2, h3, h4, h5⟩ := hInv
          refine ⟨?_, ?_, ?_, ?_, ?_⟩ <;> dsimp only [stAdd]
          · rw [countTypeTriples_graphAdd_of_not _ _ _ (isTypeTriple_mk_false_o _ _ _ _ (by decide))]
            exact h1
          · rw [countTypeTriples_graphAdd_of_not _ _ _ (isTypeTriple_mk_false_o _ _ _ _ (by decide))]
            exact h2
          · rw [countTypeTriples_graphAdd_of_not _ _ _ (isTypeTriple_mk_false_o _ _ _ _ (by decide))]
            exact h3
          · exact le_trans h4 (countTypeTriples_graphAdd_ge _ _ _)
          · rw [countTypeTriples_graphAdd_of_not _ _ _ (isTypeTriple_mk_false_o _ _ _ _ (by decide))]
            exact h5
        obtain ⟨h1, h2, h3, h4, h5⟩ := f12 hmid
        refine ⟨?_, ?_, ?_, ?_, ?_⟩ <;> dsimp only [stAdd]
        · rw [countTypeTriples_graphAdd_of_not _ _ _ (isTypeTriple_mk_false_p _ _ _ _ (by decide))]
          exact h1
        · rw [countTypeTriples_graphAdd_of_not _ _ _ (isTypeTriple_mk_false_p _ _ _ _ (by decide))]
          exact h2
        · rw [countTypeTriples_graphAdd_of_not _ _ _ (isTypeTriple_mk_false_p _ _ _ _ (by decide))]
          exact h3
        · exact le_trans h4 (countTypeTriples_graphAdd_ge _ _ _)
        · rw [countTypeTriples_graphAdd_of_not _ _ _ (isTypeTriple_mk_false_p _ _ _ _ (by decide))]
          exact h5
    | true =>
      rw [hdet] at h
      simp only [if_true, ite_true] at h
      obtain ⟨⟨oo1, s1⟩, hoo1, hk⟩ := bind_ok_inv h
      simp only [ok_bind] at hk
      obtain ⟨⟨oo2, s2⟩, hoo2, hk2⟩ := bind_ok_inv hk
      simp only [Except.ok.injEq, Prod.mk.injEq] at hk2
      obtain ⟨hn, hs⟩ := hk2
      subst hs
      obtain ⟨g1, g2, g3, g4, g5, g6, g7, g8, g9, g10, g11, g12⟩ :=
        n_observable_object_facts _ _ _ hoo1
      obtain ⟨f1, f2, f3, f4, f5, f6, f7, f8, f9, f10, f11, f12⟩ :=
        n_observable_object_facts _ _ _ hoo2
      refine ⟨?_, ?_, ?_, ?_, ?_, ?_, ?_, ?_, ?_, ?_, ?_⟩ <;> dsimp only [stAdd]
      · exact f1.trans g1
      · exact f2.trans g2
      · exact f3.trans g3
      · exact f4.trans g4
      · exact f5.trans g5
      · exact f6.trans g6
      · exact f7.trans g7
      · exact f8.trans g8
      · intro t ht
        exact mem_graphAdd_of_mem _ _ _ (f10 t (mem_graphAdd_of_mem _ _ _ (g10 t ht)))
      · intro k
        rw [hasEntryKey_graphAdd, isKeyTriple_mk_false_p _ _ _ _ (by decide), Bool.or_false,
          f11]
        dsimp only [stAdd]
        rw [hasEntryKey_graphAdd, isKeyTriple_mk_false_p _ _ _ _ (by decide), Bool.or_false]
        exact g11 k
      · intro hInv
        have hs1 := g12 hInv
        have hmid : TypeCountsInv (stAdd { s1 with _n_exif_facet := some (get_facet_uriref s1._ns_base oo1 "EXIFFacet") } ⟨.uri (get_facet_uriref s1._ns_base oo1 "EXIFFacet"), NS_RDF "type", NS_UCO_OBSERVABLE "EXIFFacet"⟩) := by
          obtain ⟨h1, h2, h3, h4, h5⟩ := hs1
          refine ⟨?_, ?_, ?_, ?_, ?_⟩ <;> dsimp only [stAdd]
          · rw [countTypeTriples_graphAdd_of_not _ _ _ (isTypeTriple_mk_false_o _ _ _ _ (by decide))]
            exact h1
          · rw [countTypeTriples_graphAdd_of_not _ _ _ (isTypeTriple_mk_false_o _ _ _ _ (by decide))]
            exact h2
          · rw [countTypeTriples_graphAdd_of_not _ _ _ (isTypeTriple_mk_false_o _ _ _ _ (by decide))]
            exact h3
          · exact le_trans h4 (countTypeTriples_graphAdd_ge _ _ _)
          · rw [countTypeTriples_graphAdd_of_not _ _ _ (isTypeTriple_mk_false_o _ _ _ _ (by decide))]
            exact h5
        obtain ⟨h1, h2, h3, h4, h5⟩ := f12 hmid
        refine ⟨?_, ?_, ?_, ?_, ?_⟩ <;> dsimp only [stAdd]
        · rw [countTypeTriples_graphAdd_of_not _ _ _ (isTypeTriple_mk_false_p _ _ _ _ (by decide))]
          exact h1
        · rw [countTypeTriples_graphAdd_of_not _ _ _ (isTypeTriple_mk_false_p _ _ _ _ (by decide))]
          exact h2
        · rw [countTypeTriples_graphAdd_of_not _ _ _ (isTypeTriple_mk_false_p _ _ _ _ (by decide))]
          exact h3
        · exact le_trans h4 (countTypeTriples_graphAdd_ge _ _ _)
        · rw [countTypeTriples_graphAdd_of_not _ _ _ (isTypeTriple_mk_false_p _ _ _ _ (by decide))]
          exact h5

lemma n_file_facet_facts (s : MState) (n : String) (s' : MState)
    (h : n_file_facet s = .ok (n, s')) :
    s'._kv_dict_raw = s._kv_dict_raw ∧
    s'._kv_dict_printconv = s._kv_dict_printconv ∧
    s'._exif_dictionary_dict = s._exif_dictionary_dict ∧
    s'._n_relationship_object_location = s._n_relationship_object_location ∧
    s'._n_location_object_latlong_facet = s._n_location_object_latlong_facet ∧
    s'._n_location_object = s._n_location_object ∧
    s'._n_raster_picture_facet = s._n_raster_picture_facet ∧
    s'._n_camera_object = s._n_camera_object ∧
    (∀ t, t ∈ s.graph → t ∈ s'.graph) ∧
    (∀ k, hasEntryKey s'.graph k = hasEntryKey s.graph k) ∧
    (TypeCountsInv s → TypeCountsInv s') := by
  cases hf : s._n_file_facet with
  | some m =>
    unfold n_file_facet at h
    rw [hf] at h
    obtain ⟨hm, hs⟩ : m = n ∧ s = s' := by simpa using h
    subst hs
    exact ⟨rfl, rfl, rfl, rfl, rfl, rfl, rfl, rfl, fun t ht => ht, fun k => rfl, id⟩
  | none =>
    unfold n_file_facet at h
    rw [hf] at h
    cases hdet : s._use_deterministic_uuids with
    | false =>
      rw [hdet] at h
      simp only [Bool.false_eq_true, if_false, ite_false, local_uuid, ok_bind] at h
      obtain ⟨⟨oo, s2⟩, hoo, hk⟩ := bind_ok_inv h
      simp only [Except.ok.injEq, Prod.mk.injEq] at hk
      obtain ⟨hn, hs⟩ := hk
      subst hs
      obtain ⟨f1, f2, f3, f4, f5, f6, f7, f8, f9, f10, f11, f12⟩ :=
        n_observable_object_facts _ _ _ hoo
      refine ⟨?_, ?_, ?_, ?_, ?_, ?_, ?_, ?_, ?_, ?_, ?_⟩ <;> dsimp only [stAdd]
      · exact f1
      · exact f2
      · exact f3
      · exact f4
      · exact f5
      · exact f6
      · exact f7
      · exact f8
      · intro t ht
        exact mem_graphAdd_of_mem _ _ _ (f10 t (mem_graphAdd_of_mem _ _ _ ht))
      · intro k
        rw [hasEntryKey_graphAdd, isKeyTriple_mk_false_p _ _ _ _ (by decide), Bool.or_false,
          f11]
        dsimp only [stAdd]
        rw [hasEntryKey_graphAdd, isKeyTriple_mk_false_p _ _ _ _ (by decide), Bool.or_false]
      · intro hInv
        have hmid : TypeCountsInv (stAdd { s with uuidCounter := s.uuidCounter + 1, _n_file_facet := some (s._ns_base ++ "FileFacet-" ++ toString s.uuidCounter) } ⟨.uri (s._ns_base ++ "FileFacet-" ++ toString s.uuidCounter), NS_RDF "type", NS_UCO_OBSERVABLE "FileFacet"⟩) := by
          obtain ⟨h1, h2, h3, h4, h5⟩ := hInv
          refine ⟨?_, ?_, ?_, ?_, ?_⟩ <;> dsimp only [stAdd]
          · rw [countTypeTriples_graphAdd_of_not _ _ _ (isTypeTriple_mk_false_o _ _ _ _ (by decide))]
            exact h1
          · rw [countTypeTriples_graphAdd_of_not _ _ _ (isTypeTriple_mk_false_o _ _ _ _ (by decide))]
            exact h2
          · rw [countTypeTriples_graphAdd_of_not _ _ _ (isTypeTriple_mk_false_o _ _ _ _ (by decide))]
            exact h3
          · exact le_trans h4 (countTypeTriples_graphAdd_ge _ _ _)
          · rw [countTypeTriples_graphAdd_of_not _ _ _ (isTypeTriple_mk_false_o _ _ _ _ (by decide))]
            exact h5
        obtain ⟨h1, h2, h3, h4, h5⟩ := f12 hmid
        refine ⟨?_, ?_, ?_, ?_, ?_⟩ <;> dsimp only [stAdd]
        · rw [countTypeTriples_graphAdd_of_not _ _ _ (isTypeTriple_mk_false_p _ _ _ _ (by decide))]
          exact h1
        · rw [countTypeTriples_graphAdd_of_not _ _ _ (isTypeTriple_mk_false_p _ _ _ _ (by decide))]
          exact h2
        · rw [countTypeTriples_graphAdd_of_not _ _ _ (isTypeTriple_mk_false_p _ _ _ _ (by decide))]
          exact h3
        · exact le_trans h4 (countTypeTriples_graphAdd_ge _ _ _)
        · rw [countTypeTriples_graphAdd_of_not _ _ _ (isTypeTriple_mk_false_p _ _ _ _ (by decide))]
          exact h5
    | true =>
      rw [hdet] at h
      simp only [if_true, ite_true] at h
      obtain ⟨⟨oo1, s1⟩, hoo1, hk⟩ := bind_ok_inv h
      simp only [ok_bind] at hk
      obtain ⟨⟨oo2, s2⟩, hoo2, hk2⟩ := bind_ok_inv hk
      simp only [Except.ok.injEq, Prod.mk.injEq] at hk2
      obtain ⟨hn, hs⟩ := hk2
      subst hs
      obtain ⟨g1, g2, g3, g4, g5, g6, g7, g8, g9, g10, g11, g12⟩ :=
        n_observable_object_facts _ _ _ hoo1
      obtain ⟨f1, f2, f3, f4, f5, f6, f7, f8, f9, f10, f11, f12⟩ :=
        n_observable_object_facts _ _ _ hoo2
      refine ⟨?_, ?_, ?_, ?_, ?_, ?_, ?_, ?_, ?_, ?_, ?_⟩ <;> dsimp only [stAdd]
      · exact f1.trans g1
      · exact f2.trans g2
      · exact f3.trans g3
      · exact f4.trans g4
      · exact f5.trans g5
      · exact f6.trans g6
      · exact f7.trans g7
      · exact f8.trans g8
      · intro t ht
        exact mem_graphAdd_of_mem _ _ _ (f10 t (mem_graphAdd_of_mem _ _ _ (g10 t ht)))
      · intro k
        rw [hasEntryKey_graphAdd, isKeyTriple_mk_false_p _ _ _ _ (by decide), Bool.or_false,
          f11]
        dsimp only [stAdd]
        rw [hasEntryKey_graphAdd, isKeyTriple_mk_false_p _ _ _ _ (by decide), Bool.or_false]
        exact g11 k
      · intro hInv
        have hs1 := g12 hInv
        have hmid : TypeCountsInv (stAdd { s1 with _n_file_facet := some (get_facet_uriref s1._ns_base oo1 "FileFacet") } ⟨.uri (get_facet_uriref s1._ns_base oo1 "FileFacet"), NS_RDF "type", NS_UCO_OBSERVABLE "FileFacet"⟩) := by
          obtain ⟨h1, h2, h3, h4, h5⟩ := hs1
          refine ⟨?_, ?_, ?_, ?_, ?_⟩ <;> dsimp only [stAdd]
          · rw [countTypeTriples_graphAdd_of_not _ _ _ (isTypeTriple_mk_false_o _ _ _ _ (by decide))]
            exact h1
          · rw [countTypeTriples_graphAdd_of_not _ _ _ (isTypeTriple_mk_false_o _ _ _ _ (by decide))]
            exact h2
          · rw [countTypeTriples_graphAdd_of_not _ _ _ (isTypeTriple_mk_false_o _ _ _ _ (by decide))]
            exact h3
          · exact le_trans h4 (countTypeTriples_graphAdd_ge _ _ _)
          · rw [countTypeTriples_graphAdd_of_not _ _ _ (isTypeTriple_mk_false_o _ _ _ _ (by decide))]
            exact h5
        obtain ⟨h1, h2, h3, h4, h5⟩ := f12 hmid
        refine ⟨?_, ?_, ?_, ?_, ?_⟩ <;> dsimp only [stAdd]
        · rw [countTypeTriples_graphAdd_of_not _ _ _ (isTypeTriple_mk_false_p _ _ _ _ (by decide))]
          exact h1
        · rw [countTypeTriples_graphAdd_of_not _ _ _ (isTypeTriple_mk_false_p _ _ _ _ (by decide))]
          exact h2
        · rw [countTypeTriples_graphAdd_of_not _ _ _ (isTypeTriple_mk_false_p _ _ _ _ (by decide))]
          exact h3
        · exact le_trans h4 (countTypeTriples_graphAdd_ge _ _ _)
        · rw [countTypeTriples_graphAdd_of_not _ _ _ (isTypeTriple_mk_false_p _ _ _ _ (by decide))]
          exact h5

lemma n_raster_picture_facet_facts (s : MState) (n : String) (s' : MState)
    (h : n_raster_picture_facet s = .ok (n, s')) :
    s'._kv_dict_raw = s._kv_dict_raw ∧
    s'._kv_dict_printconv = s._kv_dict_printconv ∧
    s'._exif_dictionary_dict = s._exif_dictionary_dict ∧
    s'._n_relationship_object_location = s._n_relationship_object_location ∧
    s'._n_location_object_latlong_facet = s._n_location_object_latlong_facet ∧
    s'._n_location_object = s._n_location_object ∧
    s'._n_raster_picture_facet = some n ∧
    s'._n_camera_object = s._n_camera_object ∧
    (∀ t, t ∈ s.graph → t ∈ s'.graph) ∧
    (∀ k, hasEntryKey s'.graph k = hasEntryKey s.graph k) ∧
    (TypeCountsInv s → TypeCountsInv s') := by
  cases hf : s._n_raster_picture_facet with
  | some m =>
    unfold n_raster_picture_facet at h
    rw [hf] at h
    obtain ⟨hm, hs⟩ : m = n ∧ s = s' := by simpa using h
    subst hs
    exact ⟨rfl, rfl, rfl, rfl, rfl, rfl, by rw [hf, hm], rfl, fun t ht => ht, fun k => rfl, id⟩
  | none =>
    unfold n_raster_picture_facet at h
    rw [hf] at h
    cases hdet : s._use_deterministic_uuids with
    | false =>
      rw [hdet] at h
      simp only [Bool.false_eq_true, if_false, ite_false, local_uuid, ok_bind] at h
      obtain ⟨⟨oo, s2⟩, hoo, hk⟩ := bind_ok_inv h
      simp only [Except.ok.injEq, Prod.mk.injEq] at hk
      obtain ⟨hn, hs⟩ := hk
      subst hs
      obtain ⟨f1, f2, f3, f4, f5, f6, f7, f8, f9, f10, f11, f12⟩ :=
        n_observable_object_facts _ _ _ hoo
      refine ⟨?_, ?_, ?_, ?_, ?_, ?_, ?_, ?_, ?_, ?_, ?_⟩ <;> dsimp only [stAdd]
      · exact f1
      · exact f2
      · exact f3
      · exact f4
      · exact f5
      · exact f6
      · rw [← hn]; exact f7
      · exact f8
      · intro t ht
        exact mem_graphAdd_of_mem _ _ _ (f10 t (mem_graphAdd_of_mem _ _ _ ht))
      · intro k
        rw [hasEntryKey_graphAdd, isKeyTriple_mk_false_p _ _ _ _ (by decide), Bool.or_false,
          f11]
        dsimp only [stAdd]
        rw [hasEntryKey_graphAdd, isKeyTriple_mk_false_p _ _ _ _ (by decide), Bool.or_false]
      · intro hInv
        have hmid : TypeCountsInv (stAdd { s with uuidCounter := s.uuidCounter + 1, _n_raster_picture_facet := some (s._ns_base ++ "RasterPictureFacet-" ++ toString s.uuidCounter) } ⟨.uri (s._ns_base ++ "RasterPictureFacet-" ++ toString s.uuidCounter), NS_RDF "type", NS_UCO_OBSERVABLE "RasterPictureFacet"⟩) := by
          obtain ⟨h1, h2, h3, h4, h5⟩ := hInv
          refine ⟨?_, ?_, ?_, ?_, ?_⟩ <;> dsimp only [stAdd]
          · rw [countTypeTriples_graphAdd_of_not _ _ _ (isTypeTriple_mk_false_o _ _ _ _ (by decide))]
            exact h1
          · rw [countTypeTriples_graphAdd_of_not _ _ _ (isTypeTriple_mk_false_o _ _ _ _ (by decide))]
            exact h2
          · rw [countTypeTriples_graphAdd_of_not _ _ _ (isTypeTriple_mk_false_o _ _ _ _ (by decide))]
            exact h3
          · exact le_trans h4 (countTypeTriples_graphAdd_ge _ _ _)
          · rw [countTypeTriples_graphAdd_of_not _ _ _ (isTypeTriple_mk_false_o _ _ _ _ (by decide))]
            exact h5
        obtain ⟨h1, h2, h3, h4, h5⟩ := f12 hmid
        refine ⟨?_, ?_, ?_, ?_, ?_⟩ <;> dsimp only [stAdd]
        · rw [countTypeTriples_graphAdd_of_not _ _ _ (isTypeTriple_mk_false_p _ _ _ _ (by decide))]
          exact h1
        · rw [countTypeTriples_graphAdd_of_not _ _ _ (isTypeTriple_mk_false_p _ _ _ _ (by decide))]
          exact h2
        · rw [countTypeTriples_graphAdd_of_not _ _ _ (isTypeTriple_mk_false_p _ _ _ _ (by decide))]
          exact h3
        · exact le_trans h4 (countTypeTriples_graphAdd_ge _ _ _)
        · rw [countTypeTriples_graphAdd_of_not _ _ _ (isTypeTriple_mk_false_p _ _ _ _ (by decide))]
          exact h5
    | true =>
      rw [hdet] at h
      simp only [if_true, ite_true] at h
      obtain ⟨⟨oo1, s1⟩, hoo1, hk⟩ := bind_ok_inv h
      simp only [ok_bind] at hk
      obtain ⟨⟨oo2, s2⟩, hoo2, hk2⟩ := bind_ok_inv hk
      simp only [Except.ok.injEq, Prod.mk.injEq] at hk2
      obtain ⟨hn, hs⟩ := hk2
      subst hs
      obtain ⟨g1, g2, g3, g4, g5, g6, g7, g8, g9, g10, g11, g12⟩ :=
        n_observable_object_facts _ _ _ hoo1
      obtain ⟨f1, f2, f3, f4, f5, f6, f7, f8, f9, f10, f11, f12⟩ :=
        n_observable_object_facts _ _ _ hoo2
      refine ⟨?_, ?_, ?_, ?_, ?_, ?_, ?_, ?_, ?_, ?_, ?_⟩ <;> dsimp only [stAdd]
      · exact f1.trans g1
      · exact f2.trans g2
      · exact f3.trans g3
      · exact f4.trans g4
      · exact f5.trans g5
      · exact f6.trans g6
      · rw [← hn]; exact f7
      · exact f8.trans g8
      · intro t ht
        exact mem_graphAdd_of_mem _ _ _ (f10 t (mem_graphAdd_of_mem _ _ _ (g10 t ht)))
      · intro k
        rw [hasEntryKey_graphAdd, isKeyTriple_mk_false_p _ _ _ _ (by decide), Bool.or_false,
          f11]
        dsimp only [stAdd]
        rw [hasEntryKey_graphAdd, isKeyTriple_mk_false_p _ _ _ _ (by decide), Bool.or_false]
        exact g11 k
      · intro hInv
        have hs1 := g12 hInv
        have hmid : TypeCountsInv (stAdd { s1 with _n_raster_picture_facet := some (get_facet_uriref s1._ns_base oo1 "RasterPictureFacet") } ⟨.uri (get_facet_uriref s1._ns_base oo1 "RasterPictureFacet"), NS_RDF "type", NS_UCO_OBSERVABLE "RasterPictureFacet"⟩) := by
          obtain ⟨h1, h2, h3, h4, h5⟩ := hs1
          refine ⟨?_, ?_, ?_, ?_, ?_⟩ <;> dsimp only [stAdd]
          · rw [countTypeTriples_graphAdd_of_not _ _ _ (isTypeTriple_mk_false_o _ _ _ _ (by decide))]
            exact h1
          · rw [countTypeTriples_graphAdd_of_not _ _ _ (isTypeTriple_mk_false_o _ _ _ _ (by decide))]
            exact h2
          · rw [countTypeTriples_graphAdd_of_not _ _ _ (isTypeTriple_mk_false_o _ _ _ _ (by decide))]
            exact h3
          · exact le_trans h4 (countTypeTriples_graphAdd_ge _ _ _)
          · rw [countTypeTriples_graphAdd_of_not _ _ _ (isTypeTriple_mk_false_o _ _ _ _ (by decide))]
            exact h5
        obtain ⟨h1, h2, h3, h4, h5⟩ := f12 hmid
        refine ⟨?_, ?_, ?_, ?_, ?_⟩ <;> dsimp only [stAdd]
        · rw [countTypeTriples_graphAdd_of_not _ _ _ (isTypeTriple_mk_false_p _ _ _ _ (by decide))]
          exact h1
        · rw [countTypeTriples_graphAdd_of_not _ _ _ (isTypeTriple_mk_false_p _ _ _ _ (by decide))]
          exact h2
        · rw [countTypeTriples_graphAdd_of_not _ _ _ (isTypeTriple_mk_false_p _ _ _ _ (by decide))]
          exact h3
        · exact le_trans h4 (countTypeTriples_graphAdd_ge _ _ _)
        · rw [countTypeTriples_graphAdd_of_not _ _ _ (isTypeTriple_mk_false_p _ _ _ _ (by decide))]
          exact h5

lemma n_unix_file_permissions_facet_facts (s : MState) (n : String) (s' : MState)
    (h : n_unix_file_permissions_facet s = .ok (n, s')) :
    s'._kv_dict_raw = s._kv_dict_raw ∧
    s'._kv_dict_printconv = s._kv_dict_printconv ∧
    s'._exif_dictionary_dict = s._exif_dictionary_dict ∧
    s'._n_relationship_object_location = s._n_relationship_object_location ∧
    s'._n_location_object_latlong_facet = s._n_location_object_latlong_facet ∧
    s'._n_location_object = s._n_location_object ∧
    s'._n_raster_picture_facet = s._n_raster_picture_facet ∧
    s'._n_camera_object = s._n_camera_object ∧
    (∀ t, t ∈ s.graph → t ∈ s'.graph) ∧
    (∀ k, hasEntryKey s'.graph k = hasEntryKey s.graph k) ∧
    (TypeCountsInv s → TypeCountsInv s') := by
  cases hf : s._n_unix_file_permissions_facet with
  | some m =>
    unfold n_unix_file_permissions_facet at h
    rw [hf] at h
    obtain ⟨hm, hs⟩ : m = n ∧ s = s' := by simpa using h
    subst hs
    exact ⟨rfl, rfl, rfl, rfl, rfl, rfl, rfl, rfl, fun t ht => ht, fun k => rfl, id⟩
  | none =>
    unfold n_unix_file_permissions_facet at h
    rw [hf] at h
    cases hdet : s._use_deterministic_uuids with
    | false =>
      rw [hdet] at h
      simp only [Bool.false_eq_true, if_false, ite_false, local_uuid, ok_bind] at h
      obtain ⟨⟨oo, s2⟩, hoo, hk⟩ := bind_ok_inv h
      simp only [Except.ok.injEq, Prod.mk.injEq] at hk
      obtain ⟨hn, hs⟩ := hk
      subst hs
      obtain ⟨f1, f2, f3, f4, f5, f6, f7, f8, f9, f10, f11, f12⟩ :=
        n_observable_object_facts _ _ _ hoo
      refine ⟨?_, ?_, ?_, ?_, ?_, ?_, ?_, ?_, ?_, ?_, ?_⟩ <;> dsimp only [stAdd]
      · exact f1
      · exact f2
      · exact f3
      · exact f4
      · exact f5
      · exact f6
      · exact f7
      · exact f8
      · intro t ht
        exact mem_graphAdd_of_mem _ _ _ (f10 t (mem_graphAdd_of_mem _ _ _ ht))
      · intro k
        rw [hasEntryKey_graphAdd, isKeyTriple_mk_false_p _ _ _ _ (by decide), Bool.or_false,
          f11]
        dsimp only [stAdd]
        rw [hasEntryKey_graphAdd, isKeyTriple_mk_false_p _ _ _ _ (by decide), Bool.or_false]
      · intro hInv
        have hmid : TypeCountsInv (stAdd { s with uuidCounter := s.uuidCounter + 1, _n_unix_file_permissions_facet := some (s._ns_base ++ "UNIXFilePermissionsFacet-" ++ toString s.uuidCounter) } ⟨.uri (s._ns_base ++ "UNIXFilePermissionsFacet-" ++ toString s.uuidCounter), NS_RDF "type", NS_UCO_OBSERVABLE "UNIXFilePermissionsFacet"⟩) := by
          obtain ⟨h1, h2, h3, h4, h5⟩ := hInv
          refine ⟨?_, ?_, ?_, ?_, ?_⟩ <;> dsimp only [stAdd]
          · rw [countTypeTriples_graphAdd_of_not _ _ _ (isTypeTriple_mk_false_o _ _ _ _ (by decide))]
            exact h1
          · rw [countTypeTriples_graphAdd_of_not _ _ _ (isTypeTriple_mk_false_o _ _ _ _ (by decide))]
            exact h2
          · rw [countTypeTriples_graphAdd_of_not _ _ _ (isTypeTriple_mk_false_o _ _ _ _ (by decide))]
            exact h3
          · exact le_trans h4 (countTypeTriples_graphAdd_ge _ _ _)
          · rw [countTypeTriples_graphAdd_of_not _ _ _ (isTypeTriple_mk_false_o _ _ _ _ (by decide))]
            exact h5
        obtain ⟨h1, h2, h3, h4, h5⟩ := f12 hmid
        refine ⟨?_, ?_, ?_, ?_, ?_⟩ <;> dsimp only [stAdd]
        · rw [countTypeTriples_graphAdd_of_not _ _ _ (isTypeTriple_mk_false_p _ _ _ _ (by decide))]
          exact h1
        · rw [countTypeTriples_graphAdd_of_not _ _ _ (isTypeTriple_mk_false_p _ _ _ _ (by decide))]
          exact h2
        · rw [countTypeTriples_graphAdd_of_not _ _ _ (isTypeTriple_mk_false_p _ _ _ _ (by decide))]
          exact h3
        · exact le_trans h4 (countTypeTriples_graphAdd_ge _ _ _)
        · rw [countTypeTriples_graphAdd_of_not _ _ _ (isTypeTriple_mk_false_p _ _ _ _ (by decide))]
          exact h5
    | true =>
      rw [hdet] at h
      simp only [if_true, ite_true] at h
      obtain ⟨⟨oo1, s1⟩, hoo1, hk⟩ := bind_ok_inv h
      simp only [ok_bind] at hk
      obtain ⟨⟨oo2, s2⟩, hoo2, hk2⟩ := bind_ok_inv hk
      simp only [Except.ok.injEq, Prod.mk.injEq] at hk2
      obtain ⟨hn, hs⟩ := hk2
      subst hs
      obtain ⟨g1, g2, g3, g4, g5, g6, g7, g8, g9, g10, g11, g12⟩ :=
        n_observable_object_facts _ _ _ hoo1
      obtain ⟨f1, f2, f3, f4, f5, f6, f7, f8, f9, f10, f11, f12⟩ :=
        n_observable_object_facts _ _ _ hoo2
      refine ⟨?_, ?_, ?_, ?_, ?_, ?_, ?_, ?_, ?_, ?_, ?_⟩ <;> dsimp only [stAdd]
      · exact f1.trans g1
      · exact f2.trans g2
      · exact f3.trans g3
      · exact f4.trans g4
      · exact f5.trans g5
      · exact f6.trans g6
      · exact f7.trans g7
      · exact f8.trans g8
      · intro t ht
        exact mem_graphAdd_of_mem _ _ _ (f10 t (mem_graphAdd_of_mem _ _ _ (g10 t ht)))
      · intro k
        rw [hasEntryKey_graphAdd, isKeyTriple_mk_false_p _ _ _ _ (by decide), Bool.or_false,
          f11]
        dsimp only [stAdd]
        rw [hasEntryKey_graphAdd, isKeyTriple_mk_false_p _ _ _ _ (by decide), Bool.or_false]
        exact g11 k
      · intro hInv
        have hs1 := g12 hInv
        have hmid : TypeCountsInv (stAdd { s1 with _n_unix_file_permissions_facet := some (get_facet_uriref s1._ns_base oo1 "UNIXFilePermissionsFacet") } ⟨.uri (get_facet_uriref s1._ns_base oo1 "UNIXFilePermissionsFacet"), NS_RDF "type", NS_UCO_OBSERVABLE "UNIXFilePermissionsFacet"⟩) := by
          obtain ⟨h1, h2, h3, h4, h5⟩ := hs1
          refine ⟨?_, ?_, ?_, ?_, ?_⟩ <;> dsimp only [stAdd]
          · rw [countTypeTriples_graphAdd_of_not _ _ _ (isTypeTriple_mk_false_o _ _ _ _ (by decide))]
            exact h1
          · rw [countTypeTriples_graphAdd_of_not _ _ _ (isTypeTriple_mk_false_o _ _ _ _ (by decide))]
            exact h2
          · rw [countTypeTriples_graphAdd_of_not _ _ _ (isTypeTriple_mk_false_o _ _ _ _ (by decide))]
            exact h3
          · exact le_trans h4 (countTypeTriples_graphAdd_ge _ _ _)
          · rw [countTypeTriples_graphAdd_of_not _ _ _ (isTypeTriple_mk_false_o _ _ _ _ (by decide))]
            exact h5
        obtain ⟨h1, h2, h3, h4, h5⟩ := f12 hmid
        refine ⟨?_, ?_, ?_, ?_, ?_⟩ <;> dsimp only [stAdd]
        · rw [countTypeTriples_graphAdd_of_not _ _ _ (isTypeTriple_mk_false_p _ _ _ _ (by decide))]
          exact h1
        · rw [countTypeTriples_graphAdd_of_not _ _ _ (isTypeTriple_mk_false_p _ _ _ _ (by decide))]
          exact h2
        · rw [countTypeTriples_graphAdd_of_not _ _ _ (isTypeTriple_mk_false_p _ _ _ _ (by decide))]
          exact h3
        · exact le_trans h4 (countTypeTriples_graphAdd_ge _ _ _)
        · rw [countTypeTriples_graphAdd_of_not _ _ _ (isTypeTriple_mk_false_p _ _ _ _ (by decide))]
          exact h5

lemma isTypeTriple_false_of_p_ne (c : Node) (t : Triple) (hp : t.p ≠ NS_RDF "type") :
    isTypeTriple c t = false := by
  unfold isTypeTriple
  rw [beq_eq_false_iff_ne.2 hp, Bool.false_and]

lemma isKeyTriple_false_of_p_ne (k : String) (t : Triple) (hp : t.p ≠ NS_UCO_TYPES "key") :
    isKeyTriple k t = false := by
  unfold isKeyTriple
  rw [beq_eq_false_iff_ne.2 hp, Bool.false_and]

lemma hasEntryKey_graphAdd_nonkey (g : List Triple) (t : Triple) (k : String)
    (hp : t.p ≠ NS_UCO_TYPES "key") :
    hasEntryKey (graphAdd g t) k = hasEntryKey g k := by
  rw [hasEntryKey_graphAdd, isKeyTriple_false_of_p_ne _ _ hp, Bool.or_false]

lemma hasEntryKey_graphAdd_mk (g : List Triple) (a p o : Node) (k : String)
    (hp : p ≠ NS_UCO_TYPES "key") :
    hasEntryKey (graphAdd g ⟨a, p, o⟩) k = hasEntryKey g k :=
  hasEntryKey_graphAdd_nonkey g ⟨a, p, o⟩ k hp

lemma TypeCountsInv_stAdd_nontype (s : MState) (t : Triple) (hp : t.p ≠ NS_RDF "type")
    (hInv : TypeCountsInv s) : TypeCountsInv (stAdd s t) := by
  obtain ⟨h1, h2, h3, h4, h5⟩ := hInv
  refine ⟨?_, ?_, ?_, ?_, ?_⟩ <;> dsimp only [stAdd]
  · rw [countTypeTriples_graphAdd_of_not _ _ _ (isTypeTriple_false_of_p_ne _ _ hp)]
    exact h1
  · rw [countTypeTriples_graphAdd_of_not _ _ _ (isTypeTriple_false_of_p_ne _ _ hp)]
    exact h2
  · rw [countTypeTriples_graphAdd_of_not _ _ _ (isTypeTriple_false_of_p_ne _ _ hp)]
    exact h3
  · exact le_trans h4 (countTypeTriples_graphAdd_ge _ _ _)
  · rw [countTypeTriples_graphAdd_of_not _ _ _ (isTypeTriple_false_of_p_ne _ _ hp)]
    exact h5

lemma TypeCountsInv_stAdd_untracked (s : MState) (t : Triple)
    (hLoc : isTypeTriple (NS_UCO_LOCATION "Location") t = false)
    (hLL : isTypeTriple (NS_UCO_LOCATION "LatLongCoordinatesFacet") t = false)
    (hRel : isTypeTriple (NS_UCO_CORE "Relationship") t = false)
    (hObs : isTypeTriple (NS_UCO_OBSERVABLE "ObservableObject") t = false)
    (hInv : TypeCountsInv s) : TypeCountsInv (stAdd s t) := by
  obtain ⟨h1, h2, h3, h4, h5⟩ := hInv
  refine ⟨?_, ?_, ?_, ?_, ?_⟩ <;> dsimp only [stAdd]
  · rw [countTypeTriples_graphAdd_of_not _ _ _ hLoc]
    exact h1
  · rw [countTypeTriples_graphAdd_of_not _ _ _ hLL]
    exact h2
  · rw [countTypeTriples_graphAdd_of_not _ _ _ hRel]
    exact h3
  · exact le_trans h4 (countTypeTriples_graphAdd_ge _ _ _)
  · rw [countTypeTriples_graphAdd_of_not _ _ _ hObs]
    exact h5

lemma TypeCountsInv_stAdd_nontype_mk (s : MState) (a p o : Node)
    (hp : p ≠ NS_RDF "type") (hInv : TypeCountsInv s) :
    TypeCountsInv (stAdd s ⟨a, p, o⟩) :=
  TypeCountsInv_stAdd_nontype s ⟨a, p, o⟩ hp hInv

lemma TypeCountsInv_stAdd_untracked_mk (s : MState) (a p o : Node)
    (hLoc : o ≠ NS_UCO_LOCATION "Location")
    (hLL : o ≠ NS_UCO_LOCATION "LatLongCoordinatesFacet")
    (hRel : o ≠ NS_UCO_CORE "Relationship")
    (hObs : o ≠ NS_UCO_OBSERVABLE "ObservableObject")
    (hInv : TypeCountsInv s) : TypeCountsInv (stAdd s ⟨a, p, o⟩) :=
  TypeCountsInv_stAdd_untracked s ⟨a, p, o⟩
    (isTypeTriple_mk_false_o _ _ _ _ hLoc) (isTypeTriple_mk_false_o _ _ _ _ hLL)
    (isTypeTriple_mk_false_o _ _ _ _ hRel) (isTypeTriple_mk_false_o _ _ _ _ hObs) hInv

lemma TypeCountsInv_create_LL (s : MState) (nm : String) (c : Nat)
    (hf : s._n_location_object_latlong_facet = none) (hInv : TypeCountsInv s) :
    TypeCountsInv (stAdd { s with uuidCounter := c, _n_location_object_latlong_facet := some nm } ⟨.uri nm, NS_RDF "type", NS_UCO_LOCATION "LatLongCoordinatesFacet"⟩) := by
  obtain ⟨h1, h2, h3, h4, h5⟩ := hInv
  rw [hf] at h2
  refine ⟨?_, ?_, ?_, ?_, ?_⟩ <;> dsimp only [stAdd]
  · rw [countTypeTriples_graphAdd_of_not _ _ _ (isTypeTriple_mk_false_o _ _ _ _ (by decide))]
    exact h1
  · exact countTypeTriples_graphAdd_of_zero _ _ _ (isTypeTriple_mk_true _ _)
      (by simpa using h2)
  · rw [countTypeTriples_graphAdd_of_not _ _ _ (isTypeTriple_mk_false_o _ _ _ _ (by decide))]
    exact h3
  · exact le_trans h4 (countTypeTriples_graphAdd_ge _ _ _)
  · rw [countTypeTriples_graphAdd_of_not _ _ _ (isTypeTriple_mk_false_o _ _ _ _ (by decide))]
    exact h5

lemma loc_snd_kv_raw (s : MState) :
    (n_location_object s).2._kv_dict_raw = s._kv_dict_raw :=
  (n_location_object_facts s _ _ rfl).1

lemma loc_snd_kv_pc (s : MState) :
    (n_location_object s).2._kv_dict_printconv = s._kv_dict_printconv :=
  (n_location_object_facts s _ _ rfl).2.1

lemma loc_snd_ed (s : MState) :
    (n_location_object s).2._exif_dictionary_dict = s._exif_dictionary_dict :=
  (n_location_object_facts s _ _ rfl).2.2.1

lemma loc_snd_rel (s : MState) :
    (n_location_object s).2._n_relationship_object_location
      = s._n_relationship_object_location :=
  (n_location_object_facts s _ _ rfl).2.2.2.1

lemma loc_snd_ll (s : MState) :
    (n_location_object s).2._n_location_object_latlong_facet
      = s._n_location_object_latlong_facet :=
  (n_location_object_facts s _ _ rfl).2.2.2.2.1

lemma loc_snd_rpf (s : MState) :
    (n_location_object s).2._n_raster_picture_facet = s._n_raster_picture_facet :=
  (n_location_object_facts s _ _ rfl).2.2.2.2.2.1

lemma loc_snd_oo (s : MState) :
    (n_location_object s).2._n_observable_object = s._n_observable_object :=
  (n_location_object_facts s _ _ rfl).2.2.2.2.2.2.1

lemma loc_snd_cam (s : MState) :
    (n_location_object s).2._n_camera_object = s._n_camera_object :=
  (n_location_object_facts s _ _ rfl).2.2.2.2.2.2.2.1

lemma loc_snd_own (s : MState) :
    (n_location_object s).2._n_location_object = some (n_location_object s).1 :=
  (n_location_object_facts s _ _ rfl).2.2.2.2.2.2.2.2.1

lemma loc_mem (s : MState) (t : Triple) (ht : t ∈ s.graph) :
    t ∈ (n_location_object s).2.graph :=
  (n_location_object_facts s _ _ rfl).2.2.2.2.2.2.2.2.2.1 t ht

lemma loc_entry (s : MState) (k : String) :
    hasEntryKey (n_location_object s).2.graph k = hasEntryKey s.graph k :=
  (n_location_object_facts s _ _ rfl).2.2.2.2.2.2.2.2.2.2.1 k

lemma loc_inv (s : MState) (h : TypeCountsInv s) : TypeCountsInv (n_location_object s).2 :=
  (n_location_object_facts s _ _ rfl).2.2.2.2.2.2.2.2.2.2.2 h

lemma cam_snd_kv_raw (s : MState) :
    (n_camera_object s).2._kv_dict_raw = s._kv_dict_raw :=
  (n_camera_object_facts s _ _ rfl).1

lemma cam_snd_kv_pc (s : MState) :
    (n_camera_object s).2._kv_dict_printconv = s._kv_dict_printconv :=
  (n_camera_object_facts s _ _ rfl).2.1

lemma cam_snd_ed (s : MState) :
    (n_camera_object s).2._exif_dictionary_dict = s._exif_dictionary_dict :=
  (n_camera_object_facts s _ _ rfl).2.2.1

lemma cam_snd_rel (s : MState) :
    (n_camera_object s).2._n_relationship_object_location
      = s._n_relationship_object_location :=
  (n_camera_object_facts s _ _ rfl).2.2.2.1

lemma cam_snd_ll (s : MState) :
    (n_camera_object s).2._n_location_object_latlong_facet
      = s._n_location_object_latlong_facet :=
  (n_camera_object_facts s _ _ rfl).2.2.2.2.1

lemma cam_snd_loc (s : MState) :
    (n_camera_object s).2._n_location_object = s._n_location_object :=
  (n_camera_object_facts s _ _ rfl).2.2.2.2.2.1

lemma cam_snd_rpf (s : MState) :
    (n_camera_object s).2._n_raster_picture_facet = s._n_raster_picture_facet :=
  (n_camera_object_facts s _ _ rfl).2.2.2.2.2.2.1

lemma cam_snd_oo (s : MState) :
    (n_camera_object s).2._n_observable_object = s._n_observable_object :=
  (n_camera_object_facts s _ _ rfl).2.2.2.2.2.2.2.1

lemma cam_mem (s : MState) (t : Triple) (ht : t ∈ s.graph) :
    t ∈ (n_camera_object s).2.graph :=
  (n_camera_object_facts s _ _ rfl).2.2.2.2.2.2.2.2.2.1 t ht

lemma cam_entry (s : MState) (k : String) :
    hasEntryKey (n_camera_object s).2.graph k = hasEntryKey s.graph k :=
  (n_camera_object_facts s _ _ rfl).2.2.2.2.2.2.2.2.2.2.1 k

lemma cam_inv (s : MState) (h : TypeCountsInv s) : TypeCountsInv (n_camera_object s).2 :=
  (n_camera_object_facts s _ _ rfl).2.2.2.2.2.2.2.2.2.2.2 h

lemma loc_snd_edobj (s : MState) :
    (n_location_object s).2._n_exif_dictionary_object = s._n_exif_dictionary_object := by
  unfold n_location_object
  cases hf : s._n_location_object with
  | some m => rfl
  | none => simp [local_uuid, stAdd]

lemma cam_snd_edobj (s : MState) :
    (n_camera_object s).2._n_exif_dictionary_object = s._n_exif_dictionary_object := by
  unfold n_camera_object
  cases hf : s._n_camera_object with
  | some m => rfl
  | none => simp [local_uuid, stAdd]

lemma ll_snd_kv_raw (s : MState) :
    (n_location_object_latlong_facet s).2._kv_dict_raw = s._kv_dict_raw := by
  unfold n_location_object_latlong_facet
  cases hf : s._n_location_object_latlong_facet with
  | some m => rfl
  | none =>
    cases hdet : s._use_deterministic_uuids <;>
      simp [local_uuid, stAdd, loc_snd_kv_raw]

lemma ll_snd_kv_pc (s : MState) :
    (n_location_object_latlong_facet s).2._kv_dict_printconv = s._kv_dict_printconv := by
  unfold n_location_object_latlong_facet
  cases hf : s._n_location_object_latlong_facet with
  | some m => rfl
  | none =>
    cases hdet : s._use_deterministic_uuids <;>
      simp [local_uuid, stAdd, loc_snd_kv_pc]

lemma ll_snd_ed (s : MState) :
    (n_location_object_latlong_facet s).2._exif_dictionary_dict
      = s._exif_dictionary_dict := by
  unfold n_location_object_latlong_facet
  cases hf : s._n_location_object_latlong_facet with
  | some m => rfl
  | none =>
    cases hdet : s._use_deterministic_uuids <;>
      simp [local_uuid, stAdd, loc_snd_ed]

lemma ll_snd_rel (s : MState) :
    (n_location_object_latlong_facet s).2._n_relationship_object_location
      = s._n_relationship_object_location := by
  unfold n_location_object_latlong_facet
  cases hf : s._n_location_object_latlong_facet with
  | some m => rfl
  | none =>
    cases hdet : s._use_deterministic_uuids <;>
      simp [local_uuid, stAdd, loc_snd_rel]

lemma ll_snd_rpf (s : MState) :
    (n_location_object_latlong_facet s).2._n_raster_picture_facet
      = s._n_raster_picture_facet := by
  unfold n_location_object_latlong_facet
  cases hf : s._n_location_object_latlong_facet with
  | some m => rfl
  | none =>
    cases hdet : s._use_deterministic_uuids <;>
      simp [local_uuid, stAdd, loc_snd_rpf]

lemma ll_snd_oo (s : MState) :
    (n_location_object_latlong_facet s).2._n_observable_object
      = s._n_observable_object := by
  unfold n_location_object_latlong_facet
  cases hf : s._n_location_object_latlong_facet with
  | some m => rfl
  | none =>
    cases hdet : s._use_deterministic_uuids <;>
      simp [local_uuid, stAdd, loc_snd_oo]

lemma ll_snd_cam (s : MState) :
    (n_location_object_latlong_facet s).2._n_camera_object = s._n_camera_object := by
  unfold n_location_object_latlong_facet
  cases hf : s._n_location_object_latlong_facet with
  | some m => rfl
  | none =>
    cases hdet : s._use_deterministic_uuids <;>
      simp [local_uuid, stAdd, loc_snd_cam]

lemma ll_snd_own (s : MState) :
    (n_location_object_latlong_facet s).2._n_location_object_latlong_facet
      = some (n_location_object_latlong_facet s).1 := by
  unfold n_location_object_latlong_facet
  cases hf : s._n_location_object_latlong_facet with
  | some m => exact hf
  | none =>
    cases hdet : s._use_deterministic_uuids <;>
      simp [local_uuid, stAdd, loc_snd_ll]

lemma ll_snd_loc_isSome (s : MState) :
    (n_location_object_latlong_facet s).2._n_location_object.isSome
      = (s._n_location_object.isSome
          || !s._n_location_object_latlong_facet.isSome) := by
  unfold n_location_object_latlong_facet
  cases hf : s._n_location_object_latlong_facet with
  | some m => simp
  | none =>
    cases hdet : s._use_deterministic_uuids <;>
      simp [local_uuid, stAdd, loc_snd_own]

lemma ll_mem (s : MState) (t : Triple) (ht : t ∈ s.graph) :
    t ∈ (n_location_object_latlong_facet s).2.graph := by
  unfold n_location_object_latlong_facet
  cases hf : s._n_location_object_latlong_facet with
  | some m => exact ht
  | none =>
    cases hdet : s._use_deterministic_uuids
    · exact mem_graphAdd_of_mem _ _ _
        (loc_mem _ _ (mem_graphAdd_of_mem _ _ _ ht))
    · exact mem_graphAdd_of_mem _ _ _
        (loc_mem _ _ (mem_graphAdd_of_mem _ _ _ (loc_mem _ _ ht)))

lemma ll_entry (s : MState) (k : String) :
    hasEntryKey (n_location_object_latlong_facet s).2.graph k
      = hasEntryKey s.graph k := by
  unfold n_location_object_latlong_facet
  cases hf : s._n_location_object_latlong_facet with
  | some m => rfl
  | none =>
    cases hdet : s._use_deterministic_uuids
    · exact (hasEntryKey_graphAdd_mk _ _ _ _ _ (by decide)).trans
        ((loc_entry _ k).trans (hasEntryKey_graphAdd_mk _ _ _ _ _ (by decide)))
    · exact (hasEntryKey_graphAdd_mk _ _ _ _ _ (by decide)).trans
        ((loc_entry _ k).trans ((hasEntryKey_graphAdd_mk _ _ _ _ _ (by decide)).trans
          (loc_entry _ k)))

lemma ll_inv (s : MState) (h : TypeCountsInv s) :
    TypeCountsInv (n_location_object_latlong_facet s).2 := by
  unfold n_location_object_latlong_facet
  cases hf : s._n_location_object_latlong_facet with
  | some m => exact h
  | none =>
    cases hdet : s._use_deterministic_uuids
    · exact TypeCountsInv_stAdd_nontype_mk _ _ _ _ (by decide)
        (loc_inv _ (TypeCountsInv_create_LL s _ _ hf h))
    · exact TypeCountsInv_stAdd_nontype_mk _ _ _ _ (by decide)
        (loc_inv _ (TypeCountsInv_create_LL _ _ _ ((loc_snd_ll s).trans hf)
          (loc_inv s h)))

lemma cdf_snd_kv_raw (s : MState) :
    (n_camera_object_device_facet s).2._kv_dict_raw = s._kv_dict_raw := by
  unfold n_camera_object_device_facet
  cases hf : s._n_camera_object_device_facet with
  | some m => rfl
  | none =>
    cases hdet : s._use_deterministic_uuids <;>
      simp [local_uuid, stAdd, cam_snd_kv_raw]

lemma cdf_snd_kv_pc (s : MState) :
    (n_camera_object_device_facet s).2._kv_dict_printconv = s._kv_dict_printconv := by
  unfold n_camera_object_device_facet
  cases hf : s._n_camera_object_device_facet with
  | some m => rfl
  | none =>
    cases hdet : s._use_deterministic_uuids <;>
      simp [local_uuid, stAdd, cam_snd_kv_pc]

lemma cdf_snd_ed (s : MState) :
    (n_camera_object_device_facet s).2._exif_dictionary_dict
      = s._exif_dictionary_dict := by
  unfold n_camera_object_device_facet
  cases hf : s._n_camera_object_device_facet with
  | some m => rfl
  | none =>
    cases hdet : s._use_deterministic_uuids <;>
      simp [local_uuid, stAdd, cam_snd_ed]

lemma cdf_snd_rel (s : MState) :
    (n_camera_object_device_facet s).2._n_relationship_object_location
      = s._n_relationship_object_location := by
  unfold n_camera_object_device_facet
  cases hf : s._n_camera_object_device_facet with
  | some m => rfl
  | none =>
    cases hdet : s._use_deterministic_uuids <;>
      simp [local_uuid, stAdd, cam_snd_rel]

lemma cdf_snd_ll (s : MState) :
    (n_camera_object_device_facet s).2._n_location_object_latlong_facet
      = s._n_location_object_latlong_facet := by
  unfold n_camera_object_device_facet
  cases hf : s._n_camera_object_device_facet with
  | some m => rfl
  | none =>
    cases hdet : s._use_deterministic_uuids <;>
      simp [local_uuid, stAdd, cam_snd_ll]

lemma cdf_snd_loc (s : MState) :
    (n_camera_object_device_facet s).2._n_location_object = s._n_location_object := by
  unfold n_camera_object_device_facet
  cases hf : s._n_camera_object_device_facet with
  | some m => rfl
  | none =>
    cases hdet : s._use_deterministic_uuids <;>
      simp [local_uuid, stAdd, cam_snd_loc]

lemma cdf_snd_rpf (s : MState) :
    (n_camera_object_device_facet s).2._n_raster_picture_facet
      = s._n_raster_picture_facet := by
  unfold n_camera_object_device_facet
  cases hf : s._n_camera_object_device_facet with
  | some m => rfl
  | none =>
    cases hdet : s._use_deterministic_uuids <;>
      simp [local_uuid, stAdd, cam_snd_rpf]

lemma cdf_snd_oo (s : MState) :
    (n_camera_object_device_facet s).2._n_observable_object
      = s._n_observable_object := by
  unfold n_camera_object_device_facet
  cases hf : s._n_camera_object_device_facet with
  | some m => rfl
  | none =>
    cases hdet : s._use_deterministic_uuids <;>
      simp [local_uuid, stAdd, cam_snd_oo]

lemma ll_snd_edobj (s : MState) :
    (n_location_object_latlong_facet s).2._n_exif_dictionary_object
      = s._n_exif_dictionary_object := by
  unfold n_location_object_latlong_facet
  cases hf : s._n_location_object_latlong_facet with
  | some m => rfl
  | none =>
    cases hdet : s._use_deterministic_uuids <;>
      simp [local_uuid, stAdd, loc_snd_edobj]

lemma cdf_snd_edobj (s : MState) :
    (n_camera_object_device_facet s).2._n_exif_dictionary_object
      = s._n_exif_dictionary_object := by
  unfold n_camera_object_device_facet
  cases hf : s._n_camera_object_device_facet with
  | some m => rfl
  | none =>
    cases hdet : s._use_deterministic_uuids <;>
      simp [local_uuid, stAdd, cam_snd_edobj]

lemma cam_snd_cdf (s : MState) :
    (n_camera_object s).2._n_camera_object_device_facet
      = s._n_camera_object_device_facet := by
  unfold n_camera_object
  cases hf : s._n_camera_object with
  | some m => rfl
  | none => simp [local_uuid, stAdd]

lemma cdf_snd_own (s : MState) :
    (n_camera_object_device_facet s).2._n_camera_object_device_facet
      = some (n_camera_object_device_facet s).1 := by
  unfold n_camera_object_device_facet
  cases hf : s._n_camera_object_device_facet with
  | some m => exact hf
  | none =>
    cases hdet : s._use_deterministic_uuids <;>
      simp [local_uuid, stAdd, cam_snd_cdf]

lemma cdf_mem (s : MState) (t : Triple) (ht : t ∈ s.graph) :
    t ∈ (n_camera_object_device_facet s).2.graph := by
  unfold n_camera_object_device_facet
  cases hf : s._n_camera_object_device_facet with
  | some m => exact ht
  | none =>
    cases hdet : s._use_deterministic_uuids
    · exact mem_graphAdd_of_mem _ _ _
        (cam_mem _ _ (mem_graphAdd_of_mem _ _ _ ht))
    · exact mem_graphAdd_of_mem _ _ _
        (cam_mem _ _ (mem_graphAdd_of_mem _ _ _ (cam_mem _ _ ht)))

lemma cdf_entry (s : MState) (k : String) :
    hasEntryKey (n_camera_object_device_facet s).2.graph k
      = hasEntryKey s.graph k := by
  unfold n_camera_object_device_facet
  cases hf : s._n_camera_object_device_facet with
  | some m => rfl
  | none =>
    cases hdet : s._use_deterministic_uuids
    · exact (hasEntryKey_graphAdd_mk _ _ _ _ _ (by decide)).trans
        ((cam_entry _ k).trans (hasEntryKey_graphAdd_mk _ _ _ _ _ (by decide)))
    · exact (hasEntryKey_graphAdd_mk _ _ _ _ _ (by decide)).trans
        ((cam_entry _ k).trans ((hasEntryKey_graphAdd_mk _ _ _ _ _ (by decide)).trans
          (cam_entry _ k)))

lemma cdf_inv (s : MState) (h : TypeCountsInv s) :
    TypeCountsInv (n_camera_object_device_facet s).2 := by
  unfold n_camera_object_device_facet
  cases hf : s._n_camera_object_device_facet with
  | some m => exact h
  | none =>
    cases hdet : s._use_deterministic_uuids
    · exact TypeCountsInv_stAdd_nontype_mk _ _ _ _ (by decide)
        (cam_inv _ (TypeCountsInv_stAdd_untracked_mk _ _ _ _
          (by decide) (by decide) (by decide) (by decide) h))
    · exact TypeCountsInv_stAdd_nontype_mk _ _ _ _ (by decide)
        (cam_inv _ (TypeCountsInv_stAdd_untracked_mk _ _ _ _
          (by decide) (by decide) (by decide) (by decide) (cam_inv s h)))

lemma dictKeys_nil : dictKeys ([] : List (String × Node)) = [] := rfl

lemma dictKeys_cons (p : String × Node) (d : List (String × Node)) :
    dictKeys (p :: d) = p.1 :: dictKeys d := rfl

lemma mem_keys_dictInsert (d : List (String × Node)) (k : String) (v : Node)
    (k' : String) :
    k' ∈ dictKeys (dictInsert d k v) ↔ k' = k ∨ k' ∈ dictKeys d := by
  induction d with
  | nil => simp [dictInsert, dictKeys]
  | cons hd tl ih =>
    obtain ⟨a, b⟩ := hd
    by_cases hak : a = k
    · subst hak
      simp [dictInsert, dictKeys_cons]
    · simp [dictInsert, hak, dictKeys_cons, ih]
      tauto

lemma lookup_mem_keys (d : List (String × Node)) (k : String) (v : Node)
    (h : dictLookup d k = some v) : k ∈ dictKeys d := by
  induction d with
  | nil => simp [dictLookup] at h
  | cons hd tl ih =>
    obtain ⟨a, b⟩ := hd
    by_cases hak : a = k
    · subst hak
      simp [dictKeys_cons]
    · simp only [dictLookup, if_neg hak] at h
      simp only [dictKeys_cons, List.mem_cons]
      exact Or.inr (ih h)

lemma lookup_eq_none_of_not_mem (d : List (String × Node)) (k : String)
    (h : k ∉ dictKeys d) : dictLookup d k = none := by
  induction d with
  | nil => rfl
  | cons hd tl ih =>
    obtain ⟨a, b⟩ := hd
    simp only [dictKeys_cons, List.mem_cons, not_or] at h
    have hak : ¬ a = k := fun hc => h.1 hc.symm
    simp only [dictLookup, if_neg hak]
    exact ih h.2

lemma hasLitAt_mem_keys (d : List (String × Node)) (k : String)
    (h : hasLitAt d k = true) : k ∈ dictKeys d := by
  unfold hasLitAt at h
  cases hv : dictLookup d k with
  | none => rw [hv] at h; exact absurd h (by simp)
  | some v =>
    cases v with
    | uri u => rw [hv] at h; exact absurd h (by simp)
    | lit lex dt => exact lookup_mem_keys _ _ _ hv

lemma exif_dict_set_eq (s : MState) (k : String) (v : Node) :
    exif_dict_set s k v = { s with _exif_dictionary_dict := some (dictInsert (s._exif_dictionary_dict.getD []) k v) } := by
  unfold exif_dict_set exif_dictionary_dict
  cases hf : s._exif_dictionary_dict <;> rfl

lemma edHasKey_congr {s s' : MState}
    (h : s'._exif_dictionary_dict = s._exif_dictionary_dict) (k : String) :
    edHasKey s' k = edHasKey s k := by
  unfold edHasKey
  rw [h]

lemma edHasKey_exif_dict_set (s : MState) (k : String) (v : Node) (k' : String) :
    edHasKey (exif_dict_set s k v) k' = (decide (k' = k) || edHasKey s k') := by
  rw [exif_dict_set_eq]
  unfold edHasKey
  cases hf : s._exif_dictionary_dict <;>
    simp [mem_keys_dictInsert, dictKeys_nil]

lemma edLookup_congr {s s' : MState}
    (h : s'._exif_dictionary_dict = s._exif_dictionary_dict) (k : String) :
    edLookup s' k = edLookup s k := by
  unfold edLookup
  rw [h]

lemma dictLookup_dictInsert_self (d : List (String × Node)) (k : String) (v : Node) :
    dictLookup (dictInsert d k v) k = some v := by
  induction d with
  | nil => simp [dictInsert, dictLookup]
  | cons a rest ih =>
    obtain ⟨k1, v1⟩ := a
    by_cases h : k1 = k
    · simp [dictInsert, h, dictLookup]
    · simp [dictInsert, h, dictLookup, ih]

lemma dictLookup_dictInsert_ne (d : List (String × Node)) (k : String) (v : Node)
    (k' : String) (h : k' ≠ k) :
    dictLookup (dictInsert d k v) k' = dictLookup d k' := by
  induction d with
  | nil => simp [dictInsert, dictLookup, Ne.symm h]
  | cons a rest ih =>
    obtain ⟨k1, v1⟩ := a
    by_cases hk : k1 = k
    · subst hk
      simp [dictInsert, dictLookup, Ne.symm h]
    · simp [dictInsert, hk, dictLookup, ih]

lemma edLookup_exif_dict_set (s : MState) (k : String) (v : Node) (k' : String) :
    edLookup (exif_dict_set s k v) k'
      = if k' = k then some v else edLookup s k' := by
  rw [exif_dict_set_eq]
  unfold edLookup
  by_cases h : k' = k
  · subst h
    cases hf : s._exif_dictionary_dict <;>
      simp [dictLookup_dictInsert_self]
  · cases hf : s._exif_dictionary_dict <;>
      simp [h, Ne.symm h, dictLookup_dictInsert_ne _ _ _ _ h, dictLookup]

lemma calm_refl (s : MState) : CalmFacts s s :=
  ⟨rfl, rfl, rfl, rfl, rfl, rfl, rfl, rfl, fun _ => rfl, fun _ ht => ht, id⟩

lemma calm_comp {s t u : MState} (h1 : CalmFacts s t) (h2 : CalmFacts t u) :
    CalmFacts s u :=
  ⟨h2.c_raw.trans h1.c_raw, h2.c_pc.trans h1.c_pc, h2.c_ll.trans h1.c_ll,
   h2.c_loc.trans h1.c_loc, h2.c_rel.trans h1.c_rel, h2.c_rpf.trans h1.c_rpf,
   h2.c_ed.trans h1.c_ed, h2.c_edobj.trans h1.c_edobj,
   fun k => (h2.c_entry k).trans (h1.c_entry k),
   fun t' ht => h2.c_mono _ (h1.c_mono _ ht), fun hi => h2.c_tinv (h1.c_tinv hi)⟩

lemma pop_quiet (s : MState) (iri : String) :
    QuietFacts s (pop_n_exiftool_predicate s iri).2 iri :=
  ⟨rfl, rfl, rfl, rfl, rfl, rfl, rfl, rfl, fun _ => rfl, fun _ ht => ht, id⟩

lemma quiet_calm {s t u : MState} {iri : String} (hq : QuietFacts s t iri)
    (hc : CalmFacts t u) : QuietFacts s u iri :=
  ⟨hc.c_raw.trans hq.q_raw, hc.c_pc.trans hq.q_pc, hc.c_ll.trans hq.q_ll,
   hc.c_loc.trans hq.q_loc, hc.c_rel.trans hq.q_rel, hc.c_rpf.trans hq.q_rpf,
   hc.c_ed.trans hq.q_ed,
   hc.c_edobj.trans hq.q_edobj,
   fun k => (hc.c_entry k).trans (hq.q_entry k),
   fun t' ht => hc.c_mono _ (hq.q_mono _ ht),
   fun hi => hc.c_tinv (hq.q_tinv hi)⟩

lemma calm_stAdd_mk (s : MState) (a p o : Node) (hk : p ≠ NS_UCO_TYPES "key")
    (ht : p ≠ NS_RDF "type") : CalmFacts s (stAdd s ⟨a, p, o⟩) :=
  ⟨rfl, rfl, rfl, rfl, rfl, rfl, rfl, rfl,
   fun k => hasEntryKey_graphAdd_mk _ _ _ _ k hk,
   fun t' htm => mem_graphAdd_of_mem _ _ _ htm,
   fun hi => TypeCountsInv_stAdd_nontype_mk _ _ _ _ ht hi⟩

lemma calm_stAdd_type_untracked (s : MState) (a o : Node)
    (h1 : o ≠ NS_UCO_LOCATION "Location")
    (h2 : o ≠ NS_UCO_LOCATION "LatLongCoordinatesFacet")
    (h3 : o ≠ NS_UCO_CORE "Relationship")
    (h4 : o ≠ NS_UCO_OBSERVABLE "ObservableObject") :
    CalmFacts s (stAdd s ⟨a, NS_RDF "type", o⟩) :=
  ⟨rfl, rfl, rfl, rfl, rfl, rfl, rfl, rfl,
   fun k => hasEntryKey_graphAdd_mk _ _ _ _ k (by decide),
   fun t' htm => mem_graphAdd_of_mem _ _ _ htm,
   fun hi => TypeCountsInv_stAdd_untracked_mk _ _ _ _ h1 h2 h3 h4 hi⟩

lemma calm_bump (s : MState) (c : Nat) : CalmFacts s { s with uuidCounter := c } :=
  ⟨rfl, rfl, rfl, rfl, rfl, rfl, rfl, rfl, fun _ => rfl, fun _ ht => ht, id⟩

lemma calm_cdf (s : MState) : CalmFacts s (n_camera_object_device_facet s).2 :=
  ⟨cdf_snd_kv_raw s, cdf_snd_kv_pc s, cdf_snd_ll s, cdf_snd_loc s, cdf_snd_rel s,
   congrArg Option.isSome (cdf_snd_rpf s), cdf_snd_ed s, cdf_snd_edobj s, cdf_entry s,
   cdf_mem s, cdf_inv s⟩

lemma n_observable_object_edobj (s : MState) (n : String) (s' : MState)
    (h : n_observable_object s = .ok (n, s')) :
    s'._n_exif_dictionary_object = s._n_exif_dictionary_object := by
  cases hf : s._n_observable_object with
  | some m =>
    have he : n_observable_object s = .ok (m, s) := by
      unfold n_observable_object
      rw [hf]
    rw [he] at h
    obtain ⟨hm, hs⟩ : m = n ∧ s = s' := by simpa using h
    subst hs
    rfl
  | none =>
    cases hslug : s._oo_slug with
    | none =>
      unfold n_observable_object at h
      rw [hf, hslug] at h
      exact absurd h (by simp)
    | some slug =>
      unfold n_observable_object at h
      rw [hf, hslug] at h
      simp only [local_uuid, stAdd, Except.ok.injEq, Prod.mk.injEq] at h
      obtain ⟨hm, hs⟩ := h
      subst hs
      rfl

lemma n_content_data_facet_edobj (s : MState) (n : String) (s' : MState)
    (h : n_content_data_facet s = .ok (n, s')) :
    s'._n_exif_dictionary_object = s._n_exif_dictionary_object := by
  cases hf : s._n_content_data_facet with
  | some m =>
    unfold n_content_data_facet at h
    rw [hf] at h
    obtain ⟨hm, hs⟩ : m = n ∧ s = s' := by simpa using h
    subst hs
    rfl
  | none =>
    unfold n_content_data_facet at h
    rw [hf] at h
    cases hdet : s._use_deterministic_uuids with
    | false =>
      rw [hdet] at h
      simp only [Bool.false_eq_true, if_false, ite_false, local_uuid, ok_bind] at h
      obtain ⟨⟨oo, s2⟩, hoo, hk⟩ := bind_ok_inv h
      simp only [Except.ok.injEq, Prod.mk.injEq] at hk
      obtain ⟨hn, hs⟩ := hk
      subst hs
      have hh := n_observable_object_edobj _ _ _ hoo
      exact hh
    | true =>
      rw [hdet] at h
      simp only [if_true, ite_true] at h
      obtain ⟨⟨oo1, s1⟩, hoo1, hk⟩ := bind_ok_inv h
      simp only [ok_bind] at hk
      obtain ⟨⟨oo2, s2⟩, hoo2, hk2⟩ := bind_ok_inv hk
      simp only [Except.ok.injEq, Prod.mk.injEq] at hk2
      obtain ⟨hn, hs⟩ := hk2
      subst hs
      have hh1 := n_observable_object_edobj _ _ _ hoo1
      have hh2 := n_observable_object_edobj _ _ _ hoo2
      exact hh2.trans hh1

lemma n_exif_facet_edobj (s : MState) (n : String) (s' : MState)
    (h : n_exif_facet s = .ok (n, s')) :
    s'._n_exif_dictionary_object = s._n_exif_dictionary_object := by
  cases hf : s._n_exif_facet with
  | some m =>
    unfold n_exif_facet at h
    rw [hf] at h
    obtain ⟨hm, hs⟩ : m = n ∧ s = s' := by simpa using h
    subst hs
    rfl
  | none =>
    unfold n_exif_facet at h
    rw [hf] at h
    cases hdet : s._use_deterministic_uuids with
    | false =>
      rw [hdet] at h
      simp only [Bool.false_eq_true, if_false, ite_false, local_uuid, ok_bind] at h
      obtain ⟨⟨oo, s2⟩, hoo, hk⟩ := bind_ok_inv h
      simp only [Except.ok.injEq, Prod.mk.injEq] at hk
      obtain ⟨hn, hs⟩ := hk
      subst hs
      have hh := n_observable_object_edobj _ _ _ hoo
      exact hh
    | true =>
      rw [hdet] at h
      simp only [if_true, ite_true] at h
      obtain ⟨⟨oo1, s1⟩, hoo1, hk⟩ := bind_ok_inv h
      simp only [ok_bind] at hk
      obtain ⟨⟨oo2, s2⟩, hoo2, hk2⟩ := bind_ok_inv hk
      simp only [Except.ok.injEq, Prod.mk.injEq] at hk2
      obtain ⟨hn, hs⟩ := hk2
      subst hs
      have hh1 := n_observable_object_edobj _ _ _ hoo1
      have hh2 := n_observable_object_edobj _ _ _ hoo2
      exact hh2.trans hh1

lemma n_file_facet_edobj (s : MState) (n : String) (s' : MState)
    (h : n_file_facet s = .ok (n, s')) :
    s'._n_exif_dictionary_object = s._n_exif_dictionary_object := by
  cases hf : s._n_file_facet with
  | some m =>
    unfold n_file_facet at h
    rw [hf] at h
    obtain ⟨hm, hs⟩ : m = n ∧ s = s' := by simpa using h
    subst hs
    rfl
  | none =>
    unfold n_file_facet at h
    rw [hf] at h
    cases hdet : s._use_deterministic_uuids with
    | false =>
      rw [hdet] at h
      simp only [Bool.false_eq_true, if_false, ite_false, local_uuid, ok_bind] at h
      obtain ⟨⟨oo, s2⟩, hoo, hk⟩ := bind_ok_inv h
      simp only [Except.ok.injEq, Prod.mk.injEq] at hk
      obtain ⟨hn, hs⟩ := hk
      subst hs
      have hh := n_observable_object_edobj _ _ _ hoo
      exact hh
    | true =>
      rw [hdet] at h
      simp only [if_true, ite_true] at h
      obtain ⟨⟨oo1, s1⟩, hoo1, hk⟩ := bind_ok_inv h
      simp only [ok_bind] at hk
      obtain ⟨⟨oo2, s2⟩, hoo2, hk2⟩ := bind_ok_inv hk
      simp only [Except.ok.injEq, Prod.mk.injEq] at hk2
      obtain ⟨hn, hs⟩ := hk2
      subst hs
      have hh1 := n_observable_object_edobj _ _ _ hoo1
      have hh2 := n_observable_object_edobj _ _ _ hoo2
      exact hh2.trans hh1

lemma n_raster_picture_facet_edobj (s : MState) (n : String) (s' : MState)
    (h : n_raster_picture_facet s = .ok (n, s')) :
    s'._n_exif_dictionary_object = s._n_exif_dictionary_object := by
  cases hf : s._n_raster_picture_facet with
  | some m =>
    unfold n_raster_picture_facet at h
    rw [hf] at h
    obtain ⟨hm, hs⟩ : m = n ∧ s = s' := by simpa using h
    subst hs
    rfl
  | none =>
    unfold n_raster_picture_facet at h
    rw [hf] at h
    cases hdet : s._use_deterministic_uuids with
    | false =>
      rw [hdet] at h
      simp only [Bool.false_eq_true, if_false, ite_false, local_uuid, ok_bind] at h
      obtain ⟨⟨oo, s2⟩, hoo, hk⟩ := bind_ok_inv h
      simp only [Except.ok.injEq, Prod.mk.injEq] at hk
      obtain ⟨hn, hs⟩ := hk
      subst hs
      have hh := n_observable_object_edobj _ _ _ hoo
      exact hh
    | true =>
      rw [hdet] at h
      simp only [if_true, ite_true] at h
      obtain ⟨⟨oo1, s1⟩, hoo1, hk⟩ := bind_ok_inv h
      simp only [ok_bind] at hk
      obtain ⟨⟨oo2, s2⟩, hoo2, hk2⟩ := bind_ok_inv hk
      simp only [Except.ok.injEq, Prod.mk.injEq] at hk2
      obtain ⟨hn, hs⟩ := hk2
      subst hs
      have hh1 := n_observable_object_edobj _ _ _ hoo1
      have hh2 := n_observable_object_edobj _ _ _ hoo2
      exact hh2.trans hh1

lemma n_unix_file_permissions_facet_edobj (s : MState) (n : String) (s' : MState)
    (h : n_unix_file_permissions_facet s = .ok (n, s')) :
    s'._n_exif_dictionary_object = s._n_exif_dictionary_object := by
  cases hf : s._n_unix_file_permissions_facet with
  | some m =>
    unfold n_unix_file_permissions_facet at h
    rw [hf] at h
    obtain ⟨hm, hs⟩ : m = n ∧ s = s' := by simpa using h
    subst hs
    rfl
  | none =>
    unfold n_unix_file_permissions_facet at h
    rw [hf] at h
    cases hdet : s._use_deterministic_uuids with
    | false =>
      rw [hdet] at h
      simp only [Bool.false_eq_true, if_false, ite_false, local_uuid, ok_bind] at h
      obtain ⟨⟨oo, s2⟩, hoo, hk⟩ := bind_ok_inv h
      simp only [Except.ok.injEq, Prod.mk.injEq] at hk
      obtain ⟨hn, hs⟩ := hk
      subst hs
      have hh := n_observable_object_edobj _ _ _ hoo
      exact hh
    | true =>
      rw [hdet] at h
      simp only [if_true, ite_true] at h
      obtain ⟨⟨oo1, s1⟩, hoo1, hk⟩ := bind_ok_inv h
      simp only [ok_bind] at hk
      obtain ⟨⟨oo2, s2⟩, hoo2, hk2⟩ := bind_ok_inv hk
      simp only [Except.ok.injEq, Prod.mk.injEq] at hk2
      obtain ⟨hn, hs⟩ := hk2
      subst hs
      have hh1 := n_observable_object_edobj _ _ _ hoo1
      have hh2 := n_observable_object_edobj _ _ _ hoo2
      exact hh2.trans hh1

lemma n_observable_object_snd_cdataf (s : MState) (n : String) (s' : MState)
    (h : n_observable_object s = .ok (n, s')) :
    s'._n_content_data_facet = s._n_content_data_facet := by
  cases hf : s._n_observable_object with
  | some m =>
    have he : n_observable_object s = .ok (m, s) := by
      unfold n_observable_object
      rw [hf]
    rw [he] at h
    obtain ⟨hm, hs⟩ : m = n ∧ s = s' := by simpa using h
    subst hs
    rfl
  | none =>
    cases hslug : s._oo_slug with
    | none =>
      unfold n_observable_object at h
      rw [hf, hslug] at h
      exact absurd h (by simp)
    | some slug =>
      unfold n_observable_object at h
      rw [hf, hslug] at h
      simp only [local_uuid, stAdd, Except.ok.injEq, Prod.mk.injEq] at h
      obtain ⟨hm, hs⟩ := h
      subst hs
      rfl

lemma n_observable_object_snd_exiff (s : MState) (n : String) (s' : MState)
    (h : n_observable_object s = .ok (n, s')) :
    s'._n_exif_facet = s._n_exif_facet := by
  cases hf : s._n_observable_object with
  | some m =>
    have he : n_observable_object s = .ok (m, s) := by
      unfold n_observable_object
      rw [hf]
    rw [he] at h
    obtain ⟨hm, hs⟩ : m = n ∧ s = s' := by simpa using h
    subst hs
    rfl
  | none =>
    cases hslug : s._oo_slug with
    | none =>
      unfold n_observable_object at h
      rw [hf, hslug] at h
      exact absurd h (by simp)
    | some slug =>
      unfold n_observable_object at h
      rw [hf, hslug] at h
      simp only [local_uuid, stAdd, Except.ok.injEq, Prod.mk.injEq] at h
      obtain ⟨hm, hs⟩ := h
      subst hs
      rfl

lemma n_observable_object_snd_filef (s : MState) (n : String) (s' : MState)
    (h : n_observable_object s = .ok (n, s')) :
    s'._n_file_facet = s._n_file_facet := by
  cases hf : s._n_observable_object with
  | some m =>
    have he : n_observable_object s = .ok (m, s) := by
      unfold n_observable_object
      rw [hf]
    rw [he] at h
    obtain ⟨hm, hs⟩ : m = n ∧ s = s' := by simpa using h
    subst hs
    rfl
  | none =>
    cases hslug : s._oo_slug with
    | none =>
      unfold n_observable_object at h
      rw [hf, hslug] at h
      exact absurd h (by simp)
    | some slug =>
      unfold n_observable_object at h
      rw [hf, hslug] at h
      simp only [local_uuid, stAdd, Except.ok.injEq, Prod.mk.injEq] at h
      obtain ⟨hm, hs⟩ := h
      subst hs
      rfl

lemma n_observable_object_snd_rpff (s : MState) (n : String) (s' : MState)
    (h : n_observable_object s = .ok (n, s')) :
    s'._n_raster_picture_facet = s._n_raster_picture_facet := by
  cases hf : s._n_observable_object with
  | some m =>
    have he : n_observable_object s = .ok (m, s) := by
      unfold n_observable_object
      rw [hf]
    rw [he] at h
    obtain ⟨hm, hs⟩ : m = n ∧ s = s' := by simpa using h
    subst hs
    rfl
  | none =>
    cases hslug : s._oo_slug with
    | none =>
      unfold n_observable_object at h
      rw [hf, hslug] at h
      exact absurd h (by simp)
    | some slug =>
      unfold n_observable_object at h
      rw [hf, hslug] at h
      simp only [local_uuid, stAdd, Except.ok.injEq, Prod.mk.injEq] at h
      obtain ⟨hm, hs⟩ := h
      subst hs
      rfl

lemma n_observable_object_snd_unixf (s : MState) (n : String) (s' : MState)
    (h : n_observable_object s = .ok (n, s')) :
    s'._n_unix_file_permissions_facet = s._n_unix_file_permissions_facet := by
  cases hf : s._n_observable_object with
  | some m =>
    have he : n_observable_object s = .ok (m, s) := by
      unfold n_observable_object
      rw [hf]
    rw [he] at h
    obtain ⟨hm, hs⟩ : m = n ∧ s = s' := by simpa using h
    subst hs
    rfl
  | none =>
    cases hslug : s._oo_slug with
    | none =>
      unfold n_observable_object at h
      rw [hf, hslug] at h
      exact absurd h (by simp)
    | some slug =>
      unfold n_observable_object at h
      rw [hf, hslug] at h
      simp only [local_uuid, stAdd, Except.ok.injEq, Prod.mk.injEq] at h
      obtain ⟨hm, hs⟩ := h
      subst hs
      rfl

lemma n_content_data_facet_own (s : MState) (n : String) (s' : MState)
    (h : n_content_data_facet s = .ok (n, s')) : s'._n_content_data_facet = some n := by
  cases hf : s._n_content_data_facet with
  | some m =>
    unfold n_content_data_facet at h
    rw [hf] at h
    obtain ⟨hm, hs⟩ : m = n ∧ s = s' := by simpa using h
    subst hs
    rw [hf, hm]
  | none =>
    unfold n_content_data_facet at h
    rw [hf] at h
    cases hdet : s._use_deterministic_uuids with
    | false =>
      rw [hdet] at h
      simp only [Bool.false_eq_true, if_false, ite_false, local_uuid, ok_bind] at h
      obtain ⟨⟨oo, s2⟩, hoo, hk⟩ := bind_ok_inv h
      simp only [Except.ok.injEq, Prod.mk.injEq] at hk
      obtain ⟨hn, hs⟩ := hk
      subst hs
      have hp := n_observable_object_snd_cdataf _ _ _ hoo
      have h2 := hp.trans (congrArg Option.some hn)
      exact h2
    | true =>
      rw [hdet] at h
      simp only [if_true, ite_true] at h
      obtain ⟨⟨oo1, s1⟩, hoo1, hk⟩ := bind_ok_inv h
      simp only [ok_bind] at hk
      obtain ⟨⟨oo2, s2⟩, hoo2, hk2⟩ := bind_ok_inv hk
      simp only [Except.ok.injEq, Prod.mk.injEq] at hk2
      obtain ⟨hn, hs⟩ := hk2
      subst hs
      have hp := n_observable_object_snd_cdataf _ _ _ hoo2
      have h2 := hp.trans (congrArg Option.some hn)
      exact h2

lemma n_exif_facet_own (s : MState) (n : String) (s' : MState)
    (h : n_exif_facet s = .ok (n, s')) : s'._n_exif_facet = some n := by
  cases hf : s._n_exif_facet with
  | some m =>
    unfold n_exif_facet at h
    rw [hf] at h
    obtain ⟨hm, hs⟩ : m = n ∧ s = s' := by simpa using h
    subst hs
    rw [hf, hm]
  | none =>
    unfold n_exif_facet at h
    rw [hf] at h
    cases hdet : s._use_deterministic_uuids with
    | false =>
      rw [hdet] at h
      simp only [Bool.false_eq_true, if_false, ite_false, local_uuid, ok_bind] at h
      obtain ⟨⟨oo, s2⟩, hoo, hk⟩ := bind_ok_inv h
      simp only [Except.ok.injEq, Prod.mk.injEq] at hk
      obtain ⟨hn, hs⟩ := hk
      subst hs
      have hp := n_observable_object_snd_exiff _ _ _ hoo
      have h2 := hp.trans (congrArg Option.some hn)
      exact h2
    | true =>
      rw [hdet] at h
      simp only [if_true, ite_true] at h
      obtain ⟨⟨oo1, s1⟩, hoo1, hk⟩ := bind_ok_inv h
      simp only [ok_bind] at hk
      obtain ⟨⟨oo2, s2⟩, hoo2, hk2⟩ := bind_ok_inv hk
      simp only [Except.ok.injEq, Prod.mk.injEq] at hk2
      obtain ⟨hn, hs⟩ := hk2
      subst hs
      have hp := n_observable_object_snd_exiff _ _ _ hoo2
      have h2 := hp.trans (congrArg Option.some hn)
      exact h2

lemma n_file_facet_own (s : MState) (n : String) (s' : MState)
    (h : n_file_facet s = .ok (n, s')) : s'._n_file_facet = some n := by
  cases hf : s._n_file_facet with
  | some m =>
    unfold n_file_facet at h
    rw [hf] at h
    obtain ⟨hm, hs⟩ : m = n ∧ s = s' := by simpa using h
    subst hs
    rw [hf, hm]
  | none =>
    unfold n_file_facet at h
    rw [hf] at h
    cases hdet : s._use_deterministic_uuids with
    | false =>
      rw [hdet] at h
      simp only [Bool.false_eq_true, if_false, ite_false, local_uuid, ok_bind] at h
      obtain ⟨⟨oo, s2⟩, hoo, hk⟩ := bind_ok_inv h
      simp only [Except.ok.injEq, Prod.mk.injEq] at hk
      obtain ⟨hn, hs⟩ := hk
      subst hs
      have hp := n_observable_object_snd_filef _ _ _ hoo
      have h2 := hp.trans (congrArg Option.some hn)
      exact h2
    | true =>
      rw [hdet] at h
      simp only [if_true, ite_true] at h
      obtain ⟨⟨oo1, s1⟩, hoo1, hk⟩ := bind_ok_inv h
      simp only [ok_bind] at hk
      obtain ⟨⟨oo2, s2⟩, hoo2, hk2⟩ := bind_ok_inv hk
      simp only [Except.ok.injEq, Prod.mk.injEq] at hk2
      obtain ⟨hn, hs⟩ := hk2
      subst hs
      have hp := n_observable_object_snd_filef _ _ _ hoo2
      have h2 := hp.trans (congrArg Option.some hn)
      exact h2

lemma n_raster_picture_facet_own (s : MState) (n : String) (s' : MState)
    (h : n_raster_picture_facet s = .ok (n, s')) : s'._n_raster_picture_facet = some n := by
  cases hf : s._n_raster_picture_facet with
  | some m =>
    unfold n_raster_picture_facet at h
    rw [hf] at h
    obtain ⟨hm, hs⟩ : m = n ∧ s = s' := by simpa using h
    subst hs
    rw [hf, hm]
  | none =>
    unfold n_raster_picture_facet at h
    rw [hf] at h
    cases hdet : s._use_deterministic_uuids with
    | false =>
      rw [hdet] at h
      simp only [Bool.false_eq_true, if_false, ite_false, local_uuid, ok_bind] at h
      obtain ⟨⟨oo, s2⟩, hoo, hk⟩ := bind_ok_inv h
      simp only [Except.ok.injEq, Prod.mk.injEq] at hk
      obtain ⟨hn, hs⟩ := hk
      subst hs
      have hp := n_observable_object_snd_rpff _ _ _ hoo
      have h2 := hp.trans (congrArg Option.some hn)
      exact h2
    | true =>
      rw [hdet] at h
      simp only [if_true, ite_true] at h
      obtain ⟨⟨oo1, s1⟩, hoo1, hk⟩ := bind_ok_inv h
      simp only [ok_bind] at hk
      obtain ⟨⟨oo2, s2⟩, hoo2, hk2⟩ := bind_ok_inv hk
      simp only [Except.ok.injEq, Prod.mk.injEq] at hk2
      obtain ⟨hn, hs⟩ := hk2
      subst hs
      have hp := n_observable_object_snd_rpff _ _ _ hoo2
      have h2 := hp.trans (congrArg Option.some hn)
      exact h2

lemma n_unix_file_permissions_facet_own (s : MState) (n : String) (s' : MState)
    (h : n_unix_file_permissions_facet s = .ok (n, s')) : s'._n_unix_file_permissions_facet = some n := by
  cases hf : s._n_unix_file_permissions_facet with
  | some m =>
    unfold n_unix_file_permissions_facet at h
    rw [hf] at h
    obtain ⟨hm, hs⟩ : m = n ∧ s = s' := by simpa using h
    subst hs
    rw [hf, hm]
  | none =>
    unfold n_unix_file_permissions_facet at h
    rw [hf] at h
    cases hdet : s._use_deterministic_uuids with
    | false =>
      rw [hdet] at h
      simp only [Bool.false_eq_true, if_false, ite_false, local_uuid, ok_bind] at h
      obtain ⟨⟨oo, s2⟩, hoo, hk⟩ := bind_ok_inv h
      simp only [Except.ok.injEq, Prod.mk.injEq] at hk
      obtain ⟨hn, hs⟩ := hk
      subst hs
      have hp := n_observable_object_snd_unixf _ _ _ hoo
      have h2 := hp.trans (congrArg Option.some hn)
      exact h2
    | true =>
      rw [hdet] at h
      simp only [if_true, ite_true] at h
      obtain ⟨⟨oo1, s1⟩, hoo1, hk⟩ := bind_ok_inv h
      simp only [ok_bind] at hk
      obtain ⟨⟨oo2, s2⟩, hoo2, hk2⟩ := bind_ok_inv hk
      simp only [Except.ok.injEq, Prod.mk.injEq] at hk2
      obtain ⟨hn, hs⟩ := hk2
      subst hs
      have hp := n_observable_object_snd_unixf _ _ _ hoo2
      have h2 := hp.trans (congrArg Option.some hn)
      exact h2

lemma calm_of_obs {s : MState} {n : String} {s' : MState}
    (h : n_observable_object s = .ok (n, s')) : CalmFacts s s' := by
  obtain ⟨f1, f2, f3, f4, f5, f6, f7, f8, f9, f10, f11, f12⟩ :=
    n_observable_object_facts s n s' h
  exact ⟨f1, f2, f5, f6, f4, congrArg Option.isSome f7, f3,
    n_observable_object_edobj _ _ _ h, f11, f10, f12⟩

lemma calm_of_cdataf {s : MState} {n : String} {s' : MState}
    (h : n_content_data_facet s = .ok (n, s')) : CalmFacts s s' := by
  obtain ⟨f1, f2, f3, f4, f5, f6, f7, f8, f9, f10, f11⟩ :=
    n_content_data_facet_facts s n s' h
  exact ⟨f1, f2, f5, f6, f4, congrArg Option.isSome f7, f3,
    n_content_data_facet_edobj _ _ _ h, f10, f9, f11⟩

lemma calm_of_exiff {s : MState} {n : String} {s' : MState}
    (h : n_exif_facet s = .ok (n, s')) : CalmFacts s s' := by
  obtain ⟨f1, f2, f3, f4, f5, f6, f7, f8, f9, f10, f11⟩ :=
    n_exif_facet_facts s n s' h
  exact ⟨f1, f2, f5, f6, f4, congrArg Option.isSome f7, f3,
    n_exif_facet_edobj _ _ _ h, f10, f9, f11⟩

lemma calm_of_filef {s : MState} {n : String} {s' : MState}
    (h : n_file_facet s = .ok (n, s')) : CalmFacts s s' := by
  obtain ⟨f1, f2, f3, f4, f5, f6, f7, f8, f9, f10, f11⟩ :=
    n_file_facet_facts s n s' h
  exact ⟨f1, f2, f5, f6, f4, congrArg Option.isSome f7, f3,
    n_file_facet_edobj _ _ _ h, f10, f9, f11⟩

lemma calm_of_unixf {s : MState} {n : String} {s' : MState}
    (h : n_unix_file_permissions_facet s = .ok (n, s')) : CalmFacts s s' := by
  obtain ⟨f1, f2, f3, f4, f5, f6, f7, f8, f9, f10, f11⟩ :=
    n_unix_file_permissions_facet_facts s n s' h
  exact ⟨f1, f2, f5, f6, f4, congrArg Option.isSome f7, f3,
    n_unix_file_permissions_facet_edobj _ _ _ h, f10, f9, f11⟩

lemma map_iri_eq_compositeGPSAltitude (s : MState) :
    map_raw_and_printconv_iri s iriCompositeGPSAltitude
      = compositeCoordBranch "altitude" s iriCompositeGPSAltitude := rfl

lemma map_iri_eq_compositeGPSLatitude (s : MState) :
    map_raw_and_printconv_iri s iriCompositeGPSLatitude
      = compositeCoordBranch "latitude" s iriCompositeGPSLatitude := rfl

lemma map_iri_eq_compositeGPSLongitude (s : MState) :
    map_raw_and_printconv_iri s iriCompositeGPSLongitude
      = compositeCoordBranch "longitude" s iriCompositeGPSLongitude := rfl

lemma map_iri_eq_compositeGPSPosition (s : MState) :
    map_raw_and_printconv_iri s iriCompositeGPSPosition
      = gpsPositionBranch s iriCompositeGPSPosition := rfl

lemma map_iri_eq_exifImageHeight (s : MState) :
    map_raw_and_printconv_iri s iriExifImageHeight
      = exifImageHeightBranch s iriExifImageHeight := rfl

lemma map_iri_eq_exifImageWidth (s : MState) :
    map_raw_and_printconv_iri s iriExifImageWidth
      = exifImageWidthBranch s iriExifImageWidth := rfl

lemma map_iri_eq_make (s : MState) :
    map_raw_and_printconv_iri s iriMake = makeBranch s iriMake := rfl

lemma map_iri_eq_model (s : MState) :
    map_raw_and_printconv_iri s iriModel = modelBranch s iriModel := rfl

lemma map_iri_eq_mimeType (s : MState) :
    map_raw_and_printconv_iri s iriMIMEType = mimeTypeBranch s iriMIMEType := rfl

lemma map_iri_eq_fileAccessDate (s : MState) :
    map_raw_and_printconv_iri s iriFileAccessDate
      = fileDateBranch "accessedTime" s iriFileAccessDate := rfl

lemma map_iri_eq_fileInodeChangeDate (s : MState) :
    map_raw_and_printconv_iri s iriFileInodeChangeDate
      = fileDateBranch "metadataChangeTime" s iriFileInodeChangeDate := rfl

lemma map_iri_eq_fileModifyDate (s : MState) :
    map_raw_and_printconv_iri s iriFileModifyDate
      = fileDateBranch "modifiedTime" s iriFileModifyDate := rfl

lemma map_iri_eq_fileName (s : MState) :
    map_raw_and_printconv_iri s iriFileName = fileNameBranch s iriFileName := rfl

lemma map_iri_eq_filePermissions (s : MState) :
    map_raw_and_printconv_iri s iriFilePermissions
      = filePermissionsBranch s iriFilePermissions := rfl

lemma map_iri_eq_fileSize (s : MState) :
    map_raw_and_printconv_iri s iriFileSize = fileSizeBranch s iriFileSize := rfl

lemma map_iri_eq_exifGps (s : MState) (iri : String) (h : iri ∈ exifGpsIris) :
    map_raw_and_printconv_iri s iri = exifGpsBranch s iri := by
  fin_cases h <;> rfl

lemma map_iri_eq_default (s : MState) (iri : String) (h : iri ∉ handledIris) :
    map_raw_and_printconv_iri s iri = defaultBranch s iri := by
  unfold map_raw_and_printconv_iri
  rw [if_neg (fun he => h (by rw [he]; decide)),
      if_neg (fun he => h (by rw [he]; decide)),
      if_neg (fun he => h (by rw [he]; decide)),
      if_neg (fun he => h (by rw [he]; decide)),
      if_neg (fun he => h (by rw [he]; decide)),
      if_neg (fun he => h (by rw [he]; decide)),
      if_neg (fun hm => h (List.mem_append.2 (Or.inl (List.mem_append.2 (Or.inr hm))))),
      if_neg (fun he => h (by rw [he]; decide)),
      if_neg (fun he => h (by rw [he]; decide)),
      if_neg (fun he => h (by rw [he]; decide)),
      if_neg (fun he => h (by rw [he]; decide)),
      if_neg (fun he => h (by rw [he]; decide)),
      if_neg (fun he => h (by rw [he]; decide)),
      if_neg (fun he => h (by rw [he]; decide)),
      if_neg (fun he => h (by rw [he]; decide)),
      if_neg (fun he => h (by rw [he]; decide))]

lemma compositeCoordBranch_raw_none (p : String) (s : MState) (iri : String)
    (hr : dictLookup s._kv_dict_raw iri = none) :
    compositeCoordBranch p s iri = .ok (pop_n_exiftool_predicate s iri).2 := by
  unfold compositeCoordBranch
  simp only [pop_n_exiftool_predicate, hr]

lemma exifGpsBranch_raw_none (s : MState) (iri : String)
    (hr : dictLookup s._kv_dict_raw iri = none) :
    exifGpsBranch s iri = .ok (pop_n_exiftool_predicate s iri).2 := by
  unfold exifGpsBranch
  simp only [pop_n_exiftool_predicate, hr]

lemma exifImageHeightBranch_raw_none (s : MState) (iri : String)
    (hr : dictLookup s._kv_dict_raw iri = none) :
    exifImageHeightBranch s iri = .ok (pop_n_exiftool_predicate s iri).2 := by
  unfold exifImageHeightBranch
  simp only [pop_n_exiftool_predicate, hr]

lemma exifImageWidthBranch_raw_none (s : MState) (iri : String)
    (hr : dictLookup s._kv_dict_raw iri = none) :
    exifImageWidthBranch s iri = .ok (pop_n_exiftool_predicate s iri).2 := by
  unfold exifImageWidthBranch
  simp only [pop_n_exiftool_predicate, hr]

lemma modelBranch_raw_none (s : MState) (iri : String)
    (hr : dictLookup s._kv_dict_raw iri = none) :
    modelBranch s iri = .ok (pop_n_exiftool_predicate s iri).2 := by
  unfold modelBranch
  simp only [pop_n_exiftool_predicate, hr]

lemma fileDateBranch_raw_none (p : String) (s : MState) (iri : String)
    (hr : dictLookup s._kv_dict_raw iri = none) :
    fileDateBranch p s iri = .ok (pop_n_exiftool_predicate s iri).2 := by
  unfold fileDateBranch
  simp only [pop_n_exiftool_predicate, hr]

lemma fileNameBranch_raw_none (s : MState) (iri : String)
    (hr : dictLookup s._kv_dict_raw iri = none) :
    fileNameBranch s iri = .ok (pop_n_exiftool_predicate s iri).2 := by
  unfold fileNameBranch
  simp only [pop_n_exiftool_predicate, hr]

lemma fileSizeBranch_raw_none (s : MState) (iri : String)
    (hr : dictLookup s._kv_dict_raw iri = none) :
    fileSizeBranch s iri = .ok (pop_n_exiftool_predicate s iri).2 := by
  unfold fileSizeBranch
  simp only [pop_n_exiftool_predicate, hr]

lemma matchE_ok_inv {X : Except String MState} {K : MState → Except String MState}
    {b : MState}
    (h : (match X with
          | Except.error e => Except.error e
          | Except.ok s2 => K s2) = Except.ok b) :
    ∃ s2, X = .ok s2 ∧ K s2 = .ok b := by
  cases X with
  | error e => exact absurd h (by simp)
  | ok s2 => exact ⟨s2, rfl, by simpa using h⟩

lemma accAdd_calm (ACC : MState → Except String (String × MState))
    (hcalm : ∀ t n t', ACC t = .ok (n, t') → CalmFacts t t')
    (s : MState) (p o : Node) (hk : p ≠ NS_UCO_TYPES "key") (ht : p ≠ NS_RDF "type")
    (s' : MState)
    (h : (match ACC s with
          | Except.error e => Except.error e
          | Except.ok (facet, s2) =>
              Except.ok (stAdd s2 ⟨.uri facet, p, o⟩)) = Except.ok s') :
    CalmFacts s s' := by
  cases hf : ACC s with
  | error e => rw [hf] at h; exact absurd h (by simp)
  | ok pr =>
    obtain ⟨fn, s2⟩ := pr
    rw [hf] at h
    simp only [Except.ok.injEq] at h
    subst h
    exact calm_comp (hcalm _ _ _ hf) (calm_stAdd_mk _ _ _ _ hk ht)

lemma calm_set_mime (s : MState) (lex : String) :
    CalmFacts s { s with _mime_type := some lex } :=
  ⟨rfl, rfl, rfl, rfl, rfl, rfl, rfl, rfl, fun _ => rfl, fun _ ht => ht, id⟩

lemma manufacturer_calm (s : MState) (pc rw : Option String) (m : Option String)
    (s' : MState) (h : manufacturer_name_to_node s pc rw = (m, s')) :
    CalmFacts s s' := by
  unfold manufacturer_name_to_node at h
  by_cases hp : (pc.isSome || rw.isSome) = true
  · rw [if_pos hp] at h
    have hbase : CalmFacts s (stAdd { s with uuidCounter := s.uuidCounter + 1 }
        ⟨.uri (s._ns_base ++ "Identity-" ++ toString s.uuidCounter), NS_RDF "type",
          NS_UCO_IDENTITY "Identity"⟩) :=
      calm_comp (calm_bump s _)
        (calm_stAdd_type_untracked _ _ _ (by decide) (by decide) (by decide) (by decide))
    cases pc with
    | some p =>
      cases rw with
      | some r =>
        simp only [local_uuid] at h
        by_cases hpr : p ≠ r
        · rw [if_pos hpr] at h
          simp only [Prod.mk.injEq] at h
          obtain ⟨hm, hs⟩ := h
          subst hs
          exact calm_comp hbase (calm_comp
            (calm_stAdd_mk _ _ _ _ (by decide) (by decide))
            (calm_stAdd_mk _ _ _ _ (by decide) (by decide)))
        · rw [if_neg hpr] at h
          simp only [Prod.mk.injEq] at h
          obtain ⟨hm, hs⟩ := h
          subst hs
          exact calm_comp hbase (calm_stAdd_mk _ _ _ _ (by decide) (by decide))
      | none =>
        simp only [local_uuid, Prod.mk.injEq] at h
        obtain ⟨hm, hs⟩ := h
        subst hs
        exact calm_comp hbase (calm_stAdd_mk _ _ _ _ (by decide) (by decide))
    | none =>
      cases rw with
      | some r =>
        simp only [local_uuid, Prod.mk.injEq] at h
        obtain ⟨hm, hs⟩ := h
        subst hs
        exact calm_comp hbase (calm_stAdd_mk _ _ _ _ (by decide) (by decide))
      | none =>
        simp only [local_uuid, Prod.mk.injEq] at h
        obtain ⟨hm, hs⟩ := h
        subst hs
        exact hbase
  · rw [if_neg hp] at h
    simp only [Prod.mk.injEq] at h
    obtain ⟨hm, hs⟩ := h
    subst hs
    exact calm_refl s

lemma man_calm (s : MState) (pc rw : Option String) :
    CalmFacts s (manufacturer_name_to_node s pc rw).2 :=
  manufacturer_calm s pc rw _ _ rfl

lemma modelBranch_quiet (s : MState) (iri : String) (s' : MState)
    (h : modelBranch s iri = .ok s') : QuietFacts s s' iri := by
  unfold modelBranch at h
  simp only [pop_n_exiftool_predicate] at h
  cases hv : dictLookup s._kv_dict_raw iri with
  | none =>
    rw [hv] at h
    simp only [Except.ok.injEq] at h
    subst h
    exact pop_quiet s iri
  | some v =>
    cases v with
    | uri u =>
      rw [hv] at h
      simp only [Except.ok.injEq] at h
      subst h
      exact pop_quiet s iri
    | lit lex dt =>
      rw [hv] at h
      simp only [Except.ok.injEq] at h
      subst h
      exact quiet_calm (pop_quiet s iri)
        (calm_comp (calm_cdf _) (calm_stAdd_mk _ _ _ _ (by decide) (by decide)))

lemma mimeTypeBranch_quiet (s : MState) (iri : String) (s' : MState)
    (h : mimeTypeBranch s iri = .ok s') : QuietFacts s s' iri := by
  unfold mimeTypeBranch at h
  simp only [pop_n_exiftool_predicate] at h
  cases hv : dictLookup s._kv_dict_raw iri with
  | none =>
    rw [hv] at h
    simp only [Except.ok.injEq] at h
    subst h
    exact pop_quiet s iri
  | some v =>
    cases v with
    | uri u =>
      rw [hv] at h
      simp only [Except.ok.injEq] at h
      subst h
      exact pop_quiet s iri
    | lit lex dt =>
      rw [hv] at h
      simp only [Except.ok.injEq] at h
      subst h
      exact quiet_calm (pop_quiet s iri) (calm_set_mime _ lex)

lemma fileNameBranch_quiet (s : MState) (iri : String) (s' : MState)
    (h : fileNameBranch s iri = .ok s') : QuietFacts s s' iri := by
  unfold fileNameBranch at h
  simp only [pop_n_exiftool_predicate] at h
  cases hv : dictLookup s._kv_dict_raw iri with
  | none =>
    rw [hv] at h
    simp only [Except.ok.injEq] at h
    subst h
    exact pop_quiet s iri
  | some v =>
    cases v with
    | uri u =>
      rw [hv] at h
      simp only [Except.ok.injEq] at h
      subst h
      exact pop_quiet s iri
    | lit lex dt =>
      rw [hv] at h
      exact quiet_calm (pop_quiet s iri)
        (accAdd_calm _ (fun _ _ _ hf => calm_of_filef hf) _ _ _
          (by decide) (by decide) _ h)

lemma fileDateBranch_quiet (p : String) (s : MState) (iri : String) (s' : MState)
    (hk : NS_UCO_OBSERVABLE p ≠ NS_UCO_TYPES "key")
    (ht : NS_UCO_OBSERVABLE p ≠ NS_RDF "type")
    (h : fileDateBranch p s iri = .ok s') : QuietFacts s s' iri := by
  unfold fileDateBranch at h
  simp only [pop_n_exiftool_predicate] at h
  cases hv : dictLookup s._kv_dict_raw iri with
  | none =>
    rw [hv] at h
    simp only [Except.ok.injEq] at h
    subst h
    exact pop_quiet s iri
  | some v =>
    cases v with
    | uri u =>
      rw [hv] at h
      simp only [Except.ok.injEq] at h
      subst h
      exact pop_quiet s iri
    | lit lex dt =>
      rw [hv] at h
      exact quiet_calm (pop_quiet s iri)
        (accAdd_calm _ (fun _ _ _ hf => calm_of_filef hf) _ _ _ hk ht _ h)

lemma pop_eta (s : MState) (iri : String) :
    pop_n_exiftool_predicate s iri
      = ((dictLookup s._kv_dict_raw iri, dictLookup s._kv_dict_printconv iri),
         (pop_n_exiftool_predicate s iri).2) := rfl

lemma filePermissionsBranch_quiet (s : MState) (iri : String) (s' : MState)
    (h : filePermissionsBranch s iri = .ok s') : QuietFacts s s' iri := by
  unfold filePermissionsBranch at h
  simp only [pop_n_exiftool_predicate] at h
  have hpc : ∀ s2 : MState, QuietFacts s s2 iri →
      (match dictLookup s._kv_dict_printconv iri with
        | some (.lit lex dt) =>
          (match n_unix_file_permissions_facet s2 with
           | Except.error e => Except.error e
           | Except.ok (facet, s3) =>
               Except.ok (stAdd s3 ⟨.uri facet, NS_RDFS "comment", .lit lex dt⟩))
        | _ => Except.ok s2) = Except.ok s' → QuietFacts s s' iri := by
    intro s2 hq hK
    cases hp : dictLookup s._kv_dict_printconv iri with
    | none =>
      rw [hp] at hK
      simp only [Except.ok.injEq] at hK
      subst hK
      exact hq
    | some v =>
      cases v with
      | uri u =>
        rw [hp] at hK
        simp only [Except.ok.injEq] at hK
        subst hK
        exact hq
      | lit lex dt =>
        rw [hp] at hK
        exact quiet_calm hq (accAdd_calm _ (fun _ _ _ hf => calm_of_unixf hf) _ _ _
          (by decide) (by decide) _ hK)
  cases hv : dictLookup s._kv_dict_raw iri with
  | none =>
    rw [hv] at h
    exact hpc _ (pop_quiet s iri) h
  | some v =>
    cases v with
    | uri u =>
      rw [hv] at h
      exact hpc _ (pop_quiet s iri) h
    | lit lex dt =>
      rw [hv] at h
      simp only [] at h
      by_cases hd : pyIsDigit lex = true ∧ digitsToNat lex.data 0 < 1000
      · rw [if_pos hd] at h
        obtain ⟨s2, hX, hK⟩ := matchE_ok_inv h
        exact hpc s2 (quiet_calm (pop_quiet s iri)
          (accAdd_calm _ (fun _ _ _ hf => calm_of_unixf hf) _ _ _
            (by decide) (by decide) _ hX)) hK
      · rw [if_neg hd] at h
        exact hpc _ (pop_quiet s iri) h

lemma defaultBranch_quiet (s : MState) (iri : String) (s' : MState)
    (hiri : isExiftoolIri iri = true)
    (h : defaultBranch s iri = .ok s') : QuietFacts s s' iri := by
  unfold defaultBranch at h
  simp only [pop_n_exiftool_predicate] at h
  have hpc : ∀ s2 : MState, QuietFacts s s2 iri →
      (match dictLookup s._kv_dict_printconv iri with
        | some v =>
          (match n_observable_object s2 with
           | Except.error e => Except.error e
           | Except.ok (oo, s3) => Except.ok (stAdd s3 ⟨.uri oo, .uri iri, v⟩))
        | none => Except.ok s2) = Except.ok s' → QuietFacts s s' iri := by
    intro s2 hq hK
    cases hp : dictLookup s._kv_dict_printconv iri with
    | none =>
      rw [hp] at hK
      simp only [Except.ok.injEq] at hK
      subst hK
      exact hq
    | some v =>
      rw [hp] at hK
      exact quiet_calm hq (accAdd_calm _ (fun _ _ _ hf => calm_of_obs hf) _ _ _
        (exiftoolIri_ne_key iri hiri) (exiftoolIri_ne_rdf_type iri hiri) _ hK)
  cases hv : dictLookup s._kv_dict_raw iri with
  | none =>
    rw [hv] at h
    exact hpc _ (pop_quiet s iri) h
  | some v =>
    rw [hv] at h
    obtain ⟨s2, hX, hK⟩ := matchE_ok_inv h
    exact hpc s2 (quiet_calm (pop_quiet s iri)
      (accAdd_calm _ (fun _ _ _ hf => calm_of_obs hf) _ _ _
        (exiftoolIri_ne_key iri hiri) (exiftoolIri_ne_rdf_type iri hiri) _ hX)) hK

lemma makeBranch_quiet (s : MState) (iri : String) (s' : MState)
    (h : makeBranch s iri = .ok s') : QuietFacts s s' iri := by
  unfold makeBranch at h
  rw [pop_eta] at h
  simp only [] at h
  obtain ⟨m, s1, hm⟩ : ∃ m s1,
      manufacturer_name_to_node (pop_n_exiftool_predicate s iri).2
        (match dictLookup s._kv_dict_printconv iri with
          | some (.lit lex _dt) => some lex
          | _ => none)
        (match dictLookup s._kv_dict_raw iri with
          | some (.lit lex _dt) => some lex
          | _ => none) = (m, s1) := ⟨_, _, rfl⟩
  rw [hm] at h
  cases m with
  | none =>
    simp only [Except.ok.injEq] at h
    subst h
    exact quiet_calm (pop_quiet s iri) (manufacturer_calm _ _ _ _ _ hm)
  | some mn =>
    simp only [Except.ok.injEq] at h
    subst h
    exact quiet_calm (pop_quiet s iri)
      (calm_comp (manufacturer_calm _ _ _ _ _ hm)
        (calm_comp (calm_cdf _) (calm_stAdd_mk _ _ _ _ (by decide) (by decide))))

lemma accParse_ok_inv {X : Except String (String × MState)} {lex : String} {P : Node}
    {b : MState}
    (h : (match X with
          | Except.error e => Except.error e
          | Except.ok (facet, s2) =>
            match pyIntOfString lex with
            | none => Except.error "ValueError: invalid literal for int"
            | some i => Except.ok (stAdd s2 ⟨.uri facet, P, intLiteral i⟩))
        = Except.ok b) :
    ∃ facet s2 i, X = .ok (facet, s2) ∧ pyIntOfString lex = some i ∧
      b = stAdd s2 ⟨.uri facet, P, intLiteral i⟩ := by
  cases X with
  | error e => exact absurd h (by simp)
  | ok pr =>
    obtain ⟨fn, s2⟩ := pr
    cases hp : pyIntOfString lex with
    | none =>
      simp only [hp] at h
      exact absurd h (by simp)
    | some i =>
      simp only [hp, Except.ok.injEq] at h
      exact ⟨fn, s2, i, rfl, rfl, h.symm⟩

lemma pop_snd_raw (s : MState) (iri : String) :
    (pop_n_exiftool_predicate s iri).2._kv_dict_raw = dictRemove s._kv_dict_raw iri := rfl

lemma pop_snd_pc (s : MState) (iri : String) :
    (pop_n_exiftool_predicate s iri).2._kv_dict_printconv
      = dictRemove s._kv_dict_printconv iri := rfl

lemma pop_snd_graph (s : MState) (iri : String) :
    (pop_n_exiftool_predicate s iri).2.graph = s.graph := rfl

lemma pop_snd_ll (s : MState) (iri : String) :
    (pop_n_exiftool_predicate s iri).2._n_location_object_latlong_facet
      = s._n_location_object_latlong_facet := rfl

lemma pop_snd_loc (s : MState) (iri : String) :
    (pop_n_exiftool_predicate s iri).2._n_location_object = s._n_location_object := rfl

lemma pop_snd_rel (s : MState) (iri : String) :
    (pop_n_exiftool_predicate s iri).2._n_relationship_object_location
      = s._n_relationship_object_location := rfl

lemma pop_snd_rpf (s : MState) (iri : String) :
    (pop_n_exiftool_predicate s iri).2._n_raster_picture_facet
      = s._n_raster_picture_facet := rfl

lemma pop_snd_mime (s : MState) (iri : String) :
    (pop_n_exiftool_predicate s iri).2._mime_type = s._mime_type := rfl

lemma pop_snd_ed (s : MState) (iri : String) :
    (pop_n_exiftool_predicate s iri).2._exif_dictionary_dict
      = s._exif_dictionary_dict := rfl

lemma gpsPositionBranch_facts (s : MState) (iri : String) (s' : MState)
    (h : gpsPositionBranch s iri = .ok s') :
    s'._kv_dict_raw = dictRemove s._kv_dict_raw iri ∧
    s'._kv_dict_printconv = dictRemove s._kv_dict_printconv iri ∧
    s'._n_location_object_latlong_facet = s._n_location_object_latlong_facet ∧
    s'._n_location_object.isSome
      = (s._n_location_object.isSome || hasLitAt s._kv_dict_printconv iri) ∧
    s'._n_relationship_object_location = s._n_relationship_object_location ∧
    s'._n_raster_picture_facet.isSome = s._n_raster_picture_facet.isSome ∧
    s'._exif_dictionary_dict = s._exif_dictionary_dict ∧
    (∀ k, hasEntryKey s'.graph k = hasEntryKey s.graph k) ∧
    (∀ t, t ∈ s.graph → t ∈ s'.graph) ∧
    (TypeCountsInv s → TypeCountsInv s') ∧
    s'._n_exif_dictionary_object = s._n_exif_dictionary_object := by
  unfold gpsPositionBranch at h
  rw [pop_eta] at h
  simp only [] at h
  cases hp : dictLookup s._kv_dict_printconv iri with
  | none =>
    rw [hp] at h
    simp only [Except.ok.injEq] at h
    subst h
    exact ⟨rfl, rfl, rfl, by simp [hasLitAt, hp, pop_snd_loc], rfl, rfl, rfl,
      fun _ => rfl, fun _ ht => ht, id, rfl⟩
  | some v =>
    cases v with
    | uri u =>
      rw [hp] at h
      simp only [Except.ok.injEq] at h
      subst h
      exact ⟨rfl, rfl, rfl, by simp [hasLitAt, hp, pop_snd_loc], rfl, rfl, rfl,
        fun _ => rfl, fun _ ht => ht, id, rfl⟩
    | lit lex dt =>
      rw [hp] at h
      simp only [Except.ok.injEq] at h
      subst h
      refine ⟨loc_snd_kv_raw _, loc_snd_kv_pc _, loc_snd_ll _, ?_, loc_snd_rel _,
        congrArg Option.isSome (loc_snd_rpf _), loc_snd_ed _,
        fun k => (hasEntryKey_graphAdd_mk _ _ _ _ k (by decide)).trans (loc_entry _ k),
        fun t ht => mem_graphAdd_of_mem _ _ _ (loc_mem _ _ ht),
        fun hi => TypeCountsInv_stAdd_nontype_mk _ _ _ _ (by decide) (loc_inv _ hi),
        loc_snd_edobj _⟩
      have hown := loc_snd_own ((pop_n_exiftool_predicate s iri).2)
      simp [stAdd, hown, hasLitAt, hp]

lemma compositeCoordBranch_facts (p : String) (s : MState) (iri : String) (s' : MState)
    (hk : NS_UCO_LOCATION p ≠ NS_UCO_TYPES "key")
    (ht : NS_UCO_LOCATION p ≠ NS_RDF "type")
    (hll : s._n_location_object_latlong_facet.isSome = true →
      s._n_location_object.isSome = true)
    (h : compositeCoordBranch p s iri = .ok s') :
    s'._kv_dict_raw = dictRemove s._kv_dict_raw iri ∧
    s'._kv_dict_printconv = dictRemove s._kv_dict_printconv iri ∧
    s'._n_location_object_latlong_facet.isSome
      = (s._n_location_object_latlong_facet.isSome || hasLitAt s._kv_dict_raw iri) ∧
    s'._n_location_object.isSome
      = (s._n_location_object.isSome || hasLitAt s._kv_dict_raw iri) ∧
    s'._n_relationship_object_location = s._n_relationship_object_location ∧
    s'._n_raster_picture_facet.isSome = s._n_raster_picture_facet.isSome ∧
    s'._exif_dictionary_dict = s._exif_dictionary_dict ∧
    (∀ k, hasEntryKey s'.graph k = hasEntryKey s.graph k) ∧
    (∀ t, t ∈ s.graph → t ∈ s'.graph) ∧
    (TypeCountsInv s → TypeCountsInv s') ∧
    (∀ lex dt, dictLookup s._kv_dict_raw iri = some (.lit lex dt) →
      ∃ f, Triple.mk (.uri f) (NS_UCO_LOCATION p) (.lit lex (some (NS_XSD "decimal")))
        ∈ s'.graph) ∧
    s'._n_exif_dictionary_object = s._n_exif_dictionary_object := by
  unfold compositeCoordBranch at h
  rw [pop_eta] at h
  simp only [] at h
  cases hv : dictLookup s._kv_dict_raw iri with
  | none =>
    rw [hv] at h
    simp only [Except.ok.injEq] at h
    subst h
    exact ⟨rfl, rfl, by simp [hasLitAt, hv, pop_snd_ll],
      by simp [hasLitAt, hv, pop_snd_loc], rfl, rfl, rfl,
      fun _ => rfl, fun _ ht => ht, id,
      fun lex dt hcon => absurd hcon (by simp), rfl⟩
  | some v =>
    cases v with
    | uri u =>
      rw [hv] at h
      simp only [Except.ok.injEq] at h
      subst h
      exact ⟨rfl, rfl, by simp [hasLitAt, hv, pop_snd_ll],
        by simp [hasLitAt, hv, pop_snd_loc], rfl, rfl, rfl,
        fun _ => rfl, fun _ ht => ht, id,
        fun lex dt hcon => absurd hcon (by simp), rfl⟩
    | lit lex dt =>
      rw [hv] at h
      simp only [Except.ok.injEq] at h
      subst h
      refine ⟨ll_snd_kv_raw _, ll_snd_kv_pc _, ?_, ?_, ll_snd_rel _,
        congrArg Option.isSome (ll_snd_rpf _), ll_snd_ed _,
        fun k => (hasEntryKey_graphAdd_mk _ _ _ _ k hk).trans (ll_entry _ k),
        fun t htm => mem_graphAdd_of_mem _ _ _ (ll_mem _ _ htm),
        fun hi => TypeCountsInv_stAdd_nontype_mk _ _ _ _ ht (ll_inv _ hi), ?_,
        ll_snd_edobj _⟩
      · have hown := ll_snd_own ((pop_n_exiftool_predicate s iri).2)
        simp [stAdd, hown, hasLitAt, hv]
      · have hloc := ll_snd_loc_isSome ((pop_n_exiftool_predicate s iri).2)
        have hrw : (stAdd (n_location_object_latlong_facet
            ((pop_n_exiftool_predicate s iri).2)).2
            ⟨.uri (n_location_object_latlong_facet
              ((pop_n_exiftool_predicate s iri).2)).1, NS_UCO_LOCATION p,
              .lit lex (some (NS_XSD "decimal"))⟩)._n_location_object.isSome
            = (s._n_location_object.isSome || !s._n_location_object_latlong_facet.isSome) :=
          hloc
        rw [hrw]
        simp only [hasLitAt, hv]
        cases hls : s._n_location_object_latlong_facet.isSome with
        | true => simp [hll hls]
        | false => simp
      · intro lex' dt' hcon
        simp only [Option.some.injEq, Node.lit.injEq] at hcon
        obtain ⟨hlex, hdt⟩ := hcon
        subst hlex
        exact ⟨_, mem_graphAdd_self _ _⟩

lemma exifGpsBranch_facts (s : MState) (iri : String) (s' : MState)
    (h : exifGpsBranch s iri = .ok s') :
    s'._kv_dict_raw = dictRemove s._kv_dict_raw iri ∧
    s'._kv_dict_printconv = dictRemove s._kv_dict_printconv iri ∧
    s'._n_location_object_latlong_facet = s._n_location_object_latlong_facet ∧
    s'._n_location_object = s._n_location_object ∧
    s'._n_relationship_object_location = s._n_relationship_object_location ∧
    s'._n_raster_picture_facet.isSome = s._n_raster_picture_facet.isSome ∧
    (∀ k, edHasKey s' k
      = ((hasLitAt s._kv_dict_raw iri
          && decide (k = pyReplace iri iriExifGPSStem "")) || edHasKey s k)) ∧
    (∀ k, hasEntryKey s'.graph k = hasEntryKey s.graph k) ∧
    (∀ t, t ∈ s.graph → t ∈ s'.graph) ∧
    (TypeCountsInv s → TypeCountsInv s') ∧
    s'._n_exif_dictionary_object = s._n_exif_dictionary_object := by
  unfold exifGpsBranch at h
  rw [pop_eta] at h
  simp only [] at h
  cases hv : dictLookup s._kv_dict_raw iri with
  | none =>
    rw [hv] at h
    simp only [Except.ok.injEq] at h
    subst h
    exact ⟨rfl, rfl, rfl, rfl, rfl, rfl,
      fun k => by simp [hasLitAt, hv, edHasKey, pop_snd_ed],
      fun _ => rfl, fun _ ht => ht, id, rfl⟩
  | some v =>
    cases v with
    | uri u =>
      rw [hv] at h
      simp only [Except.ok.injEq] at h
      subst h
      exact ⟨rfl, rfl, rfl, rfl, rfl, rfl,
        fun k => by simp [hasLitAt, hv, edHasKey, pop_snd_ed],
        fun _ => rfl, fun _ ht => ht, id, rfl⟩
    | lit lex dt =>
      rw [hv] at h
      simp only [Except.ok.injEq] at h
      subst h
      rw [exif_dict_set_eq]
      refine ⟨rfl, rfl, rfl, rfl, rfl, rfl, ?_, fun _ => rfl, fun _ ht => ht,
        fun hi => hi, rfl⟩
      intro k
      have hset := edHasKey_exif_dict_set ((pop_n_exiftool_predicate s iri).2)
        (pyReplace iri iriExifGPSStem "") (.lit lex dt) k
      rw [exif_dict_set_eq] at hset
      rw [hset]
      simp [hasLitAt, hv, edHasKey, pop_snd_ed]

lemma exifImageHeightBranch_facts (s : MState) (iri : String) (s' : MState)
    (h : exifImageHeightBranch s iri = .ok s') :
    s'._kv_dict_raw = dictRemove s._kv_dict_raw iri ∧
    s'._kv_dict_printconv = dictRemove s._kv_dict_printconv iri ∧
    s'._n_location_object_latlong_facet = s._n_location_object_latlong_facet ∧
    s'._n_location_object = s._n_location_object ∧
    s'._n_relationship_object_location = s._n_relationship_object_location ∧
    s'._n_raster_picture_facet.isSome
      = (s._n_raster_picture_facet.isSome || hasLitAt s._kv_dict_raw iri) ∧
    (∀ k, edHasKey s' k
      = ((hasLitAt s._kv_dict_raw iri && decide (k = "Image Height"))
          || edHasKey s k)) ∧
    (∀ k, hasEntryKey s'.graph k = hasEntryKey s.graph k) ∧
    (∀ t, t ∈ s.graph → t ∈ s'.graph) ∧
    (TypeCountsInv s → TypeCountsInv s') ∧
    (∀ lex dt, dictLookup s._kv_dict_raw iri = some (.lit lex dt) →
      ∃ n, pyIntOfString lex = some n ∧
        ∃ f, Triple.mk (.uri f) (NS_UCO_OBSERVABLE "pictureHeight") (intLiteral n)
          ∈ s'.graph) ∧
    s'._n_exif_dictionary_object = s._n_exif_dictionary_object := by
  unfold exifImageHeightBranch at h
  rw [pop_eta] at h
  simp only [] at h
  cases hv : dictLookup s._kv_dict_raw iri with
  | none =>
    rw [hv] at h
    simp only [Except.ok.injEq] at h
    subst h
    exact ⟨rfl, rfl, rfl, rfl, rfl, by simp [hasLitAt, hv, pop_snd_rpf],
      fun k => by simp [hasLitAt, hv, edHasKey, pop_snd_ed],
      fun _ => rfl, fun _ ht => ht, id,
      fun lex dt hcon => absurd hcon (by simp), rfl⟩
  | some v =>
    cases v with
    | uri u =>
      rw [hv] at h
      simp only [Except.ok.injEq] at h
      subst h
      exact ⟨rfl, rfl, rfl, rfl, rfl, by simp [hasLitAt, hv, pop_snd_rpf],
        fun k => by simp [hasLitAt, hv, edHasKey, pop_snd_ed],
        fun _ => rfl, fun _ ht => ht, id,
        fun lex dt hcon => absurd hcon (by simp), rfl⟩
    | lit lex dt =>
      rw [hv] at h
      simp only [] at h
      obtain ⟨fn, s2, i, hX, hparse, hb⟩ := accParse_ok_inv h
      subst hb
      obtain ⟨f1, f2, f3, f4, f5, f6, f7, f8, f9, f10, f11⟩ :=
        n_raster_picture_facet_facts _ _ _ hX
      rw [exif_dict_set_eq] at f1 f2 f4 f5 f6 f8 f9 f10 f11
      refine ⟨f1, f2, f5, f6, f4, ?_, ?_, ?_, ?_, ?_, ?_, ?_⟩
      · simp [stAdd, f7, hasLitAt, hv]
      · intro k
        have hcg : edHasKey (stAdd s2 ⟨.uri fn, NS_UCO_OBSERVABLE "pictureHeight",
            intLiteral i⟩) k = edHasKey s2 k := edHasKey_congr rfl k
        rw [hcg, edHasKey_congr f3 k, edHasKey_exif_dict_set]
        simp [hasLitAt, hv, edHasKey, pop_snd_ed]
      · intro k
        exact (hasEntryKey_graphAdd_mk _ _ _ _ k (by decide)).trans (f10 k)
      · intro t htm
        exact mem_graphAdd_of_mem _ _ _ (f9 t htm)
      · intro hi
        exact TypeCountsInv_stAdd_nontype_mk _ _ _ _ (by decide) (f11 hi)
      · intro lex' dt' hcon
        simp only [Option.some.injEq, Node.lit.injEq] at hcon
        obtain ⟨hlex, hdt⟩ := hcon
        subst hlex
        exact ⟨i, hparse, _, mem_graphAdd_self _ _⟩
      · have hh2 := n_raster_picture_facet_edobj _ _ _ hX
        rw [exif_dict_set_eq] at hh2
        exact hh2

lemma fileSizeBranch_facts (s : MState) (iri : String) (s' : MState)
    (h : fileSizeBranch s iri = .ok s') :
    QuietFacts s s' iri ∧
    (∀ lex dt, dictLookup s._kv_dict_raw iri = some (.lit lex dt) →
      ∃ n, pyIntOfString lex = some n ∧
        ∃ f, Triple.mk (.uri f) (NS_UCO_OBSERVABLE "sizeInBytes") (intLiteral n)
          ∈ s'.graph) := by
  unfold fileSizeBranch at h
  rw [pop_eta] at h
  simp only [] at h
  cases hv : dictLookup s._kv_dict_raw iri with
  | none =>
    rw [hv] at h
    simp only [Except.ok.injEq] at h
    subst h
    exact ⟨pop_quiet s iri, fun lex dt hcon => absurd hcon (by simp)⟩
  | some v =>
    cases v with
    | uri u =>
      rw [hv] at h
      simp only [Except.ok.injEq] at h
      subst h
      exact ⟨pop_quiet s iri,
        fun lex dt hcon => absurd hcon (by simp)⟩
    | lit lex dt =>
      rw [hv] at h
      simp only [] at h
      obtain ⟨fn, s2, i, hX, hparse, hb⟩ := accParse_ok_inv h
      subst hb
      refine ⟨quiet_calm (pop_quiet s iri)
        (calm_comp (calm_of_cdataf hX) (calm_stAdd_mk _ _ _ _ (by decide) (by decide))),
        ?_⟩
      intro lex' dt' hcon
      simp only [Option.some.injEq, Node.lit.injEq] at hcon
      obtain ⟨hlex, hdt⟩ := hcon
      subst hlex
      exact ⟨i, hparse, _, mem_graphAdd_self _ _⟩

lemma exifImageWidthBranch_facts (s : MState) (iri : String) (s' : MState)
    (h : exifImageWidthBranch s iri = .ok s') :
    s'._kv_dict_raw = dictRemove s._kv_dict_raw iri ∧
    s'._kv_dict_printconv = dictRemove s._kv_dict_printconv iri ∧
    s'._n_location_object_latlong_facet = s._n_location_object_latlong_facet ∧
    s'._n_location_object = s._n_location_object ∧
    s'._n_relationship_object_location = s._n_relationship_object_location ∧
    s'._n_raster_picture_facet.isSome = s._n_raster_picture_facet.isSome ∧
    (∀ k, edHasKey s' k
      = ((hasLitAt s._kv_dict_raw iri && decide (k = "Image Width"))
          || edHasKey s k)) ∧
    (∀ k, hasEntryKey s'.graph k = hasEntryKey s.graph k) ∧
    (∀ t, t ∈ s.graph → t ∈ s'.graph) ∧
    (TypeCountsInv s → TypeCountsInv s') ∧
    (s._n_raster_picture_facet.isSome = true →
      ∀ lex dt, dictLookup s._kv_dict_raw iri = some (.lit lex dt) →
      ∃ n, pyIntOfString lex = some n ∧
        ∃ f, Triple.mk (.uri f) (NS_UCO_OBSERVABLE "pictureWidth") (intLiteral n)
          ∈ s'.graph) ∧
    s'._n_exif_dictionary_object = s._n_exif_dictionary_object := by
  unfold exifImageWidthBranch at h
  rw [pop_eta] at h
  simp only [] at h
  cases hv : dictLookup s._kv_dict_raw iri with
  | none =>
    rw [hv] at h
    simp only [Except.ok.injEq] at h
    subst h
    exact ⟨rfl, rfl, rfl, rfl, rfl, rfl,
      fun k => by simp [hasLitAt, hv, edHasKey, pop_snd_ed],
      fun _ => rfl, fun _ ht => ht, id,
      fun _ lex dt hcon => absurd hcon (by simp), rfl⟩
  | some v =>
    cases v with
    | uri u =>
      rw [hv] at h
      simp only [Except.ok.injEq] at h
      subst h
      exact ⟨rfl, rfl, rfl, rfl, rfl, rfl,
        fun k => by simp [hasLitAt, hv, edHasKey, pop_snd_ed],
        fun _ => rfl, fun _ ht => ht, id,
        fun _ lex dt hcon => absurd hcon (by simp), rfl⟩
    | lit lex dt =>
      rw [hv] at h
      simp only [] at h
      cases hrpf : ((exif_dict_set ((pop_n_exiftool_predicate s iri).2) "Image Width"
          (.lit lex dt))._n_raster_picture_facet) with
      | none =>
        rw [hrpf] at h
        simp only [Except.ok.injEq] at h
        subst h
        rw [exif_dict_set_eq] at hrpf ⊢
        refine ⟨rfl, rfl, rfl, rfl, rfl, rfl, ?_, fun _ => rfl, fun _ ht => ht,
          fun hi => hi, ?_, rfl⟩
        · intro k
          have hset := edHasKey_exif_dict_set ((pop_n_exiftool_predicate s iri).2)
            "Image Width" (.lit lex dt) k
          rw [exif_dict_set_eq] at hset
          rw [hset]
          simp [hasLitAt, hv, edHasKey, pop_snd_ed]
        · intro hsome
          exact absurd (show s._n_raster_picture_facet = none from hrpf)
            (by intro hc; rw [hc] at hsome; simp at hsome)
      | some rn =>
        rw [hrpf] at h
        simp only [] at h
        obtain ⟨fn, s2, i, hX, hparse, hb⟩ := accParse_ok_inv h
        subst hb
        obtain ⟨f1, f2, f3, f4, f5, f6, f7, f8, f9, f10, f11⟩ :=
          n_raster_picture_facet_facts _ _ _ hX
        rw [exif_dict_set_eq] at f1 f2 f4 f5 f6 f8 f9 f10 f11
        rw [exif_dict_set_eq] at hrpf
        refine ⟨f1, f2, f5, f6, f4, ?_, ?_, ?_, ?_, ?_, ?_, ?_⟩
        · have hs : s._n_raster_picture_facet = some rn := hrpf
          simp [stAdd, f7, hs]
        · intro k
          have hcg : edHasKey (stAdd s2 ⟨.uri fn, NS_UCO_OBSERVABLE "pictureWidth",
              intLiteral i⟩) k = edHasKey s2 k := edHasKey_congr rfl k
          rw [hcg, edHasKey_congr f3 k, edHasKey_exif_dict_set]
          simp [hasLitAt, hv, edHasKey, pop_snd_ed]
        · intro k
          exact (hasEntryKey_graphAdd_mk _ _ _ _ k (by decide)).trans (f10 k)
        · intro t htm
          exact mem_graphAdd_of_mem _ _ _ (f9 t htm)
        · intro hi
          exact TypeCountsInv_stAdd_nontype_mk _ _ _ _ (by decide) (f11 hi)
        · intro _ lex' dt' hcon
          simp only [Option.some.injEq, Node.lit.injEq] at hcon
          obtain ⟨hlex, hdt⟩ := hcon
          subst hlex
          exact ⟨i, hparse, _, mem_graphAdd_self _ _⟩
        · have hh2 := n_raster_picture_facet_edobj _ _ _ hX
          rw [exif_dict_set_eq] at hh2
          exact hh2

lemma hasLitAt_congr {d d' : List (String × Node)} {i : String}
    (h : dictLookup d i = dictLookup d' i) : hasLitAt d i = hasLitAt d' i := by
  unfold hasLitAt
  rw [h]

lemma exifGpsBranch_edlk (s : MState) (iri : String) (s' : MState)
    (h : exifGpsBranch s iri = .ok s') :
    (∀ lex dt, dictLookup s._kv_dict_raw iri = some (.lit lex dt) →
      edLookup s' (pyReplace iri iriExifGPSStem "") = some (.lit lex dt)) ∧
    (∀ k, k ≠ pyReplace iri iriExifGPSStem "" → edLookup s' k = edLookup s k) := by
  unfold exifGpsBranch at h
  rw [pop_eta] at h
  simp only [] at h
  cases hv : dictLookup s._kv_dict_raw iri with
  | none =>
    rw [hv] at h
    simp only [Except.ok.injEq] at h
    subst h
    exact ⟨fun lex dt hc => absurd hc (by simp),
      fun k _ => edLookup_congr (pop_snd_ed s iri) k⟩
  | some v =>
    cases v with
    | uri u =>
      rw [hv] at h
      simp only [Except.ok.injEq] at h
      subst h
      exact ⟨fun lex dt hc => absurd hc (by simp),
        fun k _ => edLookup_congr (pop_snd_ed s iri) k⟩
    | lit lex dt =>
      rw [hv] at h
      simp only [Except.ok.injEq] at h
      subst h
      constructor
      · intro lex' dt' hc
        have he : Node.lit lex dt = Node.lit lex' dt' := Option.some.inj hc
        rw [edLookup_exif_dict_set, if_pos rfl, he]
      · intro k hk
        rw [edLookup_exif_dict_set, if_neg hk]
        exact edLookup_congr (pop_snd_ed s iri) k

lemma exifImageHeightBranch_edlk (s : MState) (iri : String) (s' : MState)
    (h : exifImageHeightBranch s iri = .ok s') :
    ∀ k, k ≠ "Image Height" → edLookup s' k = edLookup s k := by
  unfold exifImageHeightBranch at h
  rw [pop_eta] at h
  simp only [] at h
  cases hv : dictLookup s._kv_dict_raw iri with
  | none =>
    rw [hv] at h
    simp only [Except.ok.injEq] at h
    subst h
    exact fun k _ => edLookup_congr (pop_snd_ed s iri) k
  | some v =>
    cases v with
    | uri u =>
      rw [hv] at h
      simp only [Except.ok.injEq] at h
      subst h
      exact fun k _ => edLookup_congr (pop_snd_ed s iri) k
    | lit lex dt =>
      rw [hv] at h
      simp only [] at h
      obtain ⟨fn, s2, i, hX, hparse, hb⟩ := accParse_ok_inv h
      subst hb
      intro k hk
      obtain ⟨f1, f2, f3, f4, f5, f6, f7, f8, f9, f10, f11⟩ :=
        n_raster_picture_facet_facts _ _ _ hX
      have h1 : edLookup (stAdd s2 ⟨.uri fn, NS_UCO_OBSERVABLE "pictureHeight",
          intLiteral i⟩) k = edLookup s2 k := edLookup_congr rfl k
      rw [h1, edLookup_congr f3 k, edLookup_exif_dict_set, if_neg hk]
      exact edLookup_congr (pop_snd_ed s iri) k

lemma exifImageWidthBranch_edlk (s : MState) (iri : String) (s' : MState)
    (h : exifImageWidthBranch s iri = .ok s') :
    ∀ k, k ≠ "Image Width" → edLookup s' k = edLookup s k := by
  unfold exifImageWidthBranch at h
  rw [pop_eta] at h
  simp only [] at h
  cases hv : dictLookup s._kv_dict_raw iri with
  | none =>
    rw [hv] at h
    simp only [Except.ok.injEq] at h
    subst h
    exact fun k _ => edLookup_congr (pop_snd_ed s iri) k
  | some v =>
    cases v with
    | uri u =>
      rw [hv] at h
      simp only [Except.ok.injEq] at h
      subst h
      exact fun k _ => edLookup_congr (pop_snd_ed s iri) k
    | lit lex dt =>
      rw [hv] at h
      simp only [] at h
      cases hrpf : ((exif_dict_set ((pop_n_exiftool_predicate s iri).2) "Image Width"
          (.lit lex dt))._n_raster_picture_facet) with
      | none =>
        rw [hrpf] at h
        simp only [Except.ok.injEq] at h
        subst h
        intro k hk
        rw [edLookup_exif_dict_set, if_neg hk]
        exact edLookup_congr (pop_snd_ed s iri) k
      | some rn =>
        rw [hrpf] at h
        simp only [] at h
        obtain ⟨fn, s2, i, hX, hparse, hb⟩ := accParse_ok_inv h
        subst hb
        intro k hk
        obtain ⟨f1, f2, f3, f4, f5, f6, f7, f8, f9, f10, f11⟩ :=
          n_raster_picture_facet_facts _ _ _ hX
        have h1 : edLookup (stAdd s2 ⟨.uri fn, NS_UCO_OBSERVABLE "pictureWidth",
            intLiteral i⟩) k = edLookup s2 k := edLookup_congr rfl k
        rw [h1, edLookup_congr f3 k, edLookup_exif_dict_set, if_neg hk]
        exact edLookup_congr (pop_snd_ed s iri) k

lemma foldInv_hll {sp : MState} {P : List String} {s : MState} (hfi : FoldInv sp P s) :
    s._n_location_object_latlong_facet.isSome = true →
      s._n_location_object.isSome = true := by
  intro hLs
  rw [hfi.loc_eq]
  rw [hfi.ll_eq] at hLs
  simp [hLs]

lemma append_singleton_decomp (P Q R : List String) (x y : String)
    (h : P ++ [x] = Q ++ y :: R) (hxy : x ≠ y) :
    ∃ S, R = S ++ [x] ∧ P = Q ++ y :: S := by
  rcases List.eq_nil_or_concat R with rfl | ⟨S, a, rfl⟩
  · obtain ⟨hPQ, hx⟩ := List.append_inj' h rfl
    injection hx with hx1 _
    exact absurd hx1 hxy
  · rw [List.concat_eq_append] at h
    rw [show Q ++ y :: (S ++ [a]) = (Q ++ y :: S) ++ [a] from by simp] at h
    obtain ⟨hPQ, hx⟩ := List.append_inj' h rfl
    injection hx with hx1 _
    subst hx1
    exact ⟨S, by rw [List.concat_eq_append], hPQ⟩

lemma append_singleton_self_decomp (P Q R : List String) (x : String)
    (h : P ++ [x] = Q ++ x :: R) (hx : x ∉ P) :
    Q = P ∧ R = [] := by
  rcases List.eq_nil_or_concat R with rfl | ⟨S, a, rfl⟩
  · obtain ⟨hPQ, _⟩ := List.append_inj' h rfl
    exact ⟨hPQ.symm, rfl⟩
  · rw [List.concat_eq_append] at h
    rw [show Q ++ x :: (S ++ [a]) = (Q ++ x :: S) ++ [a] from by simp] at h
    obtain ⟨hPQ, hx2⟩ := List.append_inj' h rfl
    injection hx2 with hx1 _
    subst hx1
    exact absurd (hPQ ▸ (by simp : x ∈ Q ++ x :: S)) hx

lemma FoldInv_extend_quiet (sp s s' : MState) (P : List String) (iri : String)
    (hq : QuietFacts s s' iri) (hfi : FoldInv sp P s)
    (hc : iri ∉ compCoordIris) (hpos : iri ≠ iriCompositeGPSPosition)
    (hh : iri ≠ iriExifImageHeight) (hw : iri ≠ iriExifImageWidth)
    (hs : iri ≠ iriFileSize) (hgps : iri ∉ exifGpsIris) :
    FoldInv sp (P ++ [iri]) s' := by
  refine ⟨?_, ?_, ?_, ?_, ?_, ?_, ?_, ?_, ?_, ?_, ?_, ?_, ?_, ?_, ?_, ?_, ?_, ?_, ?_⟩
  · intro i hi
    simp only [List.mem_append, List.mem_singleton, not_or] at hi
    rw [hq.q_raw, dictLookup_dictRemove_ne _ _ _ hi.2]
    exact hfi.raw_frozen i hi.1
  · intro i hi
    simp only [List.mem_append, List.mem_singleton, not_or] at hi
    rw [hq.q_pc, dictLookup_dictRemove_ne _ _ _ hi.2]
    exact hfi.pc_frozen i hi.1
  · rw [congrArg Option.isSome hq.q_ll, hfi.ll_eq]
    simp [List.any_append, coordLit, hc]
  · rw [congrArg Option.isSome hq.q_loc, hfi.loc_eq]
    simp [List.any_append, coordLit, posLit, hc, beq_eq_false_iff_ne.2 hpos]
  · exact hq.q_rel.trans hfi.rel_eq
  · rw [hq.q_rpf, hfi.rpf_eq]
    simp [List.any_append, heightLit, beq_eq_false_iff_ne.2 hh]
  · intro i hi
    have hne : i ≠ iri := fun he => hgps (he ▸ hi)
    rw [edHasKey_congr hq.q_ed _, hfi.ed_gps i hi]
    simp [List.mem_append, List.mem_singleton, hne]
  · rw [edHasKey_congr hq.q_ed _, hfi.ed_h]
    have hne : iriExifImageHeight ≠ iri := fun he => hh he.symm
    simp [List.mem_append, List.mem_singleton, hne]
  · rw [edHasKey_congr hq.q_ed _, hfi.ed_w]
    have hne : iriExifImageWidth ≠ iri := fun he => hw he.symm
    simp [List.mem_append, List.mem_singleton, hne]
  · exact hq.q_edobj.trans hfi.edobj_eq
  · exact hq.q_tinv hfi.tinv
  · intro k
    exact (hq.q_entry k).trans (hfi.entry_eq k)
  · intro t ht
    exact hq.q_mono t (hfi.mono t ht)
  · intro i hi hmem lex dt hlk
    rcases (List.mem_append.1 hi) with hiP | hione
    · obtain ⟨f, hf⟩ := hfi.coord_tri i hiP hmem lex dt hlk
      exact ⟨f, hq.q_mono _ hf⟩
    · rw [List.mem_singleton.1 hione] at hmem
      exact absurd hmem hc
  · intro hi lex dt hlk
    rcases (List.mem_append.1 hi) with hiP | hione
    · obtain ⟨n, hn, f, hf⟩ := hfi.height_tri hiP lex dt hlk
      exact ⟨n, hn, f, hq.q_mono _ hf⟩
    · exact absurd (List.mem_singleton.1 hione).symm hh
  · intro hi lex dt hlk
    rcases (List.mem_append.1 hi) with hiP | hione
    · obtain ⟨n, hn, f, hf⟩ := hfi.size_tri hiP lex dt hlk
      exact ⟨n, hn, f, hq.q_mono _ hf⟩
    · exact absurd (List.mem_singleton.1 hione).symm hs
  · intro Q R hdec hcond lex dt hlk
    obtain ⟨S, hR, hP⟩ := append_singleton_decomp P Q R iri iriExifImageWidth hdec hw
    obtain ⟨n, hn, f, hf⟩ := hfi.width_tri Q S hP hcond lex dt hlk
    exact ⟨n, hn, f, hq.q_mono _ hf⟩
  · intro i hi hiP lex dt hlk
    rcases List.mem_append.1 hiP with hiP2 | hione
    · rw [edLookup_congr hq.q_ed _]
      exact hfi.ed_gps_val i hi hiP2 lex dt hlk
    · have he : i = iri := List.mem_singleton.1 hione
      rw [he] at hi
      exact absurd hi hgps
  · intro k hk
    rw [edHasKey_congr hq.q_ed _] at hk
    exact hfi.ed_dom k hk

lemma foldStep_coord (sp s s' : MState) (P : List String) (iri : String)
    (hmem : iri ∈ compCoordIris) (hnew : iri ∉ P) (hfi : FoldInv sp P s)
    (hk : NS_UCO_LOCATION (coordProp iri) ≠ NS_UCO_TYPES "key")
    (ht : NS_UCO_LOCATION (coordProp iri) ≠ NS_RDF "type")
    (hpos : iri ≠ iriCompositeGPSPosition)
    (hh : iri ≠ iriExifImageHeight) (hw : iri ≠ iriExifImageWidth)
    (hs : iri ≠ iriFileSize) (hgps : iri ∉ exifGpsIris)
    (hb : compositeCoordBranch (coordProp iri) s iri = .ok s') :
    FoldInv sp (P ++ [iri]) s' := by
  obtain ⟨b1, b2, b3, b4, b5, b6, b7, b8, b9, b10, b11, b12⟩ :=
    compositeCoordBranch_facts (coordProp iri) s iri s' hk ht (foldInv_hll hfi) hb
  have hlit : hasLitAt s._kv_dict_raw iri = hasLitAt sp._kv_dict_raw iri :=
    hasLitAt_congr (hfi.raw_frozen iri hnew)
  refine ⟨?_, ?_, ?_, ?_, ?_, ?_, ?_, ?_, ?_, ?_, ?_, ?_, ?_, ?_, ?_, ?_, ?_, ?_, ?_⟩
  · intro i hi
    simp only [List.mem_append, List.mem_singleton, not_or] at hi
    rw [b1, dictLookup_dictRemove_ne _ _ _ hi.2]
    exact hfi.raw_frozen i hi.1
  · intro i hi
    simp only [List.mem_append, List.mem_singleton, not_or] at hi
    rw [b2, dictLookup_dictRemove_ne _ _ _ hi.2]
    exact hfi.pc_frozen i hi.1
  · rw [b3, hfi.ll_eq, hlit]
    simp [List.any_append, coordLit, hmem]
  · rw [b4, hfi.loc_eq, hlit]
    simp only [List.any_append, List.any_cons, List.any_nil]
    have hp : posLit sp iri = false := by
      simp [posLit, beq_eq_false_iff_ne.2 hpos]
    have hcl : coordLit sp iri = hasLitAt sp._kv_dict_raw iri := by
      simp [coordLit, hmem]
    rw [hp, hcl]
    simp [Bool.or_assoc, Bool.or_comm, Bool.or_left_comm]
  · exact b5.trans hfi.rel_eq
  · rw [b6, hfi.rpf_eq]
    simp [List.any_append, heightLit, beq_eq_false_iff_ne.2 hh]
  · intro i hi
    have hne : i ≠ iri := fun he => hgps (he ▸ hi)
    rw [edHasKey_congr b7 _, hfi.ed_gps i hi]
    simp [List.mem_append, List.mem_singleton, hne]
  · rw [edHasKey_congr b7 _, hfi.ed_h]
    have hne : iriExifImageHeight ≠ iri := fun he => hh he.symm
    simp [List.mem_append, List.mem_singleton, hne]
  · rw [edHasKey_congr b7 _, hfi.ed_w]
    have hne : iriExifImageWidth ≠ iri := fun he => hw he.symm
    simp [List.mem_append, List.mem_singleton, hne]
  · exact b12.trans hfi.edobj_eq
  · exact b10 hfi.tinv
  · intro k
    exact (b8 k).trans (hfi.entry_eq k)
  · intro t htm
    exact b9 t (hfi.mono t htm)
  · intro i hi hmem' lex dt hlk
    rcases (List.mem_append.1 hi) with hiP | hione
    · obtain ⟨f, hf⟩ := hfi.coord_tri i hiP hmem' lex dt hlk
      exact ⟨f, b9 _ hf⟩
    · have hieq : i = iri := List.mem_singleton.1 hione
      subst hieq
      have hlk' : dictLookup s._kv_dict_raw i = some (.lit lex dt) :=
        (hfi.raw_frozen i hnew).trans hlk
      exact b11 lex dt hlk'
  · intro hi lex dt hlk
    rcases (List.mem_append.1 hi) with hiP | hione
    · obtain ⟨n, hn, f, hf⟩ := hfi.height_tri hiP lex dt hlk
      exact ⟨n, hn, f, b9 _ hf⟩
    · exact absurd (List.mem_singleton.1 hione).symm hh
  · intro hi lex dt hlk
    rcases (List.mem_append.1 hi) with hiP | hione
    · obtain ⟨n, hn, f, hf⟩ := hfi.size_tri hiP lex dt hlk
      exact ⟨n, hn, f, b9 _ hf⟩
    · exact absurd (List.mem_singleton.1 hione).symm hs
  · intro Q R hdec hcond lex dt hlk
    obtain ⟨S, hR, hP⟩ := append_singleton_decomp P Q R iri iriExifImageWidth hdec hw
    obtain ⟨n, hn, f, hf⟩ := hfi.width_tri Q S hP hcond lex dt hlk
    exact ⟨n, hn, f, b9 _ hf⟩
  · intro i hi hiP lex dt hlk
    rcases List.mem_append.1 hiP with hiP2 | hione
    · rw [edLookup_congr b7 _]
      exact hfi.ed_gps_val i hi hiP2 lex dt hlk
    · have he : i = iri := List.mem_singleton.1 hione
      rw [he] at hi
      exact absurd hi hgps
  · intro k hk
    rw [edHasKey_congr b7 _] at hk
    exact hfi.ed_dom k hk

lemma foldStep_pos (sp s s' : MState) (P : List String)
    (hnew : iriCompositeGPSPosition ∉ P) (hfi : FoldInv sp P s)
    (hb : gpsPositionBranch s iriCompositeGPSPosition = .ok s') :
    FoldInv sp (P ++ [iriCompositeGPSPosition]) s' := by
  obtain ⟨b1, b2, b3, b4, b5, b6, b7, b8, b9, b10, b11⟩ :=
    gpsPositionBranch_facts s iriCompositeGPSPosition s' hb
  have hlit : hasLitAt s._kv_dict_printconv iriCompositeGPSPosition
      = hasLitAt sp._kv_dict_printconv iriCompositeGPSPosition :=
    hasLitAt_congr (hfi.pc_frozen _ hnew)
  refine ⟨?_, ?_, ?_, ?_, ?_, ?_, ?_, ?_, ?_, ?_, ?_, ?_, ?_, ?_, ?_, ?_, ?_, ?_, ?_⟩
  · intro i hi
    simp only [List.mem_append, List.mem_singleton, not_or] at hi
    rw [b1, dictLookup_dictRemove_ne _ _ _ hi.2]
    exact hfi.raw_frozen i hi.1
  · intro i hi
    simp only [List.mem_append, List.mem_singleton, not_or] at hi
    rw [b2, dictLookup_dictRemove_ne _ _ _ hi.2]
    exact hfi.pc_frozen i hi.1
  · rw [congrArg Option.isSome b3, hfi.ll_eq]
    have hcd : coordLit sp iriCompositeGPSPosition = false := by
      simp [coordLit, compCoordIris, iriCompositeGPSAltitude, iriCompositeGPSLatitude,
        iriCompositeGPSLongitude, iriCompositeGPSPosition]
    simp [List.any_append, hcd]
  · rw [b4, hfi.loc_eq, hlit]
    have hcd : coordLit sp iriCompositeGPSPosition = false := by
      simp [coordLit, compCoordIris, iriCompositeGPSAltitude, iriCompositeGPSLatitude,
        iriCompositeGPSLongitude, iriCompositeGPSPosition]
    have hpl : posLit sp iriCompositeGPSPosition
        = hasLitAt sp._kv_dict_printconv iriCompositeGPSPosition := by
      simp [posLit]
    simp [List.any_append, hcd, hpl, Bool.or_assoc, Bool.or_comm, Bool.or_left_comm]
  · exact b5.trans hfi.rel_eq
  · rw [b6, hfi.rpf_eq]
    have hhl : heightLit sp iriCompositeGPSPosition = false := by
      simp [heightLit, iriCompositeGPSPosition, iriExifImageHeight]
    simp [List.any_append, hhl]
  · intro i hi
    have hne : i ≠ iriCompositeGPSPosition := by
      intro he
      subst he
      exact absurd hi (by decide)
    rw [edHasKey_congr b7 _, hfi.ed_gps i hi]
    simp [List.mem_append, List.mem_singleton, hne]
  · rw [edHasKey_congr b7 _, hfi.ed_h]
    simp [List.mem_append, List.mem_singleton,
      (by decide : iriExifImageHeight ≠ iriCompositeGPSPosition)]
  · rw [edHasKey_congr b7 _, hfi.ed_w]
    simp [List.mem_append, List.mem_singleton,
      (by decide : iriExifImageWidth ≠ iriCompositeGPSPosition)]
  · exact b11.trans hfi.edobj_eq
  · exact b10 hfi.tinv
  · intro k
    exact (b8 k).trans (hfi.entry_eq k)
  · intro t htm
    exact b9 t (hfi.mono t htm)
  · intro i hi hmem' lex dt hlk
    rcases (List.mem_append.1 hi) with hiP | hione
    · obtain ⟨f, hf⟩ := hfi.coord_tri i hiP hmem' lex dt hlk
      exact ⟨f, b9 _ hf⟩
    · rw [List.mem_singleton.1 hione] at hmem'
      exact absurd hmem' (by decide)
  · intro hi lex dt hlk
    rcases (List.mem_append.1 hi) with hiP | hione
    · obtain ⟨n, hn, f, hf⟩ := hfi.height_tri hiP lex dt hlk
      exact ⟨n, hn, f, b9 _ hf⟩
    · exact absurd (List.mem_singleton.1 hione) (by decide)
  · intro hi lex dt hlk
    rcases (List.mem_append.1 hi) with hiP | hione
    · obtain ⟨n, hn, f, hf⟩ := hfi.size_tri hiP lex dt hlk
      exact ⟨n, hn, f, b9 _ hf⟩
    · exact absurd (List.mem_singleton.1 hione) (by decide)
  · intro Q R hdec hcond lex dt hlk
    obtain ⟨S, hR, hP⟩ := append_singleton_decomp P Q R iriCompositeGPSPosition
      iriExifImageWidth hdec (by decide)
    obtain ⟨n, hn, f, hf⟩ := hfi.width_tri Q S hP hcond lex dt hlk
    exact ⟨n, hn, f, b9 _ hf⟩
  · intro i hi hiP lex dt hlk
    rcases List.mem_append.1 hiP with hiP2 | hione
    · rw [edLookup_congr b7 _]
      exact hfi.ed_gps_val i hi hiP2 lex dt hlk
    · have he : i = iriCompositeGPSPosition := List.mem_singleton.1 hione
      rw [he] at hi
      exact absurd hi (by decide)
  · intro k hk
    rw [edHasKey_congr b7 _] at hk
    exact hfi.ed_dom k hk

lemma foldStep_gps (sp s s' : MState) (P : List String) (iri : String)
    (hmem : iri ∈ exifGpsIris) (hnew : iri ∉ P) (hfi : FoldInv sp P s)
    (hc : iri ∉ compCoordIris) (hpos : iri ≠ iriCompositeGPSPosition)
    (hh : iri ≠ iriExifImageHeight) (hw : iri ≠ iriExifImageWidth)
    (hs : iri ≠ iriFileSize)
    (hinj : ∀ j ∈ exifGpsIris, j ≠ iri →
      pyReplace j iriExifGPSStem "" ≠ pyReplace iri iriExifGPSStem "")
    (hsh : pyReplace iri iriExifGPSStem "" ≠ "Image Height")
    (hsw : pyReplace iri iriExifGPSStem "" ≠ "Image Width")
    (hb : exifGpsBranch s iri = .ok s') :
    FoldInv sp (P ++ [iri]) s' := by
  obtain ⟨b1, b2, b3, b4, b5, b6, b7, b8, b9, b10, b11⟩ := exifGpsBranch_facts s iri s' hb
  have hlit : hasLitAt s._kv_dict_raw iri = hasLitAt sp._kv_dict_raw iri :=
    hasLitAt_congr (hfi.raw_frozen iri hnew)
  refine ⟨?_, ?_, ?_, ?_, ?_, ?_, ?_, ?_, ?_, ?_, ?_, ?_, ?_, ?_, ?_, ?_, ?_, ?_, ?_⟩
  · intro i hi
    simp only [List.mem_append, List.mem_singleton, not_or] at hi
    rw [b1, dictLookup_dictRemove_ne _ _ _ hi.2]
    exact hfi.raw_frozen i hi.1
  · intro i hi
    simp only [List.mem_append, List.mem_singleton, not_or] at hi
    rw [b2, dictLookup_dictRemove_ne _ _ _ hi.2]
    exact hfi.pc_frozen i hi.1
  · rw [congrArg Option.isSome b3, hfi.ll_eq]
    simp [List.any_append, coordLit, hc]
  · rw [congrArg Option.isSome b4, hfi.loc_eq]
    simp [List.any_append, coordLit, posLit, hc, beq_eq_false_iff_ne.2 hpos]
  · exact b5.trans hfi.rel_eq
  · rw [b6, hfi.rpf_eq]
    simp [List.any_append, heightLit, beq_eq_false_iff_ne.2 hh]
  · intro i hi
    rw [b7 _, hfi.ed_gps i hi, hlit]
    by_cases hii : i = iri
    · subst hii
      have hPf : decide (i ∈ P) = false := decide_eq_false hnew
      have hPt : decide (i ∈ P ++ [i]) = true := by
        simp [List.mem_append]
      rw [hPf, hPt]
      simp
    · have hstr : decide (pyReplace i iriExifGPSStem ""
          = pyReplace iri iriExifGPSStem "") = false :=
        decide_eq_false (hinj i hi hii)
      rw [hstr]
      simp [List.mem_append, List.mem_singleton, hii]
  · rw [b7 _, hfi.ed_h]
    have hstr : decide (("Image Height" : String)
        = pyReplace iri iriExifGPSStem "") = false :=
      decide_eq_false (fun hcon => hsh hcon.symm)
    rw [hstr]
    have hne : iriExifImageHeight ≠ iri := fun he => hh he.symm
    simp [List.mem_append, List.mem_singleton, hne]
  · rw [b7 _, hfi.ed_w]
    have hstr : decide (("Image Width" : String)
        = pyReplace iri iriExifGPSStem "") = false :=
      decide_eq_false (fun hcon => hsw hcon.symm)
    rw [hstr]
    have hne : iriExifImageWidth ≠ iri := fun he => hw he.symm
    simp [List.mem_append, List.mem_singleton, hne]
  · exact b11.trans hfi.edobj_eq
  · exact b10 hfi.tinv
  · intro k
    exact (b8 k).trans (hfi.entry_eq k)
  · intro t htm
    exact b9 t (hfi.mono t htm)
  · intro i hi hmem' lex dt hlk
    rcases (List.mem_append.1 hi) with hiP | hione
    · obtain ⟨f, hf⟩ := hfi.coord_tri i hiP hmem' lex dt hlk
      exact ⟨f, b9 _ hf⟩
    · rw [List.mem_singleton.1 hione] at hmem'
      exact absurd hmem' hc
  · intro hi lex dt hlk
    rcases (List.mem_append.1 hi) with hiP | hione
    · obtain ⟨n, hn, f, hf⟩ := hfi.height_tri hiP lex dt hlk
      exact ⟨n, hn, f, b9 _ hf⟩
    · exact absurd (List.mem_singleton.1 hione).symm hh
  · intro hi lex dt hlk
    rcases (List.mem_append.1 hi) with hiP | hione
    · obtain ⟨n, hn, f, hf⟩ := hfi.size_tri hiP lex dt hlk
      exact ⟨n, hn, f, b9 _ hf⟩
    · exact absurd (List.mem_singleton.1 hione).symm hs
  · intro Q R hdec hcond lex dt hlk
    obtain ⟨S, hR, hP⟩ := append_singleton_decomp P Q R iri iriExifImageWidth hdec hw
    obtain ⟨n, hn, f, hf⟩ := hfi.width_tri Q S hP hcond lex dt hlk
    exact ⟨n, hn, f, b9 _ hf⟩
  · intro i hi hiP lex dt hlk
    obtain ⟨hset, hother⟩ := exifGpsBranch_edlk s iri s' hb
    rcases List.mem_append.1 hiP with hiP2 | hione
    · have hne : i ≠ iri := fun he => hnew (he ▸ hiP2)
      rw [hother _ (hinj i hi hne)]
      exact hfi.ed_gps_val i hi hiP2 lex dt hlk
    · have he : i = iri := List.mem_singleton.1 hione
      rw [he] at hlk ⊢
      have hlk2 : dictLookup s._kv_dict_raw iri = some (.lit lex dt) :=
        (hfi.raw_frozen iri hnew).trans hlk
      exact hset lex dt hlk2
  · intro k hk
    rw [b7 k] at hk
    simp only [Bool.or_eq_true, Bool.and_eq_true, decide_eq_true_eq] at hk
    rcases hk with ⟨h1a, h1b⟩ | h2
    · exact Or.inl ⟨iri, hmem, h1b⟩
    · exact hfi.ed_dom k h2

lemma foldStep_height (sp s s' : MState) (P : List String)
    (hnew : iriExifImageHeight ∉ P) (hfi : FoldInv sp P s)
    (hb : exifImageHeightBranch s iriExifImageHeight = .ok s') :
    FoldInv sp (P ++ [iriExifImageHeight]) s' := by
  obtain ⟨b1, b2, b3, b4, b5, b6, b7, b8, b9, b10, b11, b12⟩ :=
    exifImageHeightBranch_facts s iriExifImageHeight s' hb
  have hlit : hasLitAt s._kv_dict_raw iriExifImageHeight
      = hasLitAt sp._kv_dict_raw iriExifImageHeight :=
    hasLitAt_congr (hfi.raw_frozen _ hnew)
  refine ⟨?_, ?_, ?_, ?_, ?_, ?_, ?_, ?_, ?_, ?_, ?_, ?_, ?_, ?_, ?_, ?_, ?_, ?_, ?_⟩
  · intro i hi
    simp only [List.mem_append, List.mem_singleton, not_or] at hi
    rw [b1, dictLookup_dictRemove_ne _ _ _ hi.2]
    exact hfi.raw_frozen i hi.1
  · intro i hi
    simp only [List.mem_append, List.mem_singleton, not_or] at hi
    rw [b2, dictLookup_dictRemove_ne _ _ _ hi.2]
    exact hfi.pc_frozen i hi.1
  · rw [congrArg Option.isSome b3, hfi.ll_eq]
    have hcd : coordLit sp iriExifImageHeight = false := by
      simp [coordLit, compCoordIris, iriCompositeGPSAltitude, iriCompositeGPSLatitude,
        iriCompositeGPSLongitude, iriExifImageHeight]
    simp [List.any_append, hcd]
  · rw [congrArg Option.isSome b4, hfi.loc_eq]
    have hcd : coordLit sp iriExifImageHeight = false := by
      simp [coordLit, compCoordIris, iriCompositeGPSAltitude, iriCompositeGPSLatitude,
        iriCompositeGPSLongitude, iriExifImageHeight]
    have hpl : posLit sp iriExifImageHeight = false := by
      simp [posLit, (by decide : iriExifImageHeight ≠ iriCompositeGPSPosition)]
    simp [List.any_append, hcd, hpl]
  · exact b5.trans hfi.rel_eq
  · rw [b6, hfi.rpf_eq, hlit]
    have hhl : heightLit sp iriExifImageHeight
        = hasLitAt sp._kv_dict_raw iriExifImageHeight := by
      simp [heightLit]
    simp [List.any_append, hhl, Bool.or_assoc, Bool.or_comm, Bool.or_left_comm]
  · intro i hi
    have hne : i ≠ iriExifImageHeight := by
      intro he
      subst he
      exact absurd hi (by decide)
    have hall : ∀ j ∈ exifGpsIris,
        decide (pyReplace j iriExifGPSStem "" = ("Image Height" : String)) = false := by
      decide
    have hstr := hall i hi
    rw [b7 _, hfi.ed_gps i hi, hstr]
    simp [List.mem_append, List.mem_singleton, hne]
  · rw [b7 _, hfi.ed_h, hlit]
    have hPf : decide (iriExifImageHeight ∈ P) = false := decide_eq_false hnew
    have hPt : decide (iriExifImageHeight ∈ P ++ [iriExifImageHeight]) = true := by
      simp [List.mem_append]
    rw [hPf, hPt]
    simp
  · rw [b7 _, hfi.ed_w]
    have hstr : decide (("Image Width" : String) = "Image Height") = false := by decide
    rw [hstr]
    simp [List.mem_append, List.mem_singleton,
      (by decide : iriExifImageWidth ≠ iriExifImageHeight)]
  · exact b12.trans hfi.edobj_eq
  · exact b10 hfi.tinv
  · intro k
    exact (b8 k).trans (hfi.entry_eq k)
  · intro t htm
    exact b9 t (hfi.mono t htm)
  · intro i hi hmem' lex dt hlk
    rcases (List.mem_append.1 hi) with hiP | hione
    · obtain ⟨f, hf⟩ := hfi.coord_tri i hiP hmem' lex dt hlk
      exact ⟨f, b9 _ hf⟩
    · rw [List.mem_singleton.1 hione] at hmem'
      exact absurd hmem' (by decide)
  · intro hi lex dt hlk
    rcases (List.mem_append.1 hi) with hiP | hione
    · obtain ⟨n, hn, f, hf⟩ := hfi.height_tri hiP lex dt hlk
      exact ⟨n, hn, f, b9 _ hf⟩
    · have hlk' : dictLookup s._kv_dict_raw iriExifImageHeight = some (.lit lex dt) :=
        (hfi.raw_frozen _ hnew).trans hlk
      exact b11 lex dt hlk'
  · intro hi lex dt hlk
    rcases (List.mem_append.1 hi) with hiP | hione
    · obtain ⟨n, hn, f, hf⟩ := hfi.size_tri hiP lex dt hlk
      exact ⟨n, hn, f, b9 _ hf⟩
    · exact absurd (List.mem_singleton.1 hione) (by decide)
  · intro Q R hdec hcond lex dt hlk
    obtain ⟨S, hR, hP⟩ := append_singleton_decomp P Q R iriExifImageHeight
      iriExifImageWidth hdec (by decide)
    obtain ⟨n, hn, f, hf⟩ := hfi.width_tri Q S hP hcond lex dt hlk
    exact ⟨n, hn, f, b9 _ hf⟩
  · intro i hi hiP lex dt hlk
    have hother := exifImageHeightBranch_edlk s iriExifImageHeight s' hb
    rcases List.mem_append.1 hiP with hiP2 | hione
    · have hnh : ∀ j ∈ exifGpsIris,
          pyReplace j iriExifGPSStem "" ≠ ("Image Height" : String) := by decide
      rw [hother _ (hnh i hi)]
      exact hfi.ed_gps_val i hi hiP2 lex dt hlk
    · have he : i = iriExifImageHeight := List.mem_singleton.1 hione
      rw [he] at hi
      exact absurd hi (by decide)
  · intro k hk
    rw [b7 k] at hk
    simp only [Bool.or_eq_true, Bool.and_eq_true, decide_eq_true_eq] at hk
    rcases hk with ⟨h1a, h1b⟩ | h2
    · exact Or.inr (Or.inl h1b)
    · exact hfi.ed_dom k h2

lemma foldStep_width (sp s s' : MState) (P : List String)
    (hnew : iriExifImageWidth ∉ P) (hfi : FoldInv sp P s)
    (hb : exifImageWidthBranch s iriExifImageWidth = .ok s') :
    FoldInv sp (P ++ [iriExifImageWidth]) s' := by
  obtain ⟨b1, b2, b3, b4, b5, b6, b7, b8, b9, b10, b11, b12⟩ :=
    exifImageWidthBranch_facts s iriExifImageWidth s' hb
  have hlit : hasLitAt s._kv_dict_raw iriExifImageWidth
      = hasLitAt sp._kv_dict_raw iriExifImageWidth :=
    hasLitAt_congr (hfi.raw_frozen _ hnew)
  refine ⟨?_, ?_, ?_, ?_, ?_, ?_, ?_, ?_, ?_, ?_, ?_, ?_, ?_, ?_, ?_, ?_, ?_, ?_, ?_⟩
  · intro i hi
    simp only [List.mem_append, List.mem_singleton, not_or] at hi
    rw [b1, dictLookup_dictRemove_ne _ _ _ hi.2]
    exact hfi.raw_frozen i hi.1
  · intro i hi
    simp only [List.mem_append, List.mem_singleton, not_or] at hi
    rw [b2, dictLookup_dictRemove_ne _ _ _ hi.2]
    exact hfi.pc_frozen i hi.1
  · rw [congrArg Option.isSome b3, hfi.ll_eq]
    have hcd : coordLit sp iriExifImageWidth = false := by
      simp [coordLit, compCoordIris, iriCompositeGPSAltitude, iriCompositeGPSLatitude,
        iriCompositeGPSLongitude, iriExifImageWidth]
    simp [List.any_append, hcd]
  · rw [congrArg Option.isSome b4, hfi.loc_eq]
    have hcd : coordLit sp iriExifImageWidth = false := by
      simp [coordLit, compCoordIris, iriCompositeGPSAltitude, iriCompositeGPSLatitude,
        iriCompositeGPSLongitude, iriExifImageWidth]
    have hpl : posLit sp iriExifImageWidth = false := by
      simp [posLit, (by decide : iriExifImageWidth ≠ iriCompositeGPSPosition)]
    simp [List.any_append, hcd, hpl]
  · exact b5.trans hfi.rel_eq
  · rw [b6, hfi.rpf_eq]
    have hhl : heightLit sp iriExifImageWidth = false := by
      simp [heightLit, (by decide : iriExifImageWidth ≠ iriExifImageHeight)]
    simp [List.any_append, hhl]
  · intro i hi
    have hne : i ≠ iriExifImageWidth := by
      intro he
      subst he
      exact absurd hi (by decide)
    have hall : ∀ j ∈ exifGpsIris,
        decide (pyReplace j iriExifGPSStem "" = ("Image Width" : String)) = false := by
      decide
    have hstr := hall i hi
    rw [b7 _, hfi.ed_gps i hi, hstr]
    simp [List.mem_append, List.mem_singleton, hne]
  · rw [b7 _, hfi.ed_h]
    have hstr : decide (("Image Height" : String) = "Image Width") = false := by decide
    rw [hstr]
    simp [List.mem_append, List.mem_singleton,
      (by decide : iriExifImageHeight ≠ iriExifImageWidth)]
  · rw [b7 _, hfi.ed_w, hlit]
    have hPf : decide (iriExifImageWidth ∈ P) = false := decide_eq_false hnew
    have hPt : decide (iriExifImageWidth ∈ P ++ [iriExifImageWidth]) = true := by
      simp [List.mem_append]
    rw [hPf, hPt]
    simp
  · exact b12.trans hfi.edobj_eq
  · exact b10 hfi.tinv
  · intro k
    exact (b8 k).trans (hfi.entry_eq k)
  · intro t htm
    exact b9 t (hfi.mono t htm)
  · intro i hi hmem' lex dt hlk
    rcases (List.mem_append.1 hi) with hiP | hione
    · obtain ⟨f, hf⟩ := hfi.coord_tri i hiP hmem' lex dt hlk
      exact ⟨f, b9 _ hf⟩
    · rw [List.mem_singleton.1 hione] at hmem'
      exact absurd hmem' (by decide)
  · intro hi lex dt hlk
    rcases (List.mem_append.1 hi) with hiP | hione
    · obtain ⟨n, hn, f, hf⟩ := hfi.height_tri hiP lex dt hlk
      exact ⟨n, hn, f, b9 _ hf⟩
    · exact absurd (List.mem_singleton.1 hione) (by decide)
  · intro hi lex dt hlk
    rcases (List.mem_append.1 hi) with hiP | hione
    · obtain ⟨n, hn, f, hf⟩ := hfi.size_tri hiP lex dt hlk
      exact ⟨n, hn, f, b9 _ hf⟩
    · exact absurd (List.mem_singleton.1 hione) (by decide)
  · intro Q R hdec hcond lex dt hlk
    obtain ⟨hQ, hR⟩ := append_singleton_self_decomp P Q R iriExifImageWidth hdec hnew
    subst hQ
    have hrs : s._n_raster_picture_facet.isSome = true := by
      rw [hfi.rpf_eq]
      exact hcond
    have hlk' : dictLookup s._kv_dict_raw iriExifImageWidth = some (.lit lex dt) :=
      (hfi.raw_frozen _ hnew).trans hlk
    exact b11 hrs lex dt hlk'
  · intro i hi hiP lex dt hlk
    have hother := exifImageWidthBranch_edlk s iriExifImageWidth s' hb
    rcases List.mem_append.1 hiP with hiP2 | hione
    · have hnw : ∀ j ∈ exifGpsIris,
          pyReplace j iriExifGPSStem "" ≠ ("Image Width" : String) := by decide
      rw [hother _ (hnw i hi)]
      exact hfi.ed_gps_val i hi hiP2 lex dt hlk
    · have he : i = iriExifImageWidth := List.mem_singleton.1 hione
      rw [he] at hi
      exact absurd hi (by decide)
  · intro k hk
    rw [b7 k] at hk
    simp only [Bool.or_eq_true, Bool.and_eq_true, decide_eq_true_eq] at hk
    rcases hk with ⟨h1a, h1b⟩ | h2
    · exact Or.inr (Or.inr h1b)
    · exact hfi.ed_dom k h2

lemma foldStep_size (sp s s' : MState) (P : List String)
    (hnew : iriFileSize ∉ P) (hfi : FoldInv sp P s)
    (hb : fileSizeBranch s iriFileSize = .ok s') :
    FoldInv sp (P ++ [iriFileSize]) s' := by
  obtain ⟨hq, b11⟩ := fileSizeBranch_facts s iriFileSize s' hb
  refine ⟨?_, ?_, ?_, ?_, ?_, ?_, ?_, ?_, ?_, ?_, ?_, ?_, ?_, ?_, ?_, ?_, ?_, ?_, ?_⟩
  · intro i hi
    simp only [List.mem_append, List.mem_singleton, not_or] at hi
    rw [hq.q_raw, dictLookup_dictRemove_ne _ _ _ hi.2]
    exact hfi.raw_frozen i hi.1
  · intro i hi
    simp only [List.mem_append, List.mem_singleton, not_or] at hi
    rw [hq.q_pc, dictLookup_dictRemove_ne _ _ _ hi.2]
    exact hfi.pc_frozen i hi.1
  · rw [congrArg Option.isSome hq.q_ll, hfi.ll_eq]
    have hcd : coordLit sp iriFileSize = false := by
      simp [coordLit, compCoordIris, iriCompositeGPSAltitude, iriCompositeGPSLatitude,
        iriCompositeGPSLongitude, iriFileSize]
    simp [List.any_append, hcd]
  · rw [congrArg Option.isSome hq.q_loc, hfi.loc_eq]
    have hcd : coordLit sp iriFileSize = false := by
      simp [coordLit, compCoordIris, iriCompositeGPSAltitude, iriCompositeGPSLatitude,
        iriCompositeGPSLongitude, iriFileSize]
    have hpl : posLit sp iriFileSize = false := by
      simp [posLit, (by decide : iriFileSize ≠ iriCompositeGPSPosition)]
    simp [List.any_append, hcd, hpl]
  · exact hq.q_rel.trans hfi.rel_eq
  · rw [hq.q_rpf, hfi.rpf_eq]
    have hhl : heightLit sp iriFileSize = false := by
      simp [heightLit, (by decide : iriFileSize ≠ iriExifImageHeight)]
    simp [List.any_append, hhl]
  · intro i hi
    have hne : i ≠ iriFileSize := by
      intro he
      subst he
      exact absurd hi (by decide)
    rw [edHasKey_congr hq.q_ed _, hfi.ed_gps i hi]
    simp [List.mem_append, List.mem_singleton, hne]
  · rw [edHasKey_congr hq.q_ed _, hfi.ed_h]
    simp [List.mem_append, List.mem_singleton,
      (by decide : iriExifImageHeight ≠ iriFileSize)]
  · rw [edHasKey_congr hq.q_ed _, hfi.ed_w]
    simp [List.mem_append, List.mem_singleton,
      (by decide : iriExifImageWidth ≠ iriFileSize)]
  · exact hq.q_edobj.trans hfi.edobj_eq
  · exact hq.q_tinv hfi.tinv
  · intro k
    exact (hq.q_entry k).trans (hfi.entry_eq k)
  · intro t htm
    exact hq.q_mono t (hfi.mono t htm)
  · intro i hi hmem' lex dt hlk
    rcases (List.mem_append.1 hi) with hiP | hione
    · obtain ⟨f, hf⟩ := hfi.coord_tri i hiP hmem' lex dt hlk
      exact ⟨f, hq.q_mono _ hf⟩
    · rw [List.mem_singleton.1 hione] at hmem'
      exact absurd hmem' (by decide)
  · intro hi lex dt hlk
    rcases (List.mem_append.1 hi) with hiP | hione
    · obtain ⟨n, hn, f, hf⟩ := hfi.height_tri hiP lex dt hlk
      exact ⟨n, hn, f, hq.q_mono _ hf⟩
    · exact absurd (List.mem_singleton.1 hione) (by decide)
  · intro hi lex dt hlk
    rcases (List.mem_append.1 hi) with hiP | hione
    · obtain ⟨n, hn, f, hf⟩ := hfi.size_tri hiP lex dt hlk
      exact ⟨n, hn, f, hq.q_mono _ hf⟩
    · have hlk' : dictLookup s._kv_dict_raw iriFileSize = some (.lit lex dt) :=
        (hfi.raw_frozen _ hnew).trans hlk
      exact b11 lex dt hlk'
  · intro Q R hdec hcond lex dt hlk
    obtain ⟨S, hR, hP⟩ := append_singleton_decomp P Q R iriFileSize
      iriExifImageWidth hdec (by decide)
    obtain ⟨n, hn, f, hf⟩ := hfi.width_tri Q S hP hcond lex dt hlk
    exact ⟨n, hn, f, hq.q_mono _ hf⟩
  · intro i hi hiP lex dt hlk
    rcases List.mem_append.1 hiP with hiP2 | hione
    · rw [edLookup_congr hq.q_ed _]
      exact hfi.ed_gps_val i hi hiP2 lex dt hlk
    · have he : i = iriFileSize := List.mem_singleton.1 hione
      rw [he] at hi
      exact absurd hi (by decide)
  · intro k hk
    rw [edHasKey_congr hq.q_ed _] at hk
    exact hfi.ed_dom k hk

lemma foldStep (sp s s' : MState) (P : List String) (iri : String)
    (hiri : isExiftoolIri iri = true) (hnew : iri ∉ P) (hfi : FoldInv sp P s)
    (h : map_raw_and_printconv_iri s iri = .ok s') :
    FoldInv sp (P ++ [iri]) s' := by
  by_cases e1 : iri = iriCompositeGPSAltitude
  · subst e1
    rw [map_iri_eq_compositeGPSAltitude] at h
    refine foldStep_coord sp s s' P _ (by decide) hnew hfi (by decide) (by decide)
      (by decide) (by decide) (by decide) (by decide) (by decide) ?_
    rw [(by decide : coordProp iriCompositeGPSAltitude = "altitude")]
    exact h
  by_cases e2 : iri = iriCompositeGPSLatitude
  · subst e2
    rw [map_iri_eq_compositeGPSLatitude] at h
    refine foldStep_coord sp s s' P _ (by decide) hnew hfi (by decide) (by decide)
      (by decide) (by decide) (by decide) (by decide) (by decide) ?_
    rw [(by decide : coordProp iriCompositeGPSLatitude = "latitude")]
    exact h
  by_cases e3 : iri = iriCompositeGPSLongitude
  · subst e3
    rw [map_iri_eq_compositeGPSLongitude] at h
    refine foldStep_coord sp s s' P _ (by decide) hnew hfi (by decide) (by decide)
      (by decide) (by decide) (by decide) (by decide) (by decide) ?_
    rw [(by decide : coordProp iriCompositeGPSLongitude = "longitude")]
    exact h
  by_cases e4 : iri = iriCompositeGPSPosition
  · subst e4
    rw [map_iri_eq_compositeGPSPosition] at h
    exact foldStep_pos sp s s' P hnew hfi h
  by_cases e5 : iri = iriExifImageHeight
  · subst e5
    rw [map_iri_eq_exifImageHeight] at h
    exact foldStep_height sp s s' P hnew hfi h
  by_cases e6 : iri = iriExifImageWidth
  · subst e6
    rw [map_iri_eq_exifImageWidth] at h
    exact foldStep_width sp s s' P hnew hfi h
  by_cases e7 : iri ∈ exifGpsIris
  · rw [map_iri_eq_exifGps _ _ e7] at h
    simp only [exifGpsIris, List.mem_cons, List.not_mem_nil, or_false] at e7
    rcases e7 with rfl | rfl | rfl | rfl | rfl | rfl <;>
      exact foldStep_gps _ _ _ _ _ (by decide) hnew hfi (by decide) (by decide)
        (by decide) (by decide) (by decide) (by decide) (by decide) (by decide) h
  by_cases e8 : iri = iriMake
  · subst e8
    rw [map_iri_eq_make] at h
    exact FoldInv_extend_quiet _ _ _ _ _ (makeBranch_quiet _ _ _ h) hfi (by decide)
      (by decide) (by decide) (by decide) (by decide) (by decide)
  by_cases e9 : iri = iriModel
  · subst e9
    rw [map_iri_eq_model] at h
    exact FoldInv_extend_quiet _ _ _ _ _ (modelBranch_quiet _ _ _ h) hfi (by decide)
      (by decide) (by decide) (by decide) (by decide) (by decide)
  by_cases e10 : iri = iriMIMEType
  · subst e10
    rw [map_iri_eq_mimeType] at h
    exact FoldInv_extend_quiet _ _ _ _ _ (mimeTypeBranch_quiet _ _ _ h) hfi (by decide)
      (by decide) (by decide) (by decide) (by decide) (by decide)
  by_cases e11 : iri = iriFileAccessDate
  · subst e11
    rw [map_iri_eq_fileAccessDate] at h
    exact FoldInv_extend_quiet _ _ _ _ _
      (fileDateBranch_quiet "accessedTime" _ _ _ (by decide) (by decide) h) hfi
      (by decide) (by decide) (by decide) (by decide) (by decide) (by decide)
  by_cases e12 : iri = iriFileInodeChangeDate
  · subst e12
    rw [map_iri_eq_fileInodeChangeDate] at h
    exact FoldInv_extend_quiet _ _ _ _ _
      (fileDateBranch_quiet "metadataChangeTime" _ _ _ (by decide) (by decide) h) hfi
      (by decide) (by decide) (by decide) (by decide) (by decide) (by decide)
  by_cases e13 : iri = iriFileModifyDate
  · subst e13
    rw [map_iri_eq_fileModifyDate] at h
    exact FoldInv_extend_quiet _ _ _ _ _
      (fileDateBranch_quiet "modifiedTime" _ _ _ (by decide) (by decide) h) hfi
      (by decide) (by decide) (by decide) (by decide) (by decide) (by decide)
  by_cases e14 : iri = iriFileName
  · subst e14
    rw [map_iri_eq_fileName] at h
    exact FoldInv_extend_quiet _ _ _ _ _ (fileNameBranch_quiet _ _ _ h) hfi (by decide)
      (by decide) (by decide) (by decide) (by decide) (by decide)
  by_cases e15 : iri = iriFilePermissions
  · subst e15
    rw [map_iri_eq_filePermissions] at h
    exact FoldInv_extend_quiet _ _ _ _ _ (filePermissionsBranch_quiet _ _ _ h) hfi
      (by decide) (by decide) (by decide) (by decide) (by decide) (by decide)
  by_cases e16 : iri = iriFileSize
  · subst e16
    rw [map_iri_eq_fileSize] at h
    exact foldStep_size sp s s' P hnew hfi h
  have hnot : iri ∉ handledIris := by
    intro hcon
    simp [handledIris, e1, e2, e3, e4, e5, e6, e7, e8, e9, e10, e11, e12, e13, e14,
      e15, e16] at hcon
  rw [map_iri_eq_default s iri hnot] at h
  refine FoldInv_extend_quiet _ _ _ _ _ (defaultBranch_quiet _ _ _ hiri h) hfi ?_ e4 e5
    e6 e16 e7
  simp [compCoordIris, e1, e2, e3]

lemma foldlM_inv (sp : MState) (L : List String) : ∀ (P : List String) (s s' : MState),
    (∀ i ∈ L, isExiftoolIri i = true) → (P ++ L).Nodup → FoldInv sp P s →
    L.foldlM map_raw_and_printconv_iri s = .ok s' → FoldInv sp (P ++ L) s' := by
  induction L with
  | nil =>
    intro P s s' _ _ hfi h
    simp only [List.foldlM_nil] at h
    obtain rfl : s = s' := by
      simpa [pure, Except.pure] using h
    simpa using hfi
  | cons x L ih =>
    intro P s s' hiri hnd hfi h
    rw [List.foldlM_cons] at h
    obtain ⟨s1, hx, hrest⟩ := bind_ok_inv h
    have hxnew : x ∉ P := by
      rw [List.nodup_append] at hnd
      intro hcon
      exact hnd.2.2 hcon (by simp)
    have hstep := foldStep sp s s1 P x (hiri x (by simp)) hxnew hfi hx
    have hres : FoldInv sp ((P ++ [x]) ++ L) s' := by
      refine ih (P ++ [x]) s1 s' (fun i hi => hiri i (by simp [hi])) ?_ hstep hrest
      rw [List.append_assoc]
      simpa using hnd
    rw [List.append_assoc] at hres
    simpa using hres

lemma n_observable_object_env (s : MState) (n : String) (s' : MState)
    (h : n_observable_object s = .ok (n, s')) :
    s'._exiftool_predicate_iris = s._exiftool_predicate_iris ∧
    s'._mime_type = s._mime_type ∧ s'._oo_slug = s._oo_slug ∧
    s'._n_observable_object.isSome = true ∧ s'._ns_base = s._ns_base ∧
    s'._use_deterministic_uuids = s._use_deterministic_uuids ∧
    s'._n_content_data_facet = s._n_content_data_facet := by
  cases hf : s._n_observable_object with
  | some m =>
    have he : n_observable_object s = .ok (m, s) := by
      unfold n_observable_object
      rw [hf]
    rw [he] at h
    obtain ⟨hm, hs⟩ : m = n ∧ s = s' := by simpa using h
    subst hs
    exact ⟨rfl, rfl, rfl, by simp [hf], rfl, rfl, rfl⟩
  | none =>
    cases hslug : s._oo_slug with
    | none =>
      unfold n_observable_object at h
      rw [hf, hslug] at h
      exact absurd h (by simp)
    | some slug =>
      unfold n_observable_object at h
      rw [hf, hslug] at h
      simp only [local_uuid, stAdd, Except.ok.injEq, Prod.mk.injEq] at h
      obtain ⟨hm, hs⟩ := h
      subst hs
      exact ⟨rfl, rfl, hslug, rfl, rfl, rfl, rfl⟩

lemma n_content_data_facet_env (s : MState) (n : String) (s' : MState)
    (h : n_content_data_facet s = .ok (n, s')) :
    s'._exiftool_predicate_iris = s._exiftool_predicate_iris ∧
    s'._mime_type = s._mime_type ∧
    (s._n_observable_object.isSome = true → s'._n_observable_object.isSome = true) := by
  cases hf : s._n_content_data_facet with
  | some m =>
    unfold n_content_data_facet at h
    rw [hf] at h
    obtain ⟨hm, hs⟩ : m = n ∧ s = s' := by simpa using h
    subst hs
    exact ⟨rfl, rfl, id⟩
  | none =>
    unfold n_content_data_facet at h
    rw [hf] at h
    cases hdet : s._use_deterministic_uuids with
    | false =>
      rw [hdet] at h
      simp only [Bool.false_eq_true, if_false, ite_false, local_uuid, ok_bind] at h
      obtain ⟨⟨oo, s2⟩, hoo, hk⟩ := bind_ok_inv h
      simp only [Except.ok.injEq, Prod.mk.injEq] at hk
      obtain ⟨hn, hs⟩ := hk
      subst hs
      obtain ⟨e1, e2, e3, e4, e5, e6, e7⟩ := n_observable_object_env _ _ _ hoo
      exact ⟨e1, e2, fun _ => e4⟩
    | true =>
      rw [hdet] at h
      simp only [if_true, ite_true] at h
      obtain ⟨⟨oo1, s1⟩, hoo1, hk⟩ := bind_ok_inv h
      simp only [ok_bind] at hk
      obtain ⟨⟨oo2, s2⟩, hoo2, hk2⟩ := bind_ok_inv hk
      simp only [Except.ok.injEq, Prod.mk.injEq] at hk2
      obtain ⟨hn, hs⟩ := hk2
      subst hs
      obtain ⟨g1, g2, g3, g4, g5, g6, g7⟩ := n_observable_object_env _ _ _ hoo1
      obtain ⟨e1, e2, e3, e4, e5, e6, e7⟩ := n_observable_object_env _ _ _ hoo2
      exact ⟨e1.trans g1, e2.trans g2, fun _ => e4⟩

lemma n_raster_picture_facet_env (s : MState) (n : String) (s' : MState)
    (h : n_raster_picture_facet s = .ok (n, s')) :
    s'._exiftool_predicate_iris = s._exiftool_predicate_iris ∧
    s'._mime_type = s._mime_type ∧
    (s._n_observable_object.isSome = true → s'._n_observable_object.isSome = true) := by
  cases hf : s._n_raster_picture_facet with
  | some m =>
    unfold n_raster_picture_facet at h
    rw [hf] at h
    obtain ⟨hm, hs⟩ : m = n ∧ s = s' := by simpa using h
    subst hs
    exact ⟨rfl, rfl, id⟩
  | none =>
    unfold n_raster_picture_facet at h
    rw [hf] at h
    cases hdet : s._use_deterministic_uuids with
    | false =>
      rw [hdet] at h
      simp only [Bool.false_eq_true, if_false, ite_false, local_uuid, ok_bind] at h
      obtain ⟨⟨oo, s2⟩, hoo, hk⟩ := bind_ok_inv h
      simp only [Except.ok.injEq, Prod.mk.injEq] at hk
      obtain ⟨hn, hs⟩ := hk
      subst hs
      obtain ⟨e1, e2, e3, e4, e5, e6, e7⟩ := n_observable_object_env _ _ _ hoo
      exact ⟨e1, e2, fun _ => e4⟩
    | true =>
      rw [hdet] at h
      simp only [if_true, ite_true] at h
      obtain ⟨⟨oo1, s1⟩, hoo1, hk⟩ := bind_ok_inv h
      simp only [ok_bind] at hk
      obtain ⟨⟨oo2, s2⟩, hoo2, hk2⟩ := bind_ok_inv hk
      simp only [Except.ok.injEq, Prod.mk.injEq] at hk2
      obtain ⟨hn, hs⟩ := hk2
      subst hs
      obtain ⟨g1, g2, g3, g4, g5, g6, g7⟩ := n_observable_object_env _ _ _ hoo1
      obtain ⟨e1, e2, e3, e4, e5, e6, e7⟩ := n_observable_object_env _ _ _ hoo2
      exact ⟨e1.trans g1, e2.trans g2, fun _ => e4⟩

lemma mimeTypeBranch_env (s : MState) (iri : String) (s' : MState)
    (hm : s._mime_type = none)
    (h : mimeTypeBranch s iri = .ok s') :
    s'._exiftool_predicate_iris
      = s._exiftool_predicate_iris.filter (fun x => x ≠ iri) ∧
    s'._mime_type = litValue (dictLookup s._kv_dict_raw iri) ∧
    s'._exif_dictionary_dict = s._exif_dictionary_dict := by
  unfold mimeTypeBranch at h
  rw [pop_eta] at h
  simp only [] at h
  cases hv : dictLookup s._kv_dict_raw iri with
  | none =>
    rw [hv] at h
    simp only [Except.ok.injEq] at h
    subst h
    exact ⟨rfl, by simp [litValue, hv, pop_snd_mime, hm], rfl⟩
  | some v =>
    cases v with
    | uri u =>
      rw [hv] at h
      simp only [Except.ok.injEq] at h
      subst h
      exact ⟨rfl, by simp [litValue, hv, pop_snd_mime, hm], rfl⟩
    | lit lex dt =>
      rw [hv] at h
      simp only [Except.ok.injEq] at h
      subst h
      exact ⟨rfl, by simp [litValue, hv], rfl⟩

lemma prePhase_facts (s0 sp : MState)
    (hg : s0.graph = [])
    (hll : s0._n_location_object_latlong_facet = none)
    (hloc : s0._n_location_object = none)
    (hrel : s0._n_relationship_object_location = none)
    (hed : s0._exif_dictionary_dict = none)
    (hrpf : s0._n_raster_picture_facet = none)
    (hoo : s0._n_observable_object = none)
    (hcam : s0._n_camera_object = none)
    (hmime : s0._mime_type = none)
    (hedobj : s0._n_exif_dictionary_object = none)
    (h : prePhase s0 = .ok sp) :
    sp._kv_dict_raw = dictRemove s0._kv_dict_raw iriMIMEType ∧
    sp._kv_dict_printconv = dictRemove s0._kv_dict_printconv iriMIMEType ∧
    sp._exiftool_predicate_iris
      = s0._exiftool_predicate_iris.filter (fun x => x ≠ iriMIMEType) ∧
    sp._mime_type = litValue (dictLookup s0._kv_dict_raw iriMIMEType) ∧
    sp._n_location_object = none ∧
    sp._n_location_object_latlong_facet = none ∧
    sp._n_relationship_object_location = none ∧
    sp._exif_dictionary_dict = none ∧
    sp._n_raster_picture_facet.isSome
      = decide (litValue (dictLookup s0._kv_dict_raw iriMIMEType)
          = some "image/jpeg") ∧
    sp._n_observable_object.isSome = true ∧
    (∀ k, hasEntryKey sp.graph k = false) ∧
    TypeCountsInv sp ∧
    sp._n_exif_dictionary_object = none := by
  have hinv0 : TypeCountsInv s0 := by
    refine ⟨?_, ?_, ?_, ?_, ?_⟩ <;>
      simp [hg, hloc, hll, hrel, hoo, hcam, countTypeTriples]
  unfold prePhase at h
  rw [map_iri_eq_mimeType] at h
  obtain ⟨s1, h1, h⟩ := bind_ok_inv h
  have q1 := mimeTypeBranch_quiet _ _ _ h1
  obtain ⟨i1, m1, ed1⟩ := mimeTypeBranch_env _ _ _ hmime h1
  simp only [] at h
  cases hlv : litValue (dictLookup s0._kv_dict_raw iriMIMEType) with
  | none =>
    rw [hlv] at m1
    rw [m1] at h
    rw [if_neg (by simp)] at h
    obtain ⟨⟨oon, s4⟩, h4, h⟩ := bind_ok_inv h
    obtain ⟨f1, f2, f3, f4, f5, f6, f7, f8, f9, f10, f11, f12⟩ :=
      n_observable_object_facts _ _ _ h4
    obtain ⟨e1, e2, e3, e4, e5, e6, e7⟩ := n_observable_object_env _ _ _ h4
    have hm4 : s4._mime_type = none := by
      rw [e2]
    rw [hm4] at h
    simp only [ok_bind] at h
    rw [hm4, if_neg (by simp)] at h
    obtain rfl : s4 = sp := by simpa using h
    refine ⟨f1.trans q1.q_raw, f2.trans q1.q_pc, e1.trans i1, hm4, ?_, ?_, ?_, ?_,
      ?_, e4, ?_, ?_, ?_⟩
    · exact f6.trans (q1.q_loc.trans hloc)
    · exact f5.trans (q1.q_ll.trans hll)
    · exact f4.trans (q1.q_rel.trans hrel)
    · exact f3.trans (ed1.trans hed)
    · rw [f7]
      rw [q1.q_rpf]
      simp [hrpf]
    · intro k
      rw [f11 k, q1.q_entry k, hg]
      rfl
    · exact f12 (q1.q_tinv hinv0)
    · exact ((n_observable_object_edobj _ _ _ h4).trans
        (q1.q_edobj.trans hedobj) : _)
  | some mt =>
    rw [hlv] at m1
    rw [m1] at h
    by_cases hj : mt = "image/jpeg"
    · subst hj
      rw [if_pos rfl] at h
      obtain ⟨⟨oon, s4⟩, h4, h⟩ := bind_ok_inv h
      obtain ⟨f1, f2, f3, f4, f5, f6, f7, f8, f9, f10, f11, f12⟩ :=
        n_observable_object_facts _ _ _ h4
      obtain ⟨e1, e2, e3, e4, e5, e6, e7⟩ := n_observable_object_env _ _ _ h4
      have hm4 : s4._mime_type = some "image/jpeg" := by
        rw [e2]
      rw [hm4] at h
      simp only [ok_bind] at h
      obtain ⟨⟨cdn, s6⟩, h6, h⟩ := bind_ok_inv h
      obtain ⟨c1, c2, c3, c4, c5, c6, c7, c8, c9, c10, c11⟩ :=
        n_content_data_facet_facts _ _ _ h6
      obtain ⟨ce1, ce2, ce3⟩ := n_content_data_facet_env _ _ _ h6
      simp only [ok_bind] at h
      have hm6 : (stAdd s6 ⟨.uri cdn, NS_UCO_OBSERVABLE "mimeType",
          .lit "image/jpeg" none⟩)._mime_type = some "image/jpeg" := by
        dsimp only [stAdd]
        rw [ce2]
        exact hm4
      rw [hm6, if_pos rfl] at h
      obtain ⟨⟨rn, s7⟩, h7, h⟩ := bind_ok_inv h
      obtain ⟨r1, r2, r3, r4, r5, r6, r7, r8, r9, r10, r11⟩ :=
        n_raster_picture_facet_facts _ _ _ h7
      obtain ⟨re1, re2, re3⟩ := n_raster_picture_facet_env _ _ _ h7
      obtain rfl : stAdd s7 ⟨.uri rn, NS_UCO_OBSERVABLE "pictureType",
          .lit "jpg" none⟩ = sp := by simpa using h
      refine ⟨?_, ?_, ?_, ?_, ?_, ?_, ?_, ?_, ?_, ?_, ?_, ?_, ?_⟩
      · exact (r1.trans ((c1.trans f1).trans q1.q_raw) : _)
      · exact (r2.trans ((c2.trans f2).trans q1.q_pc) : _)
      · exact (re1.trans ((ce1.trans e1).trans i1) : _)
      · exact (re2.trans (ce2.trans hm4) : _)
      · exact (r6.trans ((c6.trans (f6.trans (q1.q_loc.trans hloc))) : _) : _)
      · exact (r5.trans ((c5.trans (f5.trans (q1.q_ll.trans hll))) : _) : _)
      · exact (r4.trans ((c4.trans (f4.trans (q1.q_rel.trans hrel))) : _) : _)
      · exact (r3.trans (c3.trans (f3.trans (ed1.trans hed))) : _)
      · rw [show (stAdd s7 ⟨.uri rn, NS_UCO_OBSERVABLE "pictureType",
            .lit "jpg" none⟩)._n_raster_picture_facet = s7._n_raster_picture_facet
            from rfl, r7]
        simp
      · have h6oo : s6._n_observable_object.isSome = true := ce3 e4
        have h7oo : s7._n_observable_object.isSome = true := by
          refine re3 ?_
          dsimp only [stAdd]
          exact h6oo
        exact h7oo
      · intro k
        rw [show (stAdd s7 ⟨.uri rn, NS_UCO_OBSERVABLE "pictureType",
            .lit "jpg" none⟩).graph = graphAdd s7.graph ⟨.uri rn,
            NS_UCO_OBSERVABLE "pictureType", .lit "jpg" none⟩ from rfl]
        rw [hasEntryKey_graphAdd_mk _ _ _ _ k (by decide), r10 k]
        rw [show (stAdd s6 ⟨.uri cdn, NS_UCO_OBSERVABLE "mimeType",
            .lit "image/jpeg" none⟩).graph = graphAdd s6.graph ⟨.uri cdn,
            NS_UCO_OBSERVABLE "mimeType", .lit "image/jpeg" none⟩ from rfl]
        rw [hasEntryKey_graphAdd_mk _ _ _ _ k (by decide), c10 k, f11 k, q1.q_entry k,
          hg]
        rfl
      · refine TypeCountsInv_stAdd_nontype_mk _ _ _ _ (by decide) ?_
        refine r11 ?_
        refine TypeCountsInv_stAdd_nontype_mk _ _ _ _ (by decide) ?_
        exact c11 (f12 (q1.q_tinv hinv0))
      · exact ((n_raster_picture_facet_edobj _ _ _ h7).trans
          ((n_content_data_facet_edobj _ _ _ h6).trans
            ((n_observable_object_edobj _ _ _ h4).trans
              (q1.q_edobj.trans hedobj))) : _)
    · rw [if_neg (by simp [hj])] at h
      obtain ⟨⟨oon, s4⟩, h4, h⟩ := bind_ok_inv h
      obtain ⟨f1, f2, f3, f4, f5, f6, f7, f8, f9, f10, f11, f12⟩ :=
        n_observable_object_facts _ _ _ h4
      obtain ⟨e1, e2, e3, e4, e5, e6, e7⟩ := n_observable_object_env _ _ _ h4
      have hm4 : s4._mime_type = some mt := by
        rw [e2]
      rw [hm4] at h
      simp only [ok_bind] at h
      obtain ⟨⟨cdn, s6⟩, h6, h⟩ := bind_ok_inv h
      obtain ⟨c1, c2, c3, c4, c5, c6, c7, c8, c9, c10, c11⟩ :=
        n_content_data_facet_facts _ _ _ h6
      obtain ⟨ce1, ce2, ce3⟩ := n_content_data_facet_env _ _ _ h6
      simp only [ok_bind] at h
      have hm6 : (stAdd s6 ⟨.uri cdn, NS_UCO_OBSERVABLE "mimeType",
          .lit mt none⟩)._mime_type = some mt := by
        dsimp only [stAdd]
        rw [ce2]
        exact hm4
      rw [hm6, if_neg (by simp [hj])] at h
      obtain rfl : stAdd s6 ⟨.uri cdn, NS_UCO_OBSERVABLE "mimeType",
          .lit mt none⟩ = sp := by simpa using h
      refine ⟨?_, ?_, ?_, ?_, ?_, ?_, ?_, ?_, ?_, ?_, ?_, ?_, ?_⟩
      · exact ((c1.trans f1).trans q1.q_raw : _)
      · exact ((c2.trans f2).trans q1.q_pc : _)
      · exact ((ce1.trans e1).trans i1 : _)
      · exact (ce2.trans hm4 : _)
      · exact (c6.trans (f6.trans (q1.q_loc.trans hloc)) : _)
      · exact (c5.trans (f5.trans (q1.q_ll.trans hll)) : _)
      · exact (c4.trans (f4.trans (q1.q_rel.trans hrel)) : _)
      · exact (c3.trans (f3.trans (ed1.trans hed)) : _)
      · rw [show (stAdd s6 ⟨.uri cdn, NS_UCO_OBSERVABLE "mimeType",
            .lit mt none⟩)._n_raster_picture_facet = s6._n_raster_picture_facet
            from rfl, c7, f7, q1.q_rpf, hrpf]
        simp [hj]
      · refine ce3 e4
      · intro k
        rw [show (stAdd s6 ⟨.uri cdn, NS_UCO_OBSERVABLE "mimeType",
            .lit mt none⟩).graph = graphAdd s6.graph ⟨.uri cdn,
            NS_UCO_OBSERVABLE "mimeType", .lit mt none⟩ from rfl]
        rw [hasEntryKey_graphAdd_mk _ _ _ _ k (by decide), c10 k, f11 k, q1.q_entry k,
          hg]
        rfl
      · refine TypeCountsInv_stAdd_nontype_mk _ _ _ _ (by decide) ?_
        exact c11 (f12 (q1.q_tinv hinv0))
      · exact ((n_content_data_facet_edobj _ _ _ h6).trans
          ((n_observable_object_edobj _ _ _ h4).trans
            (q1.q_edobj.trans hedobj)) : _)

lemma mem_insortStr (x y : String) (l : List String) :
    y ∈ insortStr x l ↔ y = x ∨ y ∈ l := by
  induction l with
  | nil => simp [insortStr]
  | cons a tl ih =>
    by_cases hle : strLe x a = true
    · simp [insortStr, hle]
    · simp only [insortStr, if_neg hle, List.mem_cons, ih]
      tauto

lemma mem_sortStrs (y : String) (xs : List String) :
    y ∈ sortStrs xs ↔ y ∈ xs := by
  induction xs with
  | nil => simp [sortStrs]
  | cons a tl ih =>
    simp only [sortStrs, List.foldr_cons] at *
    rw [mem_insortStr]
    simp only [List.mem_cons, ih]

lemma nodup_insortStr (x : String) (l : List String) (hx : x ∉ l) (h : l.Nodup) :
    (insortStr x l).Nodup := by
  induction l with
  | nil => simp [insortStr]
  | cons a tl ih =>
    simp only [List.mem_cons, not_or] at hx
    rw [List.nodup_cons] at h
    by_cases hle : strLe x a = true
    · simp only [insortStr, if_pos hle]
      refine List.nodup_cons.2 ⟨?_, List.nodup_cons.2 h⟩
      simp [hx.1, hx.2]
    · simp only [insortStr, if_neg hle]
      refine List.nodup_cons.2 ⟨?_, ih hx.2 h.2⟩
      rw [mem_insortStr]
      rintro (hc | hc)
      · exact hx.1 hc.symm
      · exact h.1 hc

lemma nodup_sortStrs (xs : List String) (h : xs.Nodup) : (sortStrs xs).Nodup := by
  induction xs with
  | nil => simp [sortStrs]
  | cons a tl ih =>
    rw [List.nodup_cons] at h
    simp only [sortStrs, List.foldr_cons]
    refine nodup_insortStr _ _ ?_ (ih h.2)
    rw [show List.foldr insortStr [] tl = sortStrs tl from rfl, mem_sortStrs]
    exact h.1

lemma mem_setUnion (x : String) (a b : List String) :
    x ∈ setUnion a b ↔ x ∈ a ∨ x ∈ b := by
  unfold setUnion
  simp only [List.mem_append, List.mem_filter, decide_not]
  by_cases hx : x ∈ a <;> simp [hx]

lemma nodup_setUnion (a b : List String) (ha : a.Nodup) (hb : b.Nodup) :
    (setUnion a b).Nodup := by
  unfold setUnion
  refine List.Nodup.append ha (List.Nodup.filter _ hb) ?_
  intro x hxa hxf
  rw [List.mem_filter] at hxf
  exact absurd hxa (by simpa using hxf.2)

lemma nodup_keys_dictInsert (d : List (String × Node)) (k : String) (v : Node)
    (h : (dictKeys d).Nodup) : (dictKeys (dictInsert d k v)).Nodup := by
  induction d with
  | nil => simp [dictInsert, dictKeys]
  | cons hd tl ih =>
    obtain ⟨a, b⟩ := hd
    rw [dictKeys_cons, List.nodup_cons] at h
    by_cases hak : a = k
    · subst hak
      simp only [dictInsert, if_pos rfl, dictKeys_cons]
      exact List.nodup_cons.2 h
    · simp only [dictInsert, if_neg hak, dictKeys_cons]
      refine List.nodup_cons.2 ⟨?_, ih h.2⟩
      rw [mem_keys_dictInsert]
      rintro (hc | hc)
      · exact hak hc
      · exact h.1 hc

lemma nodup_keys_loadInto (ts : List (String × Node)) :
    ∀ d : List (String × Node), (dictKeys d).Nodup →
      (dictKeys (_load_xml_file_into_dict ts d)).Nodup := by
  induction ts with
  | nil => intro d h; exact h
  | cons hd tl ih =>
    intro d h
    exact ih _ (nodup_keys_dictInsert _ _ _ h)

lemma nodup_keys_loadDict (ts : List (String × Node)) :
    (dictKeys (loadDict ts)).Nodup :=
  nodup_keys_loadInto ts [] (by simp [dictKeys])

lemma keys_loadInto_subset (ts : List (String × Node)) :
    ∀ (d : List (String × Node)) (k : String),
      k ∈ dictKeys (_load_xml_file_into_dict ts d) →
      k ∈ dictKeys d ∨ k ∈ ts.map Prod.fst := by
  induction ts with
  | nil => intro d k h; exact Or.inl h
  | cons hd tl ih =>
    intro d k h
    rcases ih (dictInsert d hd.1 hd.2) k h with hin | hin
    · rw [mem_keys_dictInsert] at hin
      rcases hin with he | hin
      · exact Or.inr (by simp [he])
      · exact Or.inl hin
    · exact Or.inr (by simp [hin])

lemma isExiftoolIri_of_mem_loadKeys (ts : List (String × Node))
    (hk : ∀ kv ∈ ts, isExiftoolIri kv.1 = true) (k : String)
    (h : k ∈ dictKeys (loadDict ts)) : isExiftoolIri k = true := by
  rcases keys_loadInto_subset ts [] k h with hc | hc
  · simp [dictKeys] at hc
  · rw [List.mem_map] at hc
    obtain ⟨kv, hkv, hke⟩ := hc
    exact hke ▸ hk kv hkv

lemma mem_inputUnion (tr tpc : Option (List (String × Node))) (k : String) :
    k ∈ inputUnion tr tpc ↔
      k ∈ dictKeys (loadDict (tr.getD [])) ∨ k ∈ dictKeys (loadDict (tpc.getD [])) := by
  cases tr <;> cases tpc <;>
    simp [inputUnion, mem_setUnion, loadDict, _load_xml_file_into_dict, dictKeys]

lemma nodup_inputUnion (tr tpc : Option (List (String × Node))) :
    (inputUnion tr tpc).Nodup := by
  unfold inputUnion
  refine nodup_setUnion _ _ (nodup_setUnion _ _ List.nodup_nil ?_) ?_
  · cases tr with
    | none => exact List.nodup_nil
    | some ts => exact nodup_keys_loadDict ts
  · cases tpc with
    | none => exact List.nodup_nil
    | some ts => exact nodup_keys_loadDict ts

lemma loadPhase_facts (ns : String) (ud : Bool) (tr tpc : Option (List (String × Node))) :
    (loadPhase (initState ns ud) tr tpc)._kv_dict_raw = loadDict (tr.getD []) ∧
    (loadPhase (initState ns ud) tr tpc)._kv_dict_printconv = loadDict (tpc.getD []) ∧
    (loadPhase (initState ns ud) tr tpc)._exiftool_predicate_iris = inputUnion tr tpc ∧
    (loadPhase (initState ns ud) tr tpc).graph = [] ∧
    (loadPhase (initState ns ud) tr tpc)._n_location_object_latlong_facet = none ∧
    (loadPhase (initState ns ud) tr tpc)._n_location_object = none ∧
    (loadPhase (initState ns ud) tr tpc)._n_relationship_object_location = none ∧
    (loadPhase (initState ns ud) tr tpc)._exif_dictionary_dict = none ∧
    (loadPhase (initState ns ud) tr tpc)._n_raster_picture_facet = none ∧
    (loadPhase (initState ns ud) tr tpc)._n_observable_object = none ∧
    (loadPhase (initState ns ud) tr tpc)._n_camera_object = none ∧
    (loadPhase (initState ns ud) tr tpc)._mime_type = none ∧
    (loadPhase (initState ns ud) tr tpc)._n_exif_dictionary_object = none := by
  cases tr <;> cases tpc <;>
    refine ⟨rfl, rfl, ?_, rfl, rfl, rfl, rfl, rfl, rfl, rfl, rfl, rfl, rfl⟩ <;>
    simp [loadPhase, initState, inputUnion, setUnion]

lemma isKeyTriple_keylit (k key : String) (a : Node) :
    isKeyTriple k ⟨a, NS_UCO_TYPES "key", .lit key none⟩ = decide (k = key) := by
  by_cases hk : k = key
  · subst hk
    rw [isKeyTriple_mk_true]
    simp
  · unfold isKeyTriple
    have ho : (Node.lit key none == Node.lit k none) = false := by
      rw [beq_eq_false_iff_ne]
      intro hc
      injection hc with h1 h2
      exact hk h1.symm
    simp [ho, hk]

lemma TypeCountsInv_create_Rel (s : MState) (nm : String) (c : Nat)
    (hf : s._n_relationship_object_location = none) (hInv : TypeCountsInv s) :
    TypeCountsInv (stAdd { s with uuidCounter := c, _n_relationship_object_location := some nm } ⟨.uri nm, NS_RDF "type", NS_UCO_CORE "Relationship"⟩) := by
  obtain ⟨h1, h2, h3, h4, h5⟩ := hInv
  rw [hf] at h3
  refine ⟨?_, ?_, ?_, ?_, ?_⟩ <;> dsimp only [stAdd]
  · rw [countTypeTriples_graphAdd_of_not _ _ _ (isTypeTriple_mk_false_o _ _ _ _ (by decide))]
    exact h1
  · rw [countTypeTriples_graphAdd_of_not _ _ _ (isTypeTriple_mk_false_o _ _ _ _ (by decide))]
    exact h2
  · exact countTypeTriples_graphAdd_of_zero _ _ _ (isTypeTriple_mk_true _ _)
      (by simpa using h3)
  · exact le_trans h4 (countTypeTriples_graphAdd_ge _ _ _)
  · rw [countTypeTriples_graphAdd_of_not _ _ _ (isTypeTriple_mk_false_o _ _ _ _ (by decide))]
    exact h5

lemma n_relationship_object_location_facts (s : MState) (nn : String) (s' : MState)
    (hrel : s._n_relationship_object_location = none)
    (h : n_relationship_object_location s = .ok (nn, s')) :
    s'._n_relationship_object_location.isSome = true ∧
    s'._n_location_object_latlong_facet = s._n_location_object_latlong_facet ∧
    s'._n_location_object.isSome = true ∧
    s'._exif_dictionary_dict = s._exif_dictionary_dict ∧
    s'._n_exif_dictionary_object = s._n_exif_dictionary_object ∧
    (∀ k, hasEntryKey s'.graph k = hasEntryKey s.graph k) ∧
    (∀ t, t ∈ s.graph → t ∈ s'.graph) ∧
    (TypeCountsInv s → TypeCountsInv s') := by
  unfold n_relationship_object_location at h
  rw [hrel] at h
  simp only [local_uuid] at h
  obtain ⟨⟨oo, s5⟩, hoo, hk⟩ := bind_ok_inv h
  simp only [Except.ok.injEq, Prod.mk.injEq] at hk
  obtain ⟨hn, hs⟩ := hk
  subst hs
  obtain ⟨f1, f2, f3, f4, f5, f6, f7, f8, f9, f10, f11, f12⟩ :=
    n_observable_object_facts _ _ _ hoo
  have heo := n_observable_object_edobj _ _ _ hoo
  refine ⟨?_, ?_, ?_, ?_, ?_, ?_, ?_, ?_⟩
  · have hx := f4.trans (loc_snd_rel _)
    dsimp only [stAdd]
    rw [hx]
    rfl
  · exact f5.trans (loc_snd_ll _)
  · have hx := f6.trans (loc_snd_own _)
    dsimp only [stAdd]
    rw [hx]
    rfl
  · exact f3.trans (loc_snd_ed _)
  · exact heo.trans (loc_snd_edobj _)
  · intro k
    dsimp only [stAdd]
    rw [hasEntryKey_graphAdd, isKeyTriple_mk_false_p _ _ _ _ (by decide)]
    rw [hasEntryKey_graphAdd, isKeyTriple_mk_false_p _ _ _ _ (by decide)]
    rw [hasEntryKey_graphAdd, isKeyTriple_mk_false_p _ _ _ _ (by decide)]
    rw [f11 k]
    dsimp only [stAdd]
    rw [hasEntryKey_graphAdd, isKeyTriple_mk_false_p _ _ _ _ (by decide)]
    rw [loc_entry]
    dsimp only [stAdd]
    rw [hasEntryKey_graphAdd, isKeyTriple_mk_false_p _ _ _ _ (by decide)]
    simp
  · intro t ht
    exact mem_graphAdd_of_mem _ _ _ (mem_graphAdd_of_mem _ _ _ (mem_graphAdd_of_mem _ _ _
      (f10 t (mem_graphAdd_of_mem _ _ _ (loc_mem _ _ (mem_graphAdd_of_mem _ _ _ ht))))))
  · intro hi
    have i1 := TypeCountsInv_create_Rel s
      (s._ns_base ++ "Relationship-" ++ toString s.uuidCounter) (s.uuidCounter + 1) hrel hi
    have i2 := loc_inv _ i1
    have i4 := f12 (TypeCountsInv_stAdd_nontype_mk _ _ _ _ (by decide) i2)
    exact TypeCountsInv_stAdd_nontype_mk _ _ _ _ (by decide)
      (TypeCountsInv_stAdd_nontype_mk _ _ _ _ (by decide)
        (TypeCountsInv_stAdd_nontype_mk _ _ _ _ (by decide) i4))

lemma controlled_dictionary_entry_facts (nd : String) (cdict : List (String × Node))
    (s : MState) (key : String) (s' : MState)
    (h : controlled_dictionary_entry nd cdict s key = .ok s') :
    (∀ k, hasEntryKey s'.graph k = (hasEntryKey s.graph k || decide (k = key))) ∧
    (∀ t, t ∈ s.graph → t ∈ s'.graph) ∧
    (TypeCountsInv s → TypeCountsInv s') ∧
    s'._n_relationship_object_location = s._n_relationship_object_location ∧
    s'._n_location_object = s._n_location_object ∧
    s'._n_location_object_latlong_facet = s._n_location_object_latlong_facet ∧
    s'._n_observable_object = s._n_observable_object ∧
    s'._n_camera_object = s._n_camera_object := by
  unfold controlled_dictionary_entry at h
  cases hv : dictLookup cdict key with
  | none =>
    rw [hv] at h
    exact absurd h (by simp)
  | some v =>
    cases v with
    | uri u =>
      rw [hv] at h
      exact absurd h (by simp)
    | lit lex dt =>
      rw [hv] at h
      simp only [local_uuid, Except.ok.injEq] at h
      subst h
      refine ⟨?_, ?_, ?_, rfl, rfl, rfl, rfl, rfl⟩
      · intro k
        dsimp only [stAdd]
        rw [hasEntryKey_graphAdd, isKeyTriple_mk_false_p _ _ _ _ (by decide)]
        rw [hasEntryKey_graphAdd, isKeyTriple_keylit]
        rw [hasEntryKey_graphAdd, isKeyTriple_mk_false_p _ _ _ _ (by decide)]
        rw [hasEntryKey_graphAdd, isKeyTriple_mk_false_p _ _ _ _ (by decide)]
        simp
      · intro t ht
        exact mem_graphAdd_of_mem _ _ _ (mem_graphAdd_of_mem _ _ _
          (mem_graphAdd_of_mem _ _ _ (mem_graphAdd_of_mem _ _ _ ht)))
      · intro hi
        refine TypeCountsInv_stAdd_nontype_mk _ _ _ _ (by decide) ?_
        refine TypeCountsInv_stAdd_nontype_mk _ _ _ _ (by decide) ?_
        refine TypeCountsInv_stAdd_untracked_mk _ _ _ _
          (by decide) (by decide) (by decide) (by decide) ?_
        refine TypeCountsInv_stAdd_nontype_mk _ _ _ _ (by decide) ?_
        exact hi

lemma cd_fold_facts (nd : String) (cdict : List (String × Node)) (KS : List String) :
    ∀ (s s' : MState),
      KS.foldlM (controlled_dictionary_entry nd cdict) s = .ok s' →
      (∀ k, hasEntryKey s'.graph k = (hasEntryKey s.graph k || decide (k ∈ KS))) ∧
      (∀ t, t ∈ s.graph → t ∈ s'.graph) ∧
      (TypeCountsInv s → TypeCountsInv s') ∧
      s'._n_relationship_object_location = s._n_relationship_object_location ∧
      s'._n_location_object = s._n_location_object ∧
      s'._n_location_object_latlong_facet = s._n_location_object_latlong_facet ∧
      s'._n_observable_object = s._n_observable_object ∧
      s'._n_camera_object = s._n_camera_object := by
  induction KS with
  | nil =>
    intro s s' h
    simp only [List.foldlM_nil] at h
    obtain rfl : s = s' := by simpa [pure, Except.pure] using h
    exact ⟨fun k => by simp, fun t ht => ht, id, rfl, rfl, rfl, rfl, rfl⟩
  | cons a L ih =>
    intro s s' h
    rw [List.foldlM_cons] at h
    obtain ⟨s1, h1, h2⟩ := bind_ok_inv h
    obtain ⟨e1, e2, e3, e4, e5, e6, e7, e8⟩ :=
      controlled_dictionary_entry_facts _ _ _ _ _ h1
    obtain ⟨g1, g2, g3, g4, g5, g6, g7, g8⟩ := ih _ _ h2
    refine ⟨?_, fun t ht => g2 t (e2 t ht), fun hi => g3 (e3 hi),
      g4.trans e4, g5.trans e5, g6.trans e6, g7.trans e7, g8.trans e8⟩
    intro k
    rw [g1 k, e1 k]
    by_cases hk : k = a
    · subst hk
      simp
    · by_cases hm : k ∈ L <;> simp [hk, hm, Bool.or_assoc]

lemma controlled_dictionary_object_to_node_facts (s : MState)
    (cdict : List (String × Node)) (n : String) (s' : MState)
    (h : controlled_dictionary_object_to_node s cdict = .ok (n, s')) :
    (∀ k, hasEntryKey s'.graph k
        = (hasEntryKey s.graph k || decide (k ∈ dictKeys cdict))) ∧
    (∀ t, t ∈ s.graph → t ∈ s'.graph) ∧
    (TypeCountsInv s → TypeCountsInv s') ∧
    s'._n_relationship_object_location = s._n_relationship_object_location ∧
    s'._n_location_object = s._n_location_object ∧
    s'._n_location_object_latlong_facet = s._n_location_object_latlong_facet ∧
    s'._n_observable_object = s._n_observable_object ∧
    s'._n_camera_object = s._n_camera_object := by
  unfold controlled_dictionary_object_to_node at h
  simp only [local_uuid] at h
  obtain ⟨s1, h1, h2⟩ := bind_ok_inv h
  simp only [Except.ok.injEq, Prod.mk.injEq] at h2
  obtain ⟨hn, hs⟩ := h2
  subst hs
  obtain ⟨g1, g2, g3, g4, g5, g6, g7, g8⟩ := cd_fold_facts _ _ _ _ _ h1
  refine ⟨?_, ?_, ?_, ?_, ?_, ?_, ?_, ?_⟩
  · intro k
    rw [g1 k]
    dsimp only [stAdd]
    rw [hasEntryKey_graphAdd, isKeyTriple_mk_false_p _ _ _ _ (by decide)]
    simp [mem_sortStrs]
  · intro t ht
    exact g2 t (mem_graphAdd_of_mem _ _ _ ht)
  · intro hi
    exact g3 (TypeCountsInv_stAdd_untracked_mk _ _ _ _
      (by decide) (by decide) (by decide) (by decide) hi)
  · exact g4
  · exact g5
  · exact g6
  · exact g7
  · exact g8

lemma n_exif_dictionary_object_facts (s : MState) (d : List (String × Node))
    (n : String) (s' : MState)
    (hobj : s._n_exif_dictionary_object = none)
    (hd : s._exif_dictionary_dict = some d)
    (h : n_exif_dictionary_object s = .ok (n, s')) :
    (∀ k, hasEntryKey s'.graph k = (hasEntryKey s.graph k || decide (k ∈ dictKeys d))) ∧
    (∀ t, t ∈ s.graph → t ∈ s'.graph) ∧
    (TypeCountsInv s → TypeCountsInv s') ∧
    s'._n_relationship_object_location = s._n_relationship_object_location ∧
    s'._n_location_object = s._n_location_object ∧
    s'._n_location_object_latlong_facet = s._n_location_object_latlong_facet := by
  unfold n_exif_dictionary_object at h
  rw [hobj] at h
  have hex : exif_dictionary_dict s = (d, s) := by
    unfold exif_dictionary_dict
    rw [hd]
  rw [hex] at h
  obtain ⟨⟨cn, s1⟩, hc, h2⟩ := bind_ok_inv h
  obtain ⟨⟨ef, s2⟩, hef, h3⟩ := bind_ok_inv h2
  simp only [Except.ok.injEq, Prod.mk.injEq] at h3
  obtain ⟨hn, hs⟩ := h3
  subst hs
  obtain ⟨g1, g2, g3, g4, g5, g6, g7, g8⟩ :=
    controlled_dictionary_object_to_node_facts s d cn s1 hc
  obtain ⟨f1, f2, f3, f4, f5, f6, f7, f8, f9, f10, f11⟩ := n_exif_facet_facts _ _ _ hef
  refine ⟨?_, ?_, ?_, ?_, ?_, ?_⟩
  · intro k
    dsimp only [stAdd]
    rw [hasEntryKey_graphAdd, isKeyTriple_mk_false_p _ _ _ _ (by decide)]
    rw [f10 k]
    dsimp only []
    rw [g1 k]
    simp
  · intro t ht
    exact mem_graphAdd_of_mem _ _ _ (f9 t (g2 t ht))
  · intro hi
    exact TypeCountsInv_stAdd_nontype_mk _ _ _ _ (by decide) (f11 (g3 hi))
  · exact f4.trans g4
  · exact f6.trans g5
  · exact f5.trans g6

lemma endPhase_facts (s sf : MState)
    (hrel : s._n_relationship_object_location = none)
    (hobj : s._n_exif_dictionary_object = none)
    (h : endPhase s = .ok sf) :
    (∀ k, hasEntryKey sf.graph k = (hasEntryKey s.graph k || edHasKey s k)) ∧
    sf._n_relationship_object_location.isSome = s._n_location_object.isSome ∧
    sf._n_location_object_latlong_facet = s._n_location_object_latlong_facet ∧
    sf._n_location_object.isSome = s._n_location_object.isSome ∧
    (∀ t, t ∈ s.graph → t ∈ sf.graph) ∧
    (TypeCountsInv s → TypeCountsInv sf) := by
  unfold endPhase at h
  cases hed : s._exif_dictionary_dict with
  | none =>
    simp only [hed, Option.isSome_none, Bool.false_eq_true, if_false, ok_bind] at h
    have hedk : ∀ k, edHasKey s k = false := fun k => by
      unfold edHasKey
      rw [hed]
    cases hloc : s._n_location_object with
    | none =>
      rw [hloc] at h
      simp only [Option.isSome_none, Bool.false_eq_true, if_false, Except.ok.injEq] at h
      subst h
      refine ⟨fun k => by rw [hedk k]; simp, ?_, rfl, ?_, fun t ht => ht, id⟩
      · rw [hrel]
      · rw [hloc]
    | some l =>
      rw [hloc] at h
      simp only [Option.isSome_some, if_true] at h
      obtain ⟨⟨rn, s2⟩, hr, hrr⟩ := bind_ok_inv h
      simp only [Except.ok.injEq] at hrr
      subst hrr
      obtain ⟨r1, r2, r3, r4, r5, r6, r7, r8⟩ :=
        n_relationship_object_location_facts s rn s2 hrel hr
      refine ⟨fun k => by rw [r6 k, hedk k]; simp, ?_, r2, ?_, r7, r8⟩
      · rw [r1]
        rfl
      · rw [r3]
        rfl
  | some d =>
    simp only [hed, Option.isSome_some, if_true, ok_bind] at h
    obtain ⟨⟨en, s1⟩, hx, h2⟩ := bind_ok_inv h
    simp only [ok_bind] at h2
    obtain ⟨g1, g2, g3, g4, g5, g6⟩ :=
      n_exif_dictionary_object_facts s d en s1 hobj hed hx
    have hedk : ∀ k, edHasKey s k = decide (k ∈ dictKeys d) := fun k => by
      unfold edHasKey
      rw [hed]
    cases hloc : s1._n_location_object with
    | none =>
      rw [hloc] at h2
      simp only [Option.isSome_none, Bool.false_eq_true, if_false, Except.ok.injEq] at h2
      subst h2
      refine ⟨fun k => by rw [g1 k, hedk k], ?_, g6, ?_, g2, g3⟩
      · rw [g4.trans hrel, ← g5, hloc]
      · rw [← g5, hloc]
    | some l =>
      rw [hloc] at h2
      simp only [Option.isSome_some, if_true] at h2
      obtain ⟨⟨rn, s2⟩, hr, hrr⟩ := bind_ok_inv h2
      simp only [Except.ok.injEq] at hrr
      subst hrr
      obtain ⟨r1, r2, r3, r4, r5, r6, r7, r8⟩ :=
        n_relationship_object_location_facts s1 rn s2 (g4.trans hrel) hr
      refine ⟨fun k => by rw [r6 k, g1 k, hedk k], ?_, r2.trans g6, ?_,
        fun t ht => r7 t (g2 t ht), fun hi => r8 (g3 hi)⟩
      · rw [r1, ← g5, hloc]
        rfl
      · rw [r3, ← g5, hloc]
        rfl

lemma cd_entry_kv (nd : String) (cdict : List (String × Node)) (s : MState)
    (key : String) (s' : MState) (lex : String) (dt : Option String)
    (h : controlled_dictionary_entry nd cdict s key = .ok s')
    (hv : dictLookup cdict key = some (.lit lex dt)) :
    ∃ e, Triple.mk (.uri e) (NS_UCO_TYPES "key") (.lit key none) ∈ s'.graph ∧
      Triple.mk (.uri e) (NS_UCO_TYPES "value") (.lit lex dt) ∈ s'.graph := by
  unfold controlled_dictionary_entry at h
  rw [hv] at h
  simp only [local_uuid, Except.ok.injEq] at h
  subst h
  exact ⟨_, mem_graphAdd_of_mem _ _ _ (mem_graphAdd_self _ _), mem_graphAdd_self _ _⟩

lemma cd_fold_kv (nd : String) (cdict : List (String × Node)) (KS : List String) :
    ∀ (s s' : MState) (key lex : String) (dt : Option String),
      KS.foldlM (controlled_dictionary_entry nd cdict) s = .ok s' →
      key ∈ KS → dictLookup cdict key = some (.lit lex dt) →
      ∃ e, Triple.mk (.uri e) (NS_UCO_TYPES "key") (.lit key none) ∈ s'.graph ∧
        Triple.mk (.uri e) (NS_UCO_TYPES "value") (.lit lex dt) ∈ s'.graph := by
  induction KS with
  | nil =>
    intro s s' key lex dt h hm hv
    exact absurd hm (List.not_mem_nil key)
  | cons a L ih =>
    intro s s' key lex dt h hm hv
    rw [List.foldlM_cons] at h
    obtain ⟨s1, h1, h2⟩ := bind_ok_inv h
    rcases List.mem_cons.1 hm with he | hmL
    · subst he
      obtain ⟨e, hk, hvv⟩ := cd_entry_kv nd cdict s key s1 lex dt h1 hv
      obtain ⟨g1, g2, g3, g4, g5, g6, g7, g8⟩ := cd_fold_facts nd cdict L s1 s' h2
      exact ⟨e, g2 _ hk, g2 _ hvv⟩
    · exact ih s1 s' key lex dt h2 hmL hv

lemma cd_to_node_kv (s : MState) (cdict : List (String × Node)) (n : String)
    (s' : MState) (key lex : String) (dt : Option String)
    (h : controlled_dictionary_object_to_node s cdict = .ok (n, s'))
    (hv : dictLookup cdict key = some (.lit lex dt)) :
    ∃ e, Triple.mk (.uri e) (NS_UCO_TYPES "key") (.lit key none) ∈ s'.graph ∧
      Triple.mk (.uri e) (NS_UCO_TYPES "value") (.lit lex dt) ∈ s'.graph := by
  unfold controlled_dictionary_object_to_node at h
  simp only [local_uuid] at h
  obtain ⟨s1, h1, h2⟩ := bind_ok_inv h
  simp only [Except.ok.injEq, Prod.mk.injEq] at h2
  obtain ⟨hn, hs⟩ := h2
  subst hs
  have hmem : key ∈ sortStrs (dictKeys cdict) := by
    rw [mem_sortStrs]
    exact hasLitAt_mem_keys _ _ (by unfold hasLitAt; rw [hv])
  exact cd_fold_kv _ _ _ _ _ key lex dt h1 hmem hv

lemma n_exif_dictionary_object_kv (s : MState) (d : List (String × Node))
    (n : String) (s' : MState) (key lex : String) (dt : Option String)
    (hobj : s._n_exif_dictionary_object = none)
    (hd : s._exif_dictionary_dict = some d)
    (h : n_exif_dictionary_object s = .ok (n, s'))
    (hv : dictLookup d key = some (.lit lex dt)) :
    ∃ e, Triple.mk (.uri e) (NS_UCO_TYPES "key") (.lit key none) ∈ s'.graph ∧
      Triple.mk (.uri e) (NS_UCO_TYPES "value") (.lit lex dt) ∈ s'.graph := by
  unfold n_exif_dictionary_object at h
  rw [hobj] at h
  have hex : exif_dictionary_dict s = (d, s) := by
    unfold exif_dictionary_dict
    rw [hd]
  rw [hex] at h
  obtain ⟨⟨cn, s1⟩, hc, h2⟩ := bind_ok_inv h
  obtain ⟨⟨ef, s2⟩, hef, h3⟩ := bind_ok_inv h2
  simp only [Except.ok.injEq, Prod.mk.injEq] at h3
  obtain ⟨hn, hs⟩ := h3
  subst hs
  obtain ⟨e, hk, hvv⟩ := cd_to_node_kv s d cn s1 key lex dt hc hv
  obtain ⟨f1, f2, f3, f4, f5, f6, f7, f8, f9, f10, f11⟩ := n_exif_facet_facts _ _ _ hef
  exact ⟨e, mem_graphAdd_of_mem _ _ _ (f9 _ hk), mem_graphAdd_of_mem _ _ _ (f9 _ hvv)⟩

lemma endPhase_kv (s sf : MState)
    (hrel : s._n_relationship_object_location = none)
    (hobj : s._n_exif_dictionary_object = none)
    (h : endPhase s = .ok sf) :
    ∀ key lex dt, edLookup s key = some (.lit lex dt) →
      ∃ e, Triple.mk (.uri e) (NS_UCO_TYPES "key") (.lit key none) ∈ sf.graph ∧
        Triple.mk (.uri e) (NS_UCO_TYPES "value") (.lit lex dt) ∈ sf.graph := by
  intro key lex dt hv
  unfold endPhase at h
  cases hed : s._exif_dictionary_dict with
  | none =>
    rw [show edLookup s key = none from by unfold edLookup; rw [hed]] at hv
    exact absurd hv (by simp)
  | some d =>
    simp only [hed, Option.isSome_some, if_true, ok_bind] at h
    obtain ⟨⟨en, s1⟩, hx, h2⟩ := bind_ok_inv h
    simp only [ok_bind] at h2
    have hvd : dictLookup d key = some (.lit lex dt) := by
      rw [show edLookup s key = dictLookup d key from by unfold edLookup; rw [hed]] at hv
      exact hv
    obtain ⟨e, hk, hvv⟩ := n_exif_dictionary_object_kv s d en s1 key lex dt hobj hed hx hvd
    obtain ⟨g1, g2, g3, g4, g5, g6⟩ := n_exif_dictionary_object_facts s d en s1 hobj hed hx
    cases hloc : s1._n_location_object with
    | none =>
      rw [hloc] at h2
      simp only [Option.isSome_none, Bool.false_eq_true, if_false, Except.ok.injEq] at h2
      subst h2
      exact ⟨e, hk, hvv⟩
    | some l =>
      rw [hloc] at h2
      simp only [Option.isSome_some, if_true] at h2
      obtain ⟨⟨rn, s2⟩, hr, hrr⟩ := bind_ok_inv h2
      simp only [Except.ok.injEq] at hrr
      subst hrr
      obtain ⟨r1, r2, r3, r4, r5, r6, r7, r8⟩ :=
        n_relationship_object_location_facts s1 rn s2 (g4.trans hrel) hr
      exact ⟨e, r7 _ hk, r7 _ hvv⟩

lemma any_congr (l : List String) (f g : String → Bool) (h : ∀ x ∈ l, f x = g x) :
    l.any f = l.any g := by
  induction l with
  | nil => rfl
  | cons a t ih =>
    simp only [List.any_cons, h a (by simp), ih (fun x hx => h x (by simp [hx]))]

lemma hasTypeTriple_mono (g g' : List Triple) (c : Node) (hsub : ∀ t ∈ g, t ∈ g')
    (h : hasTypeTriple g c = true) : hasTypeTriple g' c = true := by
  unfold hasTypeTriple at *
  rw [List.any_eq_true] at *
  obtain ⟨t, ht, hc⟩ := h
  exact ⟨t, hsub t ht, hc⟩

lemma decide_mem_and_collapse (P : List String) (i : String) (b : Bool)
    (hm : b = true → i ∈ P) : (decide (i ∈ P) && b) = b := by
  cases hb : b with
  | false => simp
  | true => simp [hm hb]

lemma any_filterlike_collapse (P C : List String) (f : String → Bool)
    (hsub : ∀ j ∈ C, f j = true → j ∈ P) :
    P.any (fun i => decide (i ∈ C) && f i) = C.any f := by
  apply Bool.eq_iff_iff.mpr
  simp only [List.any_eq_true, Bool.and_eq_true, decide_eq_true_eq]
  constructor
  · rintro ⟨i, hiP, hiC, hf⟩
    exact ⟨i, hiC, hf⟩
  · rintro ⟨j, hjC, hf⟩
    exact ⟨j, hsub j hjC hf, hjC, hf⟩

lemma any_eqlit (c : String) (g : String → Bool) (P : List String)
    (hsub : g c = true → c ∈ P) :
    P.any (fun i => (i == c) && g i) = g c := by
  apply Bool.eq_iff_iff.mpr
  simp only [List.any_eq_true, Bool.and_eq_true, beq_iff_eq]
  constructor
  · rintro ⟨i, hiP, hie, hf⟩
    exact hie ▸ hf
  · intro hf
    exact ⟨c, hsub hf, rfl, hf⟩

lemma any_coordLit (sp : MState) (P : List String)
    (hsub : ∀ j ∈ compCoordIris, hasLitAt sp._kv_dict_raw j = true → j ∈ P) :
    P.any (coordLit sp) = compCoordIris.any (fun j => hasLitAt sp._kv_dict_raw j) := by
  unfold coordLit
  exact any_filterlike_collapse P compCoordIris _ hsub

lemma any_posLit (sp : MState) (P : List String)
    (hsub : hasLitAt sp._kv_dict_printconv iriCompositeGPSPosition = true →
      iriCompositeGPSPosition ∈ P) :
    P.any (posLit sp) = hasLitAt sp._kv_dict_printconv iriCompositeGPSPosition := by
  unfold posLit
  exact any_eqlit iriCompositeGPSPosition _ P hsub

lemma any_heightLit (sp : MState) (P : List String)
    (hsub : hasLitAt sp._kv_dict_raw iriExifImageHeight = true →
      iriExifImageHeight ∈ P) :
    P.any (heightLit sp) = hasLitAt sp._kv_dict_raw iriExifImageHeight := by
  unfold heightLit
  exact any_eqlit iriExifImageHeight _ P hsub

lemma charEqOfToNat (a b : Char) (h : a.toNat = b.toNat) : a = b := by
  have h2 := congrArg Char.ofNat h
  rwa [Char.ofNat_toNat, Char.ofNat_toNat] at h2

lemma strEqOfData (a b : String) (h : a.data = b.data) : a = b := by
  cases a
  cases b
  exact congrArg String.mk h

lemma charListLe_total (x : List Char) : ∀ y : List Char,
    charListLe x y = true ∨ charListLe y x = true := by
  induction x with
  | nil => exact fun y => Or.inl rfl
  | cons a as ih =>
    intro y
    cases y with
    | nil => exact Or.inr rfl
    | cons b bs =>
      by_cases h1 : a.toNat < b.toNat
      · exact Or.inl (by simp [charListLe, h1])
      · by_cases h2 : b.toNat < a.toNat
        · exact Or.inr (by simp [charListLe, h2])
        · rcases ih bs with h | h
          · exact Or.inl (by simp [charListLe, h1, h2, h])
          · exact Or.inr (by simp [charListLe, h1, h2, h])

lemma charListLe_trans : ∀ (x y z : List Char), charListLe x y = true →
    charListLe y z = true → charListLe x z = true
  | [], _, _, _, _ => rfl
  | _ :: _, [], _, h1, _ => by simp [charListLe] at h1
  | _ :: _, _ :: _, [], _, h2 => by simp [charListLe] at h2
  | a :: as, b :: bs, c :: cs, h1, h2 => by
    simp only [charListLe] at h1 h2 ⊢
    rcases Nat.lt_trichotomy a.toNat b.toNat with hab | hab | hab
    · rcases Nat.lt_trichotomy b.toNat c.toNat with hbc | hbc | hbc
      · simp [lt_trans hab hbc]
      · simp [hbc ▸ hab]
      · rw [if_neg (by omega), if_pos hbc] at h2
        exact absurd h2 (by simp)
    · rcases Nat.lt_trichotomy b.toNat c.toNat with hbc | hbc | hbc
      · simp [hab ▸ hbc]
      · rw [if_neg (by omega), if_neg (by omega)] at h1
        rw [if_neg (by omega), if_neg (by omega)] at h2
        rw [if_neg (by omega), if_neg (by omega)]
        exact charListLe_trans as bs cs h1 h2
      · rw [if_neg (by omega), if_pos hbc] at h2
        exact absurd h2 (by simp)
    · rw [if_neg (by omega), if_pos hab] at h1
      exact absurd h1 (by simp)

lemma charListLe_antisymm : ∀ (x y : List Char), charListLe x y = true →
    charListLe y x = true → x = y
  | [], [], _, _ => rfl
  | [], _ :: _, _, h2 => by simp [charListLe] at h2
  | _ :: _, [], h1, _ => by simp [charListLe] at h1
  | a :: as, b :: bs, h1, h2 => by
    simp only [charListLe] at h1 h2
    rcases Nat.lt_trichotomy a.toNat b.toNat with hab | hab | hab
    · rw [if_neg (by omega), if_pos hab] at h2
      exact absurd h2 (by simp)
    · rw [if_neg (by omega), if_neg (by omega)] at h1
      rw [if_neg (by omega), if_neg (by omega)] at h2
      have has := charListLe_antisymm as bs h1 h2
      rw [charEqOfToNat a b hab, has]
    · rw [if_neg (by omega), if_pos hab] at h1
      exact absurd h1 (by simp)

lemma strLe_total (a b : String) : strLe a b = true ∨ strLe b a = true :=
  charListLe_total a.data b.data

lemma strLe_trans (a b c : String) (h1 : strLe a b = true) (h2 : strLe b c = true) :
    strLe a c = true :=
  charListLe_trans a.data b.data c.data h1 h2

lemma strLe_antisymm (a b : String) (h1 : strLe a b = true) (h2 : strLe b a = true) :
    a = b :=
  strEqOfData a b (charListLe_antisymm a.data b.data h1 h2)

lemma pairwise_insortStr (x : String) (l : List String)
    (h : l.Pairwise (fun a b => strLe a b = true)) :
    (insortStr x l).Pairwise (fun a b => strLe a b = true) := by
  induction l with
  | nil => simp [insortStr]
  | cons y ys ih =>
    rw [List.pairwise_cons] at h
    by_cases hle : strLe x y = true
    · simp only [insortStr, if_pos hle]
      refine List.Pairwise.cons ?_ (List.Pairwise.cons h.1 h.2)
      intro b hb
      rcases List.mem_cons.1 hb with rfl | hb2
      · exact hle
      · exact strLe_trans _ _ _ hle (h.1 b hb2)
    · simp only [insortStr, if_neg hle]
      refine List.Pairwise.cons ?_ (ih h.2)
      intro b hb
      rcases (mem_insortStr x b ys).1 hb with hbx | hb2
      · rw [hbx]
        rcases strLe_total x y with hh | hh
        · exact absurd hh hle
        · exact hh
      · exact h.1 b hb2

lemma pairwise_sortStrs (xs : List String) :
    (sortStrs xs).Pairwise (fun a b => strLe a b = true) := by
  induction xs with
  | nil => simp [sortStrs]
  | cons a t ih =>
    simp only [sortStrs, List.foldr_cons] at *
    exact pairwise_insortStr a _ ih

lemma mem_prefix_of_sorted (L Q R : List String) (a b : String)
    (hp : L.Pairwise (fun a b => strLe a b = true)) (hnd : L.Nodup)
    (hdec : L = Q ++ b :: R) (ha : a ∈ L) (hab : strLe a b = true) (hne : a ≠ b) :
    a ∈ Q := by
  subst hdec
  rcases List.mem_append.1 ha with h | h
  · exact h
  rcases List.mem_cons.1 h with rfl | hR
  · exact absurd rfl hne
  · have hpair := (List.pairwise_cons.1 (List.pairwise_append.1 hp).2.1).1 a hR
    exact absurd (strLe_antisymm a b hab hpair) hne

lemma run_facts (tr tpc : Option (List (String × Node))) (ud : Bool) (ns : String)
    (sf : MState)
    (hktr : ∀ kv ∈ tr.getD ([] : List (String × Node)), isExiftoolIri kv.1 = true)
    (hkpc : ∀ kv ∈ tpc.getD ([] : List (String × Node)), isExiftoolIri kv.1 = true)
    (h : runMapper tr tpc ud ns = .ok sf) :
    countTypeTriples sf.graph (NS_UCO_LOCATION "LatLongCoordinatesFacet")
      = (compCoordIris.any (fun j => hasLitAt (loadDict (tr.getD [])) j)).toNat ∧
    countTypeTriples sf.graph (NS_UCO_CORE "Relationship")
      = (compCoordIris.any (fun j => hasLitAt (loadDict (tr.getD [])) j)
          || hasLitAt (loadDict (tpc.getD [])) iriCompositeGPSPosition).toNat ∧
    countTypeTriples sf.graph (NS_UCO_LOCATION "Location")
      = (compCoordIris.any (fun j => hasLitAt (loadDict (tr.getD [])) j)
          || hasLitAt (loadDict (tpc.getD [])) iriCompositeGPSPosition).toNat ∧
    (∀ i ∈ exifGpsIris,
      hasEntryKey sf.graph (pyReplace i iriExifGPSStem "")
        = hasLitAt (loadDict (tr.getD [])) i) ∧
    (hasEntryKey sf.graph "Image Height"
      = hasLitAt (loadDict (tr.getD [])) iriExifImageHeight) ∧
    (hasEntryKey sf.graph "Image Width"
      = hasLitAt (loadDict (tr.getD [])) iriExifImageWidth) ∧
    (∀ i ∈ compCoordIris, ∀ lex dt,
      dictLookup (loadDict (tr.getD [])) i = some (.lit lex dt) →
      ∃ f, Triple.mk (.uri f) (NS_UCO_LOCATION (coordProp i))
        (.lit lex (some (NS_XSD "decimal"))) ∈ sf.graph) ∧
    (∀ lex dt, dictLookup (loadDict (tr.getD [])) iriExifImageHeight
        = some (.lit lex dt) →
      ∃ n, pyIntOfString lex = some n ∧
        ∃ f, Triple.mk (.uri f) (NS_UCO_OBSERVABLE "pictureHeight") (intLiteral n)
          ∈ sf.graph) ∧
    (∀ lex dt, dictLookup (loadDict (tr.getD [])) iriFileSize = some (.lit lex dt) →
      ∃ n, pyIntOfString lex = some n ∧
        ∃ f, Triple.mk (.uri f) (NS_UCO_OBSERVABLE "sizeInBytes") (intLiteral n)
          ∈ sf.graph) ∧
    (litValue (dictLookup (loadDict (tr.getD [])) iriMIMEType) = some "image/jpeg" ∨
        hasLitAt (loadDict (tr.getD [])) iriExifImageHeight = true →
      ∀ lex dt, dictLookup (loadDict (tr.getD [])) iriExifImageWidth
          = some (.lit lex dt) →
      ∃ n, pyIntOfString lex = some n ∧
        ∃ f, Triple.mk (.uri f) (NS_UCO_OBSERVABLE "pictureWidth") (intLiteral n)
          ∈ sf.graph) ∧
    1 ≤ countTypeTriples sf.graph (NS_UCO_OBSERVABLE "ObservableObject") ∧
    countTypeTriples sf.graph (NS_UCO_OBSERVABLE "ObservableObject") ≤ 2 ∧
    (∀ i ∈ exifGpsIris, ∀ lex dt,
      dictLookup (loadDict (tr.getD [])) i = some (.lit lex dt) →
      ∃ e, Triple.mk (.uri e) (NS_UCO_TYPES "key")
          (.lit (pyReplace i iriExifGPSStem "") none) ∈ sf.graph ∧
        Triple.mk (.uri e) (NS_UCO_TYPES "value") (.lit lex dt) ∈ sf.graph) ∧
    (∀ k, hasEntryKey sf.graph k = true →
      (∃ i ∈ exifGpsIris, k = pyReplace i iriExifGPSStem "") ∨
      k = "Image Height" ∨ k = "Image Width") := by
  unfold runMapper map_raw_and_printconv_rdf at h
  obtain ⟨sp, hpre, h⟩ := bind_ok_inv h
  obtain ⟨sm, hfold, hend⟩ := bind_ok_inv h
  obtain ⟨L1, L2, L3, L4, L5, L6, L7, L8, L9, L10, L11, L12, L13⟩ :=
    loadPhase_facts ns ud tr tpc
  obtain ⟨p1, p2, p3, p4, p5, p6, p7, p8, p9, p10, p11, p12, p13⟩ :=
    prePhase_facts _ sp L4 L5 L6 L7 L8 L9 L10 L11 L12 L13 hpre
  rw [L1] at p1 p4 p9
  rw [L2] at p2
  rw [L3] at p3
  have hiris : sp._exiftool_predicate_iris
      = (inputUnion tr tpc).filter (fun x => x ≠ iriMIMEType) := p3
  have hmemP : ∀ i, i ≠ iriMIMEType →
      (i ∈ dictKeys (loadDict (tr.getD [])) ∨ i ∈ dictKeys (loadDict (tpc.getD []))) →
      i ∈ sortStrs sp._exiftool_predicate_iris := by
    intro i hne hin
    rw [mem_sortStrs, hiris, List.mem_filter]
    exact ⟨(mem_inputUnion tr tpc i).2 hin, by simp [hne]⟩
  have hLiris : ∀ i ∈ sortStrs sp._exiftool_predicate_iris, isExiftoolIri i = true := by
    intro i hi
    rw [mem_sortStrs, hiris, List.mem_filter] at hi
    rcases (mem_inputUnion tr tpc i).1 hi.1 with hc | hc
    · exact isExiftoolIri_of_mem_loadKeys _ hktr i hc
    · exact isExiftoolIri_of_mem_loadKeys _ hkpc i hc
  have hnd : (([] : List String) ++ sortStrs sp._exiftool_predicate_iris).Nodup := by
    rw [List.nil_append]
    refine nodup_sortStrs _ ?_
    rw [hiris]
    exact List.Nodup.filter _ (nodup_inputUnion tr tpc)
  have hbase : FoldInv sp [] sp := by
    refine ⟨fun i _ => rfl, fun i _ => rfl, ?_, ?_, p7, ?_, ?_, ?_, ?_, rfl, p12,
      fun k => rfl, fun t ht => ht, ?_, ?_, ?_, ?_, ?_, ?_⟩
    · rw [p6]
      rfl
    · rw [p5]
      rfl
    · simp
    · intro i hi
      rw [show edHasKey sp (pyReplace i iriExifGPSStem "") = false from
        by unfold edHasKey; rw [p8]]
      simp
    · rw [show edHasKey sp "Image Height" = false from by unfold edHasKey; rw [p8]]
      simp
    · rw [show edHasKey sp "Image Width" = false from by unfold edHasKey; rw [p8]]
      simp
    · exact fun i hi => absurd hi (List.not_mem_nil i)
    · exact fun hi => absurd hi (List.not_mem_nil _)
    · exact fun hi => absurd hi (List.not_mem_nil _)
    · intro Q R hdec
      exact absurd hdec (by simp)
    · exact fun i hi hiP => absurd hiP (List.not_mem_nil i)
    · intro k hk
      rw [show edHasKey sp k = false from by unfold edHasKey; rw [p8]] at hk
      exact absurd hk Bool.false_ne_true
  have hfi := foldlM_inv sp _ [] sp sm hLiris hnd hbase hfold
  rw [List.nil_append] at hfi
  have hraw_ne : ∀ i, i ≠ iriMIMEType →
      hasLitAt sp._kv_dict_raw i = hasLitAt (loadDict (tr.getD [])) i := by
    intro i hne
    rw [p1]
    unfold hasLitAt
    rw [dictLookup_dictRemove_ne _ _ _ hne]
  have hpc_ne : ∀ i, i ≠ iriMIMEType →
      hasLitAt sp._kv_dict_printconv i = hasLitAt (loadDict (tpc.getD [])) i := by
    intro i hne
    rw [p2]
    unfold hasLitAt
    rw [dictLookup_dictRemove_ne _ _ _ hne]
  have hlk_ne : ∀ i, i ≠ iriMIMEType →
      dictLookup sp._kv_dict_raw i = dictLookup (loadDict (tr.getD [])) i := by
    intro i hne
    rw [p1, dictLookup_dictRemove_ne _ _ _ hne]
  have hccne : ∀ j ∈ compCoordIris, j ≠ iriMIMEType := by decide
  have hgpsne : ∀ j ∈ exifGpsIris, j ≠ iriMIMEType := by decide
  have hHne : iriExifImageHeight ≠ iriMIMEType := by decide
  have hWne : iriExifImageWidth ≠ iriMIMEType := by decide
  have hSne : iriFileSize ≠ iriMIMEType := by decide
  have hPne : iriCompositeGPSPosition ≠ iriMIMEType := by decide
  have hmemRaw : ∀ i, i ≠ iriMIMEType →
      hasLitAt (loadDict (tr.getD [])) i = true →
      i ∈ sortStrs sp._exiftool_predicate_iris := by
    intro i hne hf
    exact hmemP i hne (Or.inl (hasLitAt_mem_keys _ _ hf))
  have hLL : sm._n_location_object_latlong_facet.isSome
      = compCoordIris.any (fun j => hasLitAt (loadDict (tr.getD [])) j) := by
    rw [hfi.ll_eq]
    rw [any_coordLit sp _ (fun j hj hf => hmemRaw j (hccne j hj)
      (by rw [← hraw_ne j (hccne j hj)]; exact hf))]
    exact any_congr _ _ _ (fun x hx => hraw_ne x (hccne x hx))
  have hLoc : sm._n_location_object.isSome
      = (compCoordIris.any (fun j => hasLitAt (loadDict (tr.getD [])) j)
          || hasLitAt (loadDict (tpc.getD [])) iriCompositeGPSPosition) := by
    rw [hfi.loc_eq]
    rw [any_coordLit sp _ (fun j hj hf => hmemRaw j (hccne j hj)
      (by rw [← hraw_ne j (hccne j hj)]; exact hf))]
    rw [any_posLit sp _ (fun hf => hmemP _ hPne
      (Or.inr (hasLitAt_mem_keys _ _ (by rw [← hpc_ne _ hPne]; exact hf))))]
    rw [any_congr _ _ _ (fun x hx => hraw_ne x (hccne x hx)), hpc_ne _ hPne]
  obtain ⟨E1, E2, E3, E4, E5, E6⟩ := endPhase_facts sm sf hfi.rel_eq
    (hfi.edobj_eq.trans p13) hend
  obtain ⟨i1, i2, i3, i4, i5⟩ := E6 hfi.tinv
  refine ⟨?_, ?_, ?_, ?_, ?_, ?_, ?_, ?_, ?_, ?_, ?_, ?_, ?_, ?_⟩
  · rw [i2, E3, hLL]
  · rw [i3, E2, hLoc]
  · rw [i1, E4, hLoc]
  · intro i hi
    rw [E1, hfi.entry_eq, p11]
    simp only [Bool.false_or]
    rw [hfi.ed_gps i hi, hraw_ne i (hgpsne i hi)]
    exact decide_mem_and_collapse _ _ _ (fun hf => hmemRaw i (hgpsne i hi) hf)
  · rw [E1, hfi.entry_eq, p11]
    simp only [Bool.false_or]
    rw [hfi.ed_h, hraw_ne _ hHne]
    exact decide_mem_and_collapse _ _ _ (fun hf => hmemRaw _ hHne hf)
  · rw [E1, hfi.entry_eq, p11]
    simp only [Bool.false_or]
    rw [hfi.ed_w, hraw_ne _ hWne]
    exact decide_mem_and_collapse _ _ _ (fun hf => hmemRaw _ hWne hf)
  · intro i hi lex dt hlk
    have hfl : hasLitAt (loadDict (tr.getD [])) i = true := by
      unfold hasLitAt
      rw [hlk]
    obtain ⟨f, hf⟩ := hfi.coord_tri i (hmemRaw i (hccne i hi) hfl) hi lex dt
      (by rw [hlk_ne i (hccne i hi)]; exact hlk)
    exact ⟨f, E5 _ hf⟩
  · intro lex dt hlk
    have hfl : hasLitAt (loadDict (tr.getD [])) iriExifImageHeight = true := by
      unfold hasLitAt
      rw [hlk]
    obtain ⟨n, hn, f, hf⟩ := hfi.height_tri (hmemRaw _ hHne hfl) lex dt
      (by rw [hlk_ne _ hHne]; exact hlk)
    exact ⟨n, hn, f, E5 _ hf⟩
  · intro lex dt hlk
    have hfl : hasLitAt (loadDict (tr.getD [])) iriFileSize = true := by
      unfold hasLitAt
      rw [hlk]
    obtain ⟨n, hn, f, hf⟩ := hfi.size_tri (hmemRaw _ hSne hfl) lex dt
      (by rw [hlk_ne _ hSne]; exact hlk)
    exact ⟨n, hn, f, E5 _ hf⟩
  · intro htrig lex dt hlk
    have hfl : hasLitAt (loadDict (tr.getD [])) iriExifImageWidth = true := by
      unfold hasLitAt
      rw [hlk]
    obtain ⟨Q, R, hdec⟩ := List.append_of_mem (hmemRaw _ hWne hfl)
    have hcond : (sp._n_raster_picture_facet.isSome || Q.any (heightLit sp)) = true := by
      rcases htrig with hjpeg | hhgt
      · rw [p9, hjpeg]
        simp
      · have hHmem : iriExifImageHeight ∈ sortStrs sp._exiftool_predicate_iris :=
          hmemRaw _ hHne hhgt
        have hndL : (sortStrs sp._exiftool_predicate_iris).Nodup := by
          simpa using hnd
        have hQ : iriExifImageHeight ∈ Q :=
          mem_prefix_of_sorted _ Q R iriExifImageHeight iriExifImageWidth
            (pairwise_sortStrs _) hndL hdec hHmem (by decide) (by decide)
        have hhl : heightLit sp iriExifImageHeight = true := by
          unfold heightLit
          rw [hasLitAt_congr (hlk_ne _ hHne), hhgt]
          simp
        rw [Bool.or_eq_true]
        exact Or.inr (List.any_eq_true.2 ⟨_, hQ, hhl⟩)
    obtain ⟨n, hn, f, hf⟩ := hfi.width_tri Q R hdec hcond lex dt
      (by rw [hlk_ne _ hWne]; exact hlk)
    exact ⟨n, hn, f, E5 _ hf⟩
  · obtain ⟨q1, q2, q3, q4, q5⟩ := p12
    have hcp : 0 < countTypeTriples sp.graph (NS_UCO_OBSERVABLE "ObservableObject") := by
      refine lt_of_lt_of_le ?_ q4
      rw [p10]
      exact Nat.zero_lt_one
    have hty := (hasTypeTriple_pos _ _).2 hcp
    have htyf := hasTypeTriple_mono _ _ _ E5
      (hasTypeTriple_mono _ _ _ (fun t ht => hfi.mono t ht) hty)
    exact (hasTypeTriple_pos _ _).1 htyf
  · refine le_trans i5 ?_
    have hb : ∀ b : Bool, b.toNat ≤ 1 := by decide
    exact le_trans (Nat.add_le_add (hb _) (hb _)) (by norm_num)
  · intro i hi lex dt hlk
    have hfl : hasLitAt (loadDict (tr.getD [])) i = true := by
      unfold hasLitAt
      rw [hlk]
    have hmm := hmemRaw i (hgpsne i hi) hfl
    have hlkp : dictLookup sp._kv_dict_raw i = some (.lit lex dt) := by
      rw [hlk_ne i (hgpsne i hi)]
      exact hlk
    have hed := hfi.ed_gps_val i hi hmm lex dt hlkp
    exact endPhase_kv sm sf hfi.rel_eq (hfi.edobj_eq.trans p13) hend _ _ _ hed
  · intro k hk
    rw [E1, hfi.entry_eq, p11] at hk
    simp only [Bool.false_or] at hk
    exact hfi.ed_dom k hk

lemma loadPhase_printconv_empty (s : MState) (tr : Option (List (String × Node)))
    (h : s._kv_dict_printconv = []) :
    loadPhase s tr (some []) = loadPhase s tr none := by
  unfold loadPhase
  cases tr <;>
    simp only [_load_xml_file_into_dict, List.foldl_nil, dictKeys, h, List.map_nil,
      setUnion, List.filter_nil, List.append_nil]

/-- C8: a run given only a raw dump behaves identically to a run given
the same raw dump together with an everywhere-empty print-converted
mapping — the two runs produce the same result state, graph included. -/
theorem C8_raw_only_equals_empty_printconv (ts : List (String × Node)) (ud : Bool)
    (ns : String) :
    runMapper (some ts) none ud ns = runMapper (some ts) (some []) ud ns := by
  unfold runMapper map_raw_and_printconv_rdf
  rw [loadPhase_printconv_empty _ _ rfl]

/-- C8 witness: the two run flavors agree on the concrete C4 input. -/
theorem C8_raw_only_equals_empty_printconv_witness :
    runMapper (some c4_raw) none false kbNS = runMapper (some c4_raw) (some []) false kbNS :=
  C8_raw_only_equals_empty_printconv c4_raw false kbNS

/-- C10: a dedicated raw-value handler (file size, file name, the three
file timestamps, device model, the GPS coordinate axes, the image
dimensions) given only a print-converted value and no raw value emits no
triple — the state is exactly the post-pop state, whose graph is
unchanged — and still consumes the value from the pending
print-converted mapping. -/
theorem C10_printconv_only_value_discarded (iri : String) (s : MState) (v : Node)
    (hmem : iri ∈ rawOnlyHandlerIris)
    (hraw : dictLookup s._kv_dict_raw iri = none)
    (hpc : dictLookup s._kv_dict_printconv iri = some v) :
    map_raw_and_printconv_iri s iri = .ok (pop_n_exiftool_predicate s iri).2 ∧
    ((pop_n_exiftool_predicate s iri).2).graph = s.graph ∧
    dictLookup ((pop_n_exiftool_predicate s iri).2)._kv_dict_printconv iri = none := by
  refine ⟨?_, rfl, dictLookup_dictRemove_self _ _⟩
  simp only [rawOnlyHandlerIris, List.mem_append, List.mem_cons,
    List.not_mem_nil, or_false] at hmem
  rcases hmem with ((h | h | h | h | h) | hg) | (h | h | h | h | h | h)
  · subst h; rw [map_iri_eq_compositeGPSAltitude]
    exact compositeCoordBranch_raw_none _ _ _ hraw
  · subst h; rw [map_iri_eq_compositeGPSLatitude]
    exact compositeCoordBranch_raw_none _ _ _ hraw
  · subst h; rw [map_iri_eq_compositeGPSLongitude]
    exact compositeCoordBranch_raw_none _ _ _ hraw
  · subst h; rw [map_iri_eq_exifImageHeight]
    exact exifImageHeightBranch_raw_none _ _ hraw
  · subst h; rw [map_iri_eq_exifImageWidth]
    exact exifImageWidthBranch_raw_none _ _ hraw
  · rw [map_iri_eq_exifGps _ _ hg]
    exact exifGpsBranch_raw_none _ _ hraw
  · subst h; rw [map_iri_eq_model]
    exact modelBranch_raw_none _ _ hraw
  · subst h; rw [map_iri_eq_fileAccessDate]
    exact fileDateBranch_raw_none _ _ _ hraw
  · subst h; rw [map_iri_eq_fileInodeChangeDate]
    exact fileDateBranch_raw_none _ _ _ hraw
  · subst h; rw [map_iri_eq_fileModifyDate]
    exact fileDateBranch_raw_none _ _ _ hraw
  · subst h; rw [map_iri_eq_fileName]
    exact fileNameBranch_raw_none _ _ hraw
  · subst h; rw [map_iri_eq_fileSize]
    exact fileSizeBranch_raw_none _ _ hraw

/-- C10 witness: the FileSize handler, fed a state holding only a
print-converted FileSize value, emits nothing and consumes the value. -/
theorem C10_printconv_only_value_discarded_witness :
    iriFileSize ∈ rawOnlyHandlerIris ∧
    dictLookup c10_state._kv_dict_raw iriFileSize = none ∧
    dictLookup c10_state._kv_dict_printconv iriFileSize = some (.lit "12 kB" none) ∧
    (map_raw_and_printconv_iri c10_state iriFileSize
        = .ok (pop_n_exiftool_predicate c10_state iriFileSize).2 ∧
      ((pop_n_exiftool_predicate c10_state iriFileSize).2).graph = c10_state.graph ∧
      dictLookup ((pop_n_exiftool_predicate c10_state iriFileSize).2)._kv_dict_printconv
        iriFileSize = none) :=
  ⟨by decide, by decide, by decide,
    C10_printconv_only_value_discarded iriFileSize c10_state (.lit "12 kB" none)
      (by decide) (by decide) (by decide)⟩

lemma runMapper_unhandled_raw_only (iri : String) (v : Node) (ud : Bool) (ns : String)
    (h : iri ∉ handledIris)
    (ht : iri ≠ "http://www.w3.org/1999/02/22-rdf-syntax-ns#type") :
    runMapper (some [(iri, v)]) none ud ns
      = .ok ({ initState ns ud with
          uuidCounter := 1,
          _n_observable_object := some (ns ++ "File-" ++ "0"),
          _oo_slug := some "File-",
          graph := [⟨.uri (ns ++ "File-" ++ "0"), NS_RDF "type",
                      NS_UCO_OBSERVABLE "ObservableObject"⟩,
                    ⟨.uri (ns ++ "File-" ++ "0"), .uri iri, v⟩] }) := by
  have hm : ¬ iri = iriMIMEType := fun he => h (by rw [he]; decide)
  have hp : (Node.uri iri = NS_RDF "type") = False :=
    eq_false (fun he => ht (Node.uri.inj he))
  unfold runMapper map_raw_and_printconv_rdf loadPhase prePhase endPhase
  simp only [map_iri_eq_mimeType, initState, _load_xml_file_into_dict, List.foldl_cons,
    List.foldl_nil, dictInsert, dictKeys, List.map_cons, List.map_nil, setUnion,
    List.filter_cons, List.filter_nil, List.nil_append, List.append_nil,
    List.not_mem_nil, not_false_iff, not_false_eq_true, ne_eq, decide_True,
    eq_self_iff_true, if_true, ite_true, mimeTypeBranch,
    pop_n_exiftool_predicate, dictLookup, dictRemove, hm, decide_False,
    Bool.not_false, Bool.not_true, if_false, ite_false, n_observable_object,
    local_uuid, stAdd, graphAdd, sortStrs, insortStr, List.foldr_cons, List.foldr_nil,
    List.foldlM, ok_bind, map_iri_eq_default _ _ h, defaultBranch, Option.isSome,
    hp, List.mem_singleton, none_eq_some_eq_false, Option.some.injEq, error_bind,
    Triple.mk.injEq, and_false, false_and, not_true, pure_bind, zero_add,
    false_eq_true_eq_false, toString_zero, List.singleton_append]

lemma runMapper_unhandled_raw_printconv (iri : String) (v w : Node) (ud : Bool)
    (ns : String) (h : iri ∉ handledIris)
    (ht : iri ≠ "http://www.w3.org/1999/02/22-rdf-syntax-ns#type")
    (hvw : v ≠ w) :
    runMapper (some [(iri, v)]) (some [(iri, w)]) ud ns
      = .ok ({ initState ns ud with
          uuidCounter := 1,
          _n_observable_object := some (ns ++ "File-" ++ "0"),
          _oo_slug := some "File-",
          graph := [⟨.uri (ns ++ "File-" ++ "0"), NS_RDF "type",
                      NS_UCO_OBSERVABLE "ObservableObject"⟩,
                    ⟨.uri (ns ++ "File-" ++ "0"), .uri iri, v⟩,
                    ⟨.uri (ns ++ "File-" ++ "0"), .uri iri, w⟩] }) := by
  have hm : ¬ iri = iriMIMEType := fun he => h (by rw [he]; decide)
  have hp : (Node.uri iri = NS_RDF "type") = False :=
    eq_false (fun he => ht (Node.uri.inj he))
  have hw : (w = v) = False := eq_false (fun he => hvw he.symm)
  unfold runMapper map_raw_and_printconv_rdf loadPhase prePhase endPhase
  simp only [map_iri_eq_mimeType, initState, _load_xml_file_into_dict, List.foldl_cons,
    List.foldl_nil, dictInsert, dictKeys, List.map_cons, List.map_nil, setUnion,
    List.filter_cons, List.filter_nil, List.nil_append, List.append_nil,
    List.not_mem_nil, List.mem_cons, List.mem_singleton, not_false_iff,
    not_false_eq_true, ne_eq, decide_True, eq_self_iff_true, if_true, ite_true,
    mimeTypeBranch, pop_n_exiftool_predicate, dictLookup, dictRemove, hm,
    decide_False, Bool.not_false, Bool.not_true, if_false, ite_false,
    n_observable_object, local_uuid, stAdd, graphAdd, sortStrs, insortStr,
    List.foldr_cons, List.foldr_nil, List.foldlM, ok_bind,
    map_iri_eq_default _ _ h, defaultBranch, Option.isSome,
    hp, hw, none_eq_some_eq_false, Option.some.injEq, error_bind,
    Triple.mk.injEq, and_false, false_and, not_true, not_true_eq_false, or_false,
    false_or, pure_bind, zero_add,
    false_eq_true_eq_false, toString_zero, List.singleton_append, List.cons_append]

/-- C6: an identifier matched by no dedicated handler does not make the
mapping fail — the fallback attaches each present value variant as its
own triple on the base observable object under the original identifier.
With only a raw value, exactly one triple with the identifier as
predicate appears: (baseObject, identifier, rawValue); with both a raw
and a (distinct) print-converted value, exactly those two triples
appear. -/
theorem C6_unrecognized_fallback (iri : String) (v w : Node) (ud : Bool) (ns : String)
    (h : iri ∉ handledIris)
    (ht : iri ≠ "http://www.w3.org/1999/02/22-rdf-syntax-ns#type")
    (hvw : v ≠ w) :
    (runOk (runMapper (some [(iri, v)]) none ud ns) = true ∧
      (graphOf (runMapper (some [(iri, v)]) none ud ns)).filter
          (fun t => t.p == .uri iri)
        = [⟨.uri (ns ++ "File-" ++ "0"), .uri iri, v⟩]) ∧
    (runOk (runMapper (some [(iri, v)]) (some [(iri, w)]) ud ns) = true ∧
      (graphOf (runMapper (some [(iri, v)]) (some [(iri, w)]) ud ns)).filter
          (fun t => t.p == .uri iri)
        = [⟨.uri (ns ++ "File-" ++ "0"), .uri iri, v⟩,
           ⟨.uri (ns ++ "File-" ++ "0"), .uri iri, w⟩]) := by
  have hb0 : ((NS_RDF "type") == Node.uri iri) = false := by
    refine beq_eq_false_iff_ne.2 (fun he => ht ?_)
    have : NS_RDF "type" = Node.uri "http://www.w3.org/1999/02/22-rdf-syntax-ns#type" := rfl
    rw [this] at he
    exact (Node.uri.inj he).symm
  have hb1 : (Node.uri iri == Node.uri iri) = true := beq_self_eq_true _
  refine ⟨?_, ?_⟩
  · rw [runMapper_unhandled_raw_only iri v ud ns h ht]
    constructor
    · rfl
    · simp only [graphOf, List.filter_cons, List.filter_nil, hb0, hb1,
        false_eq_true_eq_false, if_true, if_false, ite_true, ite_false]
  · rw [runMapper_unhandled_raw_printconv iri v w ud ns h ht hvw]
    constructor
    · rfl
    · simp only [graphOf, List.filter_cons, List.filter_nil, hb0, hb1,
        false_eq_true_eq_false, if_true, if_false, ite_true, ite_false]

/-- C6 witness: the unrecognized identifier Foo/1.0/Bar with raw value
"42" and print-converted value "forty-two". -/
theorem C6_unrecognized_fallback_witness :
    (runOk (runMapper (some [("http://ns.exiftool.org/Foo/1.0/Bar", Node.lit "42" none)])
        none false kbNS) = true ∧
      (graphOf (runMapper (some [("http://ns.exiftool.org/Foo/1.0/Bar", Node.lit "42" none)])
          none false kbNS)).filter
          (fun t => t.p == .uri "http://ns.exiftool.org/Foo/1.0/Bar")
        = [⟨.uri (kbNS ++ "File-" ++ "0"), .uri "http://ns.exiftool.org/Foo/1.0/Bar",
            Node.lit "42" none⟩]) ∧
    (runOk (runMapper (some [("http://ns.exiftool.org/Foo/1.0/Bar", Node.lit "42" none)])
        (some [("http://ns.exiftool.org/Foo/1.0/Bar", Node.lit "forty-two" none)])
        false kbNS) = true ∧
      (graphOf (runMapper (some [("http://ns.exiftool.org/Foo/1.0/Bar", Node.lit "42" none)])
          (some [("http://ns.exiftool.org/Foo/1.0/Bar", Node.lit "forty-two" none)])
          false kbNS)).filter
          (fun t => t.p == .uri "http://ns.exiftool.org/Foo/1.0/Bar")
        = [⟨.uri (kbNS ++ "File-" ++ "0"), .uri "http://ns.exiftool.org/Foo/1.0/Bar",
            Node.lit "42" none⟩,
           ⟨.uri (kbNS ++ "File-" ++ "0"), .uri "http://ns.exiftool.org/Foo/1.0/Bar",
            Node.lit "forty-two" none⟩]) :=
  C6_unrecognized_fallback "http://ns.exiftool.org/Foo/1.0/Bar"
    (Node.lit "42" none) (Node.lit "forty-two" none) false kbNS
    (by decide) (by decide) (by decide)

/-- C5: the Make input (raw "Nikon Corporation", print-converted "NIKON")
yields exactly one Identity node; it carries primary name "NIKON" (its
only name) and comment "Nikon Corporation", and it is the object of the
`manufacturer` property of the camera device's Device facet. -/
theorem C5_make_identity_example :
    runOk c5_run = true ∧
    countTypeTriples (graphOf c5_run) (NS_UCO_IDENTITY "Identity") = 1 ∧
    (graphOf c5_run).filter (fun t => t.p == NS_UCO_CORE "name")
      = [⟨.uri "http://example.org/kb/Identity-1", NS_UCO_CORE "name",
          .lit "NIKON" none⟩] ∧
    (⟨.uri "http://example.org/kb/Identity-1", NS_RDFS "comment",
      .lit "Nikon Corporation" none⟩ : Triple) ∈ graphOf c5_run ∧
    (⟨.uri "http://example.org/kb/DeviceFacet-2", NS_UCO_OBSERVABLE "manufacturer",
      .uri "http://example.org/kb/Identity-1"⟩ : Triple) ∈ graphOf c5_run ∧
    (⟨.uri "http://example.org/kb/DeviceFacet-2", NS_RDF "type",
      NS_UCO_OBSERVABLE "DeviceFacet"⟩ : Triple) ∈ graphOf c5_run ∧
    (⟨.uri "http://example.org/kb/Device-3", NS_UCO_CORE "hasFacet",
      .uri "http://example.org/kb/DeviceFacet-2"⟩ : Triple) ∈ graphOf c5_run := by
  refine ⟨by decide, by decide, by decide, by decide, by decide, by decide, by decide⟩


lemma hasTypeTriple_of_count_toNat (g : List Triple) (c : Node) (b : Bool)
    (h : countTypeTriples g c = b.toNat) : hasTypeTriple g c = b := by
  cases b with
  | false =>
    cases hh : hasTypeTriple g c with
    | false => rfl
    | true =>
      have hp := (hasTypeTriple_pos g c).1 hh
      rw [h] at hp
      exact absurd hp (by simp)
  | true =>
    refine (hasTypeTriple_pos g c).2 ?_
    rw [h]
    exact Nat.zero_lt_one

/-- C1 (amended): for every completed run over ExifTool-namespace inputs,
the LatLongCoordinates facet appears in the output graph iff at least one
composite GPS coordinate identifier (Composite/1.0 GPSAltitude, GPSLatitude
or GPSLongitude) has a raw literal value; the Location→Object Relationship
appears iff additionally Composite/1.0/GPSPosition has a print-converted
literal; and each per-axis EXIF/GPS/1.0 identifier contributes its EXIF
controlled-dictionary entry iff that identifier has a raw literal value. -/
theorem C1_gps_output_iff (tr tpc : Option (List (String × Node))) (ud : Bool)
    (ns : String) (sf : MState)
    (hktr : ∀ kv ∈ tr.getD ([] : List (String × Node)), isExiftoolIri kv.1 = true)
    (hkpc : ∀ kv ∈ tpc.getD ([] : List (String × Node)), isExiftoolIri kv.1 = true)
    (h : runMapper tr tpc ud ns = .ok sf) :
    hasTypeTriple sf.graph (NS_UCO_LOCATION "LatLongCoordinatesFacet")
      = compCoordIris.any (fun j => hasLitAt (loadDict (tr.getD [])) j) ∧
    hasTypeTriple sf.graph (NS_UCO_CORE "Relationship")
      = (compCoordIris.any (fun j => hasLitAt (loadDict (tr.getD [])) j)
          || hasLitAt (loadDict (tpc.getD [])) iriCompositeGPSPosition) ∧
    (∀ i ∈ exifGpsIris,
      hasEntryKey sf.graph (pyReplace i iriExifGPSStem "")
        = hasLitAt (loadDict (tr.getD [])) i) := by
  obtain ⟨r1, r2, r3, r4, r5, r6, r7, r8, r9, r10, r11, r12, r13, r14⟩ :=
    run_facts tr tpc ud ns sf hktr hkpc h
  exact ⟨hasTypeTriple_of_count_toNat _ _ _ r1,
    hasTypeTriple_of_count_toNat _ _ _ r2, r4⟩

/-- Witness of C1 at a concrete input: a single composite GPS altitude
with a raw literal. -/
theorem C1_gps_output_iff_witness :
    (∀ kv ∈ (some compAltOnly_raw).getD ([] : List (String × Node)),
        isExiftoolIri kv.1 = true) ∧
    (∀ kv ∈ (none : Option (List (String × Node))).getD ([] : List (String × Node)),
        isExiftoolIri kv.1 = true) ∧
    runMapper (some compAltOnly_raw) none false kbNS = .ok compAltOnly_sf ∧
    (hasTypeTriple compAltOnly_sf.graph (NS_UCO_LOCATION "LatLongCoordinatesFacet")
        = compCoordIris.any
            (fun j => hasLitAt (loadDict ((some compAltOnly_raw).getD [])) j) ∧
      hasTypeTriple compAltOnly_sf.graph (NS_UCO_CORE "Relationship")
        = (compCoordIris.any
              (fun j => hasLitAt (loadDict ((some compAltOnly_raw).getD [])) j)
            || hasLitAt
                (loadDict ((none : Option (List (String × Node))).getD []))
                iriCompositeGPSPosition) ∧
      ∀ i ∈ exifGpsIris,
        hasEntryKey compAltOnly_sf.graph (pyReplace i iriExifGPSStem "")
          = hasLitAt (loadDict ((some compAltOnly_raw).getD [])) i) :=
  ⟨by decide, by decide, rfl,
    C1_gps_output_iff (some compAltOnly_raw) none false kbNS compAltOnly_sf
      (by decide) (by decide) rfl⟩

/-- C2 (amended): raw GPS coordinate values are routed by identifier
family.  A composite (Composite/1.0) coordinate raw literal is asserted
as an `xsd:decimal`-typed literal on the Location object's
LatLongCoordinates facet, and that facet is instantiated exactly when
some composite coordinate has a raw literal — per-axis identifiers never
create it.  A per-axis (EXIF/GPS/1.0) raw literal is recorded as an EXIF
controlled-dictionary entry whose key is the stripped axis name and whose
value is the raw literal; an axis entry is present exactly when that
per-axis identifier has a raw literal, and every entry key of the output
graph is a stripped per-axis name or an image-dimension key — so a
composite value is never copied into the dictionary. -/
theorem C2_gps_values_recorded (tr tpc : Option (List (String × Node))) (ud : Bool)
    (ns : String) (sf : MState)
    (hktr : ∀ kv ∈ tr.getD ([] : List (String × Node)), isExiftoolIri kv.1 = true)
    (hkpc : ∀ kv ∈ tpc.getD ([] : List (String × Node)), isExiftoolIri kv.1 = true)
    (h : runMapper tr tpc ud ns = .ok sf) :
    (∀ i ∈ compCoordIris, ∀ lex dt,
      dictLookup (loadDict (tr.getD [])) i = some (.lit lex dt) →
      ∃ f, Triple.mk (.uri f) (NS_UCO_LOCATION (coordProp i))
        (.lit lex (some (NS_XSD "decimal"))) ∈ sf.graph) ∧
    countTypeTriples sf.graph (NS_UCO_LOCATION "LatLongCoordinatesFacet")
      = (compCoordIris.any (fun j => hasLitAt (loadDict (tr.getD [])) j)).toNat ∧
    (∀ i ∈ exifGpsIris, ∀ lex dt,
      dictLookup (loadDict (tr.getD [])) i = some (.lit lex dt) →
      ∃ e, Triple.mk (.uri e) (NS_UCO_TYPES "key")
          (.lit (pyReplace i iriExifGPSStem "") none) ∈ sf.graph ∧
        Triple.mk (.uri e) (NS_UCO_TYPES "value") (.lit lex dt) ∈ sf.graph) ∧
    (∀ i ∈ exifGpsIris,
      hasEntryKey sf.graph (pyReplace i iriExifGPSStem "")
        = hasLitAt (loadDict (tr.getD [])) i) ∧
    (∀ k, hasEntryKey sf.graph k = true →
      (∃ i ∈ exifGpsIris, k = pyReplace i iriExifGPSStem "") ∨
      k = "Image Height" ∨ k = "Image Width") := by
  obtain ⟨r1, r2, r3, r4, r5, r6, r7, r8, r9, r10, r11, r12, r13, r14⟩ :=
    run_facts tr tpc ud ns sf hktr hkpc h
  exact ⟨r7, r1, r13, r4, r14⟩

/-- Witness of C2 at a concrete input: a single per-axis EXIF GPS latitude
with a raw literal. -/
theorem C2_gps_values_recorded_witness :
    (∀ kv ∈ (some exifGpsLatOnly_raw).getD ([] : List (String × Node)),
        isExiftoolIri kv.1 = true) ∧
    (∀ kv ∈ (none : Option (List (String × Node))).getD ([] : List (String × Node)),
        isExiftoolIri kv.1 = true) ∧
    runMapper (some exifGpsLatOnly_raw) none false kbNS = .ok exifGpsLatOnly_sf ∧
    ((∀ i ∈ compCoordIris, ∀ lex dt,
        dictLookup (loadDict ((some exifGpsLatOnly_raw).getD [])) i
          = some (.lit lex dt) →
        ∃ f, Triple.mk (.uri f) (NS_UCO_LOCATION (coordProp i))
          (.lit lex (some (NS_XSD "decimal"))) ∈ exifGpsLatOnly_sf.graph) ∧
      countTypeTriples exifGpsLatOnly_sf.graph
          (NS_UCO_LOCATION "LatLongCoordinatesFacet")
        = (compCoordIris.any
            (fun j => hasLitAt (loadDict ((some exifGpsLatOnly_raw).getD [])) j)).toNat ∧
      (∀ i ∈ exifGpsIris, ∀ lex dt,
        dictLookup (loadDict ((some exifGpsLatOnly_raw).getD [])) i
          = some (.lit lex dt) →
        ∃ e, Triple.mk (.uri e) (NS_UCO_TYPES "key")
            (.lit (pyReplace i iriExifGPSStem "") none) ∈ exifGpsLatOnly_sf.graph ∧
          Triple.mk (.uri e) (NS_UCO_TYPES "value") (.lit lex dt)
            ∈ exifGpsLatOnly_sf.graph) ∧
      (∀ i ∈ exifGpsIris,
        hasEntryKey exifGpsLatOnly_sf.graph (pyReplace i iriExifGPSStem "")
          = hasLitAt (loadDict ((some exifGpsLatOnly_raw).getD [])) i) ∧
      (∀ k, hasEntryKey exifGpsLatOnly_sf.graph k = true →
        (∃ i ∈ exifGpsIris, k = pyReplace i iriExifGPSStem "") ∨
        k = "Image Height" ∨ k = "Image Width")) :=
  ⟨by decide, by decide, rfl,
    C2_gps_values_recorded (some exifGpsLatOnly_raw) none false kbNS exifGpsLatOnly_sf
      (by decide) (by decide) rfl⟩

/-- C3 (amended): for every completed run over ExifTool-namespace inputs,
an ExifImageHeight raw literal is recorded both as the "Image Height"
EXIF dictionary entry and as an integer-typed `pictureHeight` property on
the Raster-Picture facet; an ExifImageWidth raw literal is always recorded
as the "Image Width" dictionary entry, and its `pictureWidth` facet
property is asserted whenever the Raster-Picture facet exists at width
dispatch time — that is, when the raw MIME type is "image/jpeg" or an
ExifImageHeight raw literal is present (height sorts before width and its
handler instantiates the facet). -/
theorem C3_dimensions_recorded (tr tpc : Option (List (String × Node))) (ud : Bool)
    (ns : String) (sf : MState)
    (hktr : ∀ kv ∈ tr.getD ([] : List (String × Node)), isExiftoolIri kv.1 = true)
    (hkpc : ∀ kv ∈ tpc.getD ([] : List (String × Node)), isExiftoolIri kv.1 = true)
    (h : runMapper tr tpc ud ns = .ok sf) :
    (∀ lex dt,
      dictLookup (loadDict (tr.getD [])) iriExifImageHeight = some (.lit lex dt) →
      hasEntryKey sf.graph "Image Height" = true ∧
      ∃ n, pyIntOfString lex = some n ∧
        ∃ f, Triple.mk (.uri f) (NS_UCO_OBSERVABLE "pictureHeight") (intLiteral n)
          ∈ sf.graph) ∧
    (∀ lex dt,
      dictLookup (loadDict (tr.getD [])) iriExifImageWidth = some (.lit lex dt) →
      hasEntryKey sf.graph "Image Width" = true) ∧
    (litValue (dictLookup (loadDict (tr.getD [])) iriMIMEType) = some "image/jpeg" ∨
        hasLitAt (loadDict (tr.getD [])) iriExifImageHeight = true →
      ∀ lex dt,
      dictLookup (loadDict (tr.getD [])) iriExifImageWidth = some (.lit lex dt) →
      ∃ n, pyIntOfString lex = some n ∧
        ∃ f, Triple.mk (.uri f) (NS_UCO_OBSERVABLE "pictureWidth") (intLiteral n)
          ∈ sf.graph) := by
  obtain ⟨r1, r2, r3, r4, r5, r6, r7, r8, r9, r10, r11, r12, r13, r14⟩ :=
    run_facts tr tpc ud ns sf hktr hkpc h
  refine ⟨?_, ?_, r10⟩
  · intro lex dt hlk
    refine ⟨?_, r8 lex dt hlk⟩
    rw [r5]
    unfold hasLitAt
    rw [hlk]
  · intro lex dt hlk
    rw [r6]
    unfold hasLitAt
    rw [hlk]

/-- Witness of C3 at a concrete input: a single ExifImageHeight with an
integer raw literal. -/
theorem C3_dimensions_recorded_witness :
    (∀ kv ∈ (some heightOnly_raw).getD ([] : List (String × Node)),
        isExiftoolIri kv.1 = true) ∧
    (∀ kv ∈ (none : Option (List (String × Node))).getD ([] : List (String × Node)),
        isExiftoolIri kv.1 = true) ∧
    runMapper (some heightOnly_raw) none false kbNS = .ok heightOnly_sf ∧
    ((∀ lex dt,
        dictLookup (loadDict ((some heightOnly_raw).getD [])) iriExifImageHeight
          = some (.lit lex dt) →
        hasEntryKey heightOnly_sf.graph "Image Height" = true ∧
        ∃ n, pyIntOfString lex = some n ∧
          ∃ f, Triple.mk (.uri f) (NS_UCO_OBSERVABLE "pictureHeight") (intLiteral n)
            ∈ heightOnly_sf.graph) ∧
      (∀ lex dt,
        dictLookup (loadDict ((some heightOnly_raw).getD [])) iriExifImageWidth
          = some (.lit lex dt) →
        hasEntryKey heightOnly_sf.graph "Image Width" = true) ∧
      (litValue (dictLookup (loadDict ((some heightOnly_raw).getD [])) iriMIMEType)
          = some "image/jpeg" ∨
          hasLitAt (loadDict ((some heightOnly_raw).getD [])) iriExifImageHeight
            = true →
        ∀ lex dt,
        dictLookup (loadDict ((some heightOnly_raw).getD [])) iriExifImageWidth
          = some (.lit lex dt) →
        ∃ n, pyIntOfString lex = some n ∧
          ∃ f, Triple.mk (.uri f) (NS_UCO_OBSERVABLE "pictureWidth") (intLiteral n)
            ∈ heightOnly_sf.graph)) :=
  ⟨by decide, by decide, rfl,
    C3_dimensions_recorded (some heightOnly_raw) none false kbNS heightOnly_sf
      (by decide) (by decide) rfl⟩

/-- C9 (amended): numeric coercion failures are fatal only for the numeric
coercions a run actually attempts: in every completed run over
ExifTool-namespace inputs, the raw FileSize literal (if present) parses as
an integer, the raw ExifImageHeight literal (if present) parses as an
integer, and — when the raw MIME type is "image/jpeg" or an
ExifImageHeight raw literal is present, so that a Raster-Picture facet
exists and the width coercion is reached — the raw ExifImageWidth literal
parses as an integer.  (An unparsable ExifImageWidth with neither trigger
does not abort the run: its coercion is never attempted.) -/
theorem C9_numeric_coercion_on_ok (tr tpc : Option (List (String × Node))) (ud : Bool)
    (ns : String) (sf : MState)
    (hktr : ∀ kv ∈ tr.getD ([] : List (String × Node)), isExiftoolIri kv.1 = true)
    (hkpc : ∀ kv ∈ tpc.getD ([] : List (String × Node)), isExiftoolIri kv.1 = true)
    (h : runMapper tr tpc ud ns = .ok sf) :
    (∀ lex dt,
      dictLookup (loadDict (tr.getD [])) iriFileSize = some (.lit lex dt) →
      (pyIntOfString lex).isSome = true) ∧
    (∀ lex dt,
      dictLookup (loadDict (tr.getD [])) iriExifImageHeight = some (.lit lex dt) →
      (pyIntOfString lex).isSome = true) ∧
    (litValue (dictLookup (loadDict (tr.getD [])) iriMIMEType) = some "image/jpeg" ∨
        hasLitAt (loadDict (tr.getD [])) iriExifImageHeight = true →
      ∀ lex dt,
      dictLookup (loadDict (tr.getD [])) iriExifImageWidth = some (.lit lex dt) →
      (pyIntOfString lex).isSome = true) := by
  obtain ⟨r1, r2, r3, r4, r5, r6, r7, r8, r9, r10, r11, r12, r13, r14⟩ :=
    run_facts tr tpc ud ns sf hktr hkpc h
  refine ⟨?_, ?_, ?_⟩
  · intro lex dt hlk
    obtain ⟨n, hn, _⟩ := r9 lex dt hlk
    rw [hn]
    rfl
  · intro lex dt hlk
    obtain ⟨n, hn, _⟩ := r8 lex dt hlk
    rw [hn]
    rfl
  · intro htrig lex dt hlk
    obtain ⟨n, hn, _⟩ := r10 htrig lex dt hlk
    rw [hn]
    rfl

/-- Witness of C9 at a concrete input: the C4 example input (a JPEG MIME
type and an integer FileSize). -/
theorem C9_numeric_coercion_on_ok_witness :
    (∀ kv ∈ (some c4_raw).getD ([] : List (String × Node)),
        isExiftoolIri kv.1 = true) ∧
    (∀ kv ∈ (none : Option (List (String × Node))).getD ([] : List (String × Node)),
        isExiftoolIri kv.1 = true) ∧
    runMapper (some c4_raw) none false kbNS = .ok c4_sf ∧
    ((∀ lex dt,
        dictLookup (loadDict ((some c4_raw).getD [])) iriFileSize
          = some (.lit lex dt) →
        (pyIntOfString lex).isSome = true) ∧
      (∀ lex dt,
        dictLookup (loadDict ((some c4_raw).getD [])) iriExifImageHeight
          = some (.lit lex dt) →
        (pyIntOfString lex).isSome = true) ∧
      (litValue (dictLookup (loadDict ((some c4_raw).getD [])) iriMIMEType)
          = some "image/jpeg" ∨
          hasLitAt (loadDict ((some c4_raw).getD [])) iriExifImageHeight = true →
        ∀ lex dt,
        dictLookup (loadDict ((some c4_raw).getD [])) iriExifImageWidth
          = some (.lit lex dt) →
        (pyIntOfString lex).isSome = true)) :=
  ⟨by decide, by decide, rfl,
    C9_numeric_coercion_on_ok (some c4_raw) none false kbNS c4_sf
      (by decide) (by decide) rfl⟩

lemma n_exif_dictionary_object_own (s : MState) (n : String) (s' : MState)
    (h : n_exif_dictionary_object s = .ok (n, s')) :
    s'._n_exif_dictionary_object = some n := by
  cases hobj : s._n_exif_dictionary_object with
  | some m =>
    unfold n_exif_dictionary_object at h
    rw [hobj] at h
    obtain ⟨hm, hs⟩ : m = n ∧ s = s' := by simpa using h
    subst hs
    rw [hobj, hm]
  | none =>
    unfold n_exif_dictionary_object at h
    rw [hobj] at h
    cases hed : s._exif_dictionary_dict with
    | some d =>
      have hex : exif_dictionary_dict s = (d, s) := by
        unfold exif_dictionary_dict
        rw [hed]
      rw [hex] at h
      obtain ⟨⟨cn, s1⟩, hc, h2⟩ := bind_ok_inv h
      obtain ⟨⟨ef, s2⟩, hef, h3⟩ := bind_ok_inv h2
      simp only [Except.ok.injEq, Prod.mk.injEq] at h3
      obtain ⟨hn, hs⟩ := h3
      subst hs
      have hp := n_exif_facet_edobj _ _ _ hef
      have h4 := hp.trans (congrArg Option.some hn)
      exact h4
    | none =>
      have hex : exif_dictionary_dict s
          = ([], { s with _exif_dictionary_dict := some [] }) := by
        unfold exif_dictionary_dict
        rw [hed]
      rw [hex] at h
      obtain ⟨⟨cn, s1⟩, hc, h2⟩ := bind_ok_inv h
      obtain ⟨⟨ef, s2⟩, hef, h3⟩ := bind_ok_inv h2
      simp only [Except.ok.injEq, Prod.mk.injEq] at h3
      obtain ⟨hn, hs⟩ := h3
      subst hs
      have hp := n_exif_facet_edobj _ _ _ hef
      have h4 := hp.trans (congrArg Option.some hn)
      exact h4

/-- C7: the lazy accessors are idempotent — re-running any accessor on its
own result state returns the same node and leaves the state unchanged (so
second and later accesses add no triples) — and, in every completed run
over ExifTool-namespace inputs, the output graph holds at least one and at
most two ObservableObject type triples (the base object plus an optional
Device object) and at most one type triple each for the Location object,
its LatLongCoordinates facet, and the Location relationship. -/
theorem C7_accessors_idempotent_and_counts (tr tpc : Option (List (String × Node)))
    (ud : Bool) (ns : String) (sf : MState)
    (hktr : ∀ kv ∈ tr.getD ([] : List (String × Node)), isExiftoolIri kv.1 = true)
    (hkpc : ∀ kv ∈ tpc.getD ([] : List (String × Node)), isExiftoolIri kv.1 = true)
    (h : runMapper tr tpc ud ns = .ok sf) :
    (∀ (s1 : MState) (n : String) (s1' : MState),
      n_observable_object s1 = .ok (n, s1') → n_observable_object s1' = .ok (n, s1')) ∧
    (∀ (s1 : MState) (n : String) (s1' : MState),
      n_camera_object s1 = (n, s1') → n_camera_object s1' = (n, s1')) ∧
    (∀ (s1 : MState) (n : String) (s1' : MState),
      n_location_object s1 = (n, s1') → n_location_object s1' = (n, s1')) ∧
    (∀ (s1 : MState) (n : String) (s1' : MState),
      n_location_object_latlong_facet s1 = (n, s1') →
      n_location_object_latlong_facet s1' = (n, s1')) ∧
    (∀ (s1 : MState) (n : String) (s1' : MState),
      n_camera_object_device_facet s1 = (n, s1') →
      n_camera_object_device_facet s1' = (n, s1')) ∧
    (∀ (s1 : MState) (n : String) (s1' : MState),
      n_content_data_facet s1 = .ok (n, s1') →
      n_content_data_facet s1' = .ok (n, s1')) ∧
    (∀ (s1 : MState) (n : String) (s1' : MState),
      n_exif_facet s1 = .ok (n, s1') → n_exif_facet s1' = .ok (n, s1')) ∧
    (∀ (s1 : MState) (n : String) (s1' : MState),
      n_file_facet s1 = .ok (n, s1') → n_file_facet s1' = .ok (n, s1')) ∧
    (∀ (s1 : MState) (n : String) (s1' : MState),
      n_raster_picture_facet s1 = .ok (n, s1') →
      n_raster_picture_facet s1' = .ok (n, s1')) ∧
    (∀ (s1 : MState) (n : String) (s1' : MState),
      n_unix_file_permissions_facet s1 = .ok (n, s1') →
      n_unix_file_permissions_facet s1' = .ok (n, s1')) ∧
    (∀ (s1 : MState) (n : String) (s1' : MState),
      n_exif_dictionary_object s1 = .ok (n, s1') →
      n_exif_dictionary_object s1' = .ok (n, s1')) ∧
    (∀ (s1 : MState) (d : List (String × Node)) (s1' : MState),
      exif_dictionary_dict s1 = (d, s1') → exif_dictionary_dict s1' = (d, s1')) ∧
    1 ≤ countTypeTriples sf.graph (NS_UCO_OBSERVABLE "ObservableObject") ∧
    countTypeTriples sf.graph (NS_UCO_OBSERVABLE "ObservableObject") ≤ 2 ∧
    countTypeTriples sf.graph (NS_UCO_LOCATION "Location") ≤ 1 ∧
    countTypeTriples sf.graph (NS_UCO_LOCATION "LatLongCoordinatesFacet") ≤ 1 ∧
    countTypeTriples sf.graph (NS_UCO_CORE "Relationship") ≤ 1 := by
  obtain ⟨r1, r2, r3, r4, r5, r6, r7, r8, r9, r10, r11, r12, r13, r14⟩ :=
    run_facts tr tpc ud ns sf hktr hkpc h
  have hb : ∀ b : Bool, b.toNat ≤ 1 := by decide
  refine ⟨?_, ?_, ?_, ?_, ?_, ?_, ?_, ?_, ?_, ?_, ?_, ?_, r11, r12, ?_, ?_, ?_⟩
  · intro s1 n s1' hx
    have h9 := (n_observable_object_facts _ _ _ hx).2.2.2.2.2.2.2.2.1
    exact n_observable_object_memo s1' n h9
  · intro s1 n s1' hx
    have h9 := (n_camera_object_facts _ _ _ hx).2.2.2.2.2.2.2.2.1
    unfold n_camera_object
    rw [h9]
  · intro s1 n s1' hx
    have h9 := (n_location_object_facts _ _ _ hx).2.2.2.2.2.2.2.2.1
    unfold n_location_object
    rw [h9]
  · intro s1 n s1' hx
    have hown : s1'._n_location_object_latlong_facet = some n := by
      have hll := ll_snd_own s1
      rw [hx] at hll
      exact hll
    unfold n_location_object_latlong_facet
    rw [hown]
  · intro s1 n s1' hx
    have hown : s1'._n_camera_object_device_facet = some n := by
      have hcd := cdf_snd_own s1
      rw [hx] at hcd
      exact hcd
    unfold n_camera_object_device_facet
    rw [hown]
  · intro s1 n s1' hx
    have hown := n_content_data_facet_own _ _ _ hx
    unfold n_content_data_facet
    rw [hown]
  · intro s1 n s1' hx
    have hown := n_exif_facet_own _ _ _ hx
    unfold n_exif_facet
    rw [hown]
  · intro s1 n s1' hx
    have hown := n_file_facet_own _ _ _ hx
    unfold n_file_facet
    rw [hown]
  · intro s1 n s1' hx
    have hown := n_raster_picture_facet_own _ _ _ hx
    unfold n_raster_picture_facet
    rw [hown]
  · intro s1 n s1' hx
    have hown := n_unix_file_permissions_facet_own _ _ _ hx
    unfold n_unix_file_permissions_facet
    rw [hown]
  · intro s1 n s1' hx
    have hown := n_exif_dictionary_object_own _ _ _ hx
    unfold n_exif_dictionary_object
    rw [hown]
  · intro s1 d s1' hx
    cases hf : s1._exif_dictionary_dict with
    | some m =>
      unfold exif_dictionary_dict at hx
      rw [hf] at hx
      rw [Prod.mk.injEq] at hx
      obtain ⟨hm, hs⟩ := hx
      subst hm
      subst hs
      unfold exif_dictionary_dict
      rw [hf]
    | none =>
      unfold exif_dictionary_dict at hx
      rw [hf] at hx
      rw [Prod.mk.injEq] at hx
      obtain ⟨hm, hs⟩ := hx
      subst hm
      subst hs
      rfl
  · rw [r3]
    exact hb _
  · rw [r1]
    exact hb _
  · rw [r2]
    exact hb _

/-- Witness of C7 at a concrete input: the C5 example run (a Make
identifier with raw and print-converted values). -/
theorem C7_accessors_idempotent_and_counts_witness :
    (∀ kv ∈ (some c5_raw).getD ([] : List (String × Node)),
        isExiftoolIri kv.1 = true) ∧
    (∀ kv ∈ (some c5_printconv).getD ([] : List (String × Node)),
        isExiftoolIri kv.1 = true) ∧
    runMapper (some c5_raw) (some c5_printconv) false kbNS = .ok c5_sf ∧
    ((∀ (s1 : MState) (n : String) (s1' : MState),
        n_observable_object s1 = .ok (n, s1') →
        n_observable_object s1' = .ok (n, s1')) ∧
      (∀ (s1 : MState) (n : String) (s1' : MState),
        n_camera_object s1 = (n, s1') → n_camera_object s1' = (n, s1')) ∧
      (∀ (s1 : MState) (n : String) (s1' : MState),
        n_location_object s1 = (n, s1') → n_location_object s1' = (n, s1')) ∧
      (∀ (s1 : MState) (n : String) (s1' : MState),
        n_location_object_latlong_facet s1 = (n, s1') →
        n_location_object_latlong_facet s1' = (n, s1')) ∧
      (∀ (s1 : MState) (n : String) (s1' : MState),
        n_camera_object_device_facet s1 = (n, s1') →
        n_camera_object_device_facet s1' = (n, s1')) ∧
      (∀ (s1 : MState) (n : String) (s1' : MState),
        n_content_data_facet s1 = .ok (n, s1') →
        n_content_data_facet s1' = .ok (n, s1')) ∧
      (∀ (s1 : MState) (n : String) (s1' : MState),
        n_exif_facet s1 = .ok (n, s1') → n_exif_facet s1' = .ok (n, s1')) ∧
      (∀ (s1 : MState) (n : String) (s1' : MState),
        n_file_facet s1 = .ok (n, s1') → n_file_facet s1' = .ok (n, s1')) ∧
      (∀ (s1 : MState) (n : String) (s1' : MState),
        n_raster_picture_facet s1 = .ok (n, s1') →
        n_raster_picture_facet s1' = .ok (n, s1')) ∧
      (∀ (s1 : MState) (n : String) (s1' : MState),
        n_unix_file_permissions_facet s1 = .ok (n, s1') →
        n_unix_file_permissions_facet s1' = .ok (n, s1')) ∧
      (∀ (s1 : MState) (n : String) (s1' : MState),
        n_exif_dictionary_object s1 = .ok (n, s1') →
        n_exif_dictionary_object s1' = .ok (n, s1')) ∧
      (∀ (s1 : MState) (d : List (String × Node)) (s1' : MState),
        exif_dictionary_dict s1 = (d, s1') → exif_dictionary_dict s1' = (d, s1')) ∧
      1 ≤ countTypeTriples c5_sf.graph (NS_UCO_OBSERVABLE "ObservableObject") ∧
      countTypeTriples c5_sf.graph (NS_UCO_OBSERVABLE "ObservableObject") ≤ 2 ∧
      countTypeTriples c5_sf.graph (NS_UCO_LOCATION "Location") ≤ 1 ∧
      countTypeTriples c5_sf.graph (NS_UCO_LOCATION "LatLongCoordinatesFacet") ≤ 1 ∧
      countTypeTriples c5_sf.graph (NS_UCO_CORE "Relationship") ≤ 1) :=
  ⟨by decide, by decide, rfl,
    C7_accessors_idempotent_and_counts (some c5_raw) (some c5_printconv) false kbNS
      c5_sf (by decide) (by decide) rfl⟩

end CaseExiftool
